import Mathlib

/-!
# check_dht22: DHT22 sensor nagios plugin

A shallow embedding of `dht22.c` (protocol driver, decoding, retry loop) and
`nagioshelper.c` (threshold normalisation, validation, classification), and the
properties of the natural-language specification proved over it.

Conventions of the embedding

* C `int` values that are only stored and compared are `Int`.
* C `unsigned int` values are `Nat`, reduced modulo `2^32` after every
  arithmetic step.
* C `float` is `CFloat`, an IEEE-754 binary32 value with round-to-nearest-even
  arithmetic (`FLT_EVAL_METHOD` 0, as on the ARM boards the plugin targets).
* `exit(EXIT_FAILURE)` is the `Except.error` result of the function that calls it.
* The GPIO line and the wall clock are the `World`: the future answers of
  `digitalRead` and `gettimeofday`, and the log of the calls made so far.
-/

namespace DHT22

/-! ## The C type `float` -/

/-- A value of the C type `float` (IEEE-754 binary32). Every finite binary32
value is an integer multiple of `2^-149`, the smallest subnormal: `fin k` is the
value `k * 2^-149`. The sign of a zero is not kept: `+0` and `-0` compare equal
and the program never divides by a zero. -/
inductive CFloat where
  | nan : CFloat
  | inf (negative : Bool) : CFloat
  | fin (k : Int) : CFloat
deriving DecidableEq, Repr

namespace CFloat

/-- The number of `2^-149` units in `1.0`. -/
def one : Nat := 2 ^ 149

/-- The first magnitude, in units, that no longer rounds to a finite value
(`2^128` as a real number). -/
def overflow : Nat := 2 ^ 128 * 2 ^ 149

/-- Halve `n` until it is below 2, at most `fuel` times, counting the halvings. -/
def log2Aux : Nat → Nat → Nat
  | 0, _ => 0
  | fuel + 1, n => if n < 2 then 0 else log2Aux fuel (n / 2) + 1

/-- The position of the highest set bit of `n`, that is `⌊log₂ n⌋` (0 for `n = 0`),
capped at 277: a magnitude of `2^277` units or more overflows whatever its binade. -/
def log2 (n : Nat) : Nat := log2Aux 277 n

/-- Round the exact magnitude `num / den` units to the nearest binary32 magnitude,
ties to even. In the binade `[2^L, 2^(L+1))` units the representable values are
`2^(L-23)` units apart (one unit apart below `2^24` units, which covers the
subnormals). -/
def roundMag (num den : Nat) : Nat :=
  let L := log2 (num / den)
  let q := 2 ^ (L - 23)
  let d := den * q
  let t := num / d
  let r := num % d
  let t1 := if d < 2 * r ∨ (2 * r = d ∧ t % 2 = 1) then t + 1 else t
  t1 * q

/-- The binary32 value nearest to the exact value `num / den` units (`den > 0`). -/
def round (num : Int) (den : Nat) : CFloat :=
  let k := roundMag num.natAbs den
  if overflow ≤ k then inf (decide (num < 0))
  else fin (if num < 0 then -(k : Int) else (k : Int))

/-- Conversion `(float)i` of a C `int` or `unsigned int`. -/
def ofInt (i : Int) : CFloat := round (i * one) 1

/-- C `a + b` on `float`. -/
def add : CFloat → CFloat → CFloat
  | fin a, fin b => round (a + b) 1
  | fin _, inf n => inf n
  | inf n, fin _ => inf n
  | inf n, inf m => if n = m then inf n else nan
  | _, _ => nan

/-- C `a * b` on `float`. -/
def mul : CFloat → CFloat → CFloat
  | fin a, fin b => round (a * b) one
  | fin a, inf n => if a = 0 then nan else inf (n != decide (a < 0))
  | inf n, fin b => if b = 0 then nan else inf (n != decide (b < 0))
  | inf n, inf m => inf (n != m)
  | _, _ => nan

/-- C `a / b` on `float`. -/
def div : CFloat → CFloat → CFloat
  | fin a, fin b =>
    if b = 0 then (if a = 0 then nan else inf (decide (a < 0)))
    else round (if b < 0 then -(a * one) else a * one) b.natAbs
  | fin _, inf _ => fin 0
  | inf n, fin b => inf (n != decide (b < 0))
  | _, _ => nan

/-- C `a <= b` on `float`: false as soon as one side is a NaN. -/
def le : CFloat → CFloat → Bool
  | fin a, fin b => decide (a ≤ b)
  | fin _, inf n => !n
  | inf n, fin _ => n
  | inf n, inf m => n || !m
  | _, _ => false

/-- C `a >= b` on `float`. -/
def ge (a b : CFloat) : Bool := le b a

/-- C `a == b` on `float`: a NaN is equal to nothing. -/
def eq : CFloat → CFloat → Bool
  | fin a, fin b => decide (a = b)
  | inf n, inf m => n == m
  | _, _ => false

/-- C `a != b` on `float`. -/
def ne (a b : CFloat) : Bool := !(eq a b)

end CFloat

/-! ## dht22.h -/

/-- Macro `SENSOR_NA` of dht22.h. -/
def SENSOR_NA : Int := 110
/-- Macro `SENSOR_TMP_MIN` of dht22.h. -/
def SENSOR_TMP_MIN : Int := -40
/-- Macro `SENSOR_TMP_MAX` of dht22.h. -/
def SENSOR_TMP_MAX : Int := 80
/-- Macro `SENSOR_HUM_MIN` of dht22.h. -/
def SENSOR_HUM_MIN : Int := 0
/-- Macro `SENSOR_HUM_MAX` of dht22.h. -/
def SENSOR_HUM_MAX : Int := 100

/-- The C type `struct sensorOutput`. -/
structure sensorOutput where
  temperature : CFloat
  humidity : CFloat
deriving DecidableEq, Repr

/-! ## dht22.c -/

/-- The C type `struct timeval`. -/
structure timeval where
  tv_sec : Int
  tv_usec : Int
deriving DecidableEq, Repr

/-- Macro `timeradd` of `sys/time.h`. -/
def timeradd (a b : timeval) : timeval :=
  let sec := a.tv_sec + b.tv_sec
  let usec := a.tv_usec + b.tv_usec
  if usec ≥ 1000000 then { tv_sec := sec + 1, tv_usec := usec - 1000000 }
  else { tv_sec := sec, tv_usec := usec }

/-- Macro `timersub` of `sys/time.h`. -/
def timersub (a b : timeval) : timeval :=
  let sec := a.tv_sec - b.tv_sec
  let usec := a.tv_usec - b.tv_usec
  if usec < 0 then { tv_sec := sec - 1, tv_usec := usec + 1000000 }
  else { tv_sec := sec, tv_usec := usec }

/-- Macro `timercmp(a, b, >)` of `sys/time.h`. -/
def timercmpGt (a b : timeval) : Bool :=
  if a.tv_sec = b.tv_sec then decide (a.tv_usec > b.tv_usec) else decide (a.tv_sec > b.tv_sec)

/-- Line level `HIGH` of wiringPi. -/
def HIGH : Bool := true
/-- Line level `LOW` of wiringPi. -/
def LOW : Bool := false

/-- The calls into wiringPi and the C library that act on the line, the process
or the passing of time without giving the program a value it uses. -/
inductive Call where
  | piHiPri (pri : Int)
  | nanosleep (sec nsec : Nat)
  | pinMode (pin : Int) (output : Bool)
  | digitalWrite (pin : Int) (level : Bool)
  | delay (ms : Nat)
  | delayMicroseconds (us : Nat)
deriving DecidableEq, Repr

/-- The surroundings of the program: the value `wiringPiSetup` will return, the
levels the coming calls of `digitalRead` will see, the times the coming calls of
`gettimeofday` will report, and the calls made so far, oldest first. -/
structure World where
  wiringPi : Int
  line : List Bool
  clock : List timeval
  log : List Call
deriving DecidableEq, Repr

/-- A C function acting on the world. The result `none` means that the world
was described for too short a time: a list of coming levels or times ran out. -/
abbrev Prog (α : Type) : Type := World → Option (α × World)

/-- Sequencing of two steps. -/
def Prog.andThen {α β : Type} (p : Prog α) (f : α → Prog β) : Prog β :=
  fun w => match p w with
    | none => none
    | some (a, w1) => f a w1

/-- A step that only returns a value. -/
def Prog.ret {α : Type} (a : α) : Prog α := fun w => some (a, w)

/-- Record a call in the log. -/
def call (c : Call) : Prog Unit := fun w => some ((), { w with log := w.log ++ [c] })

/-- The function `digitalRead` of wiringPi. -/
def digitalRead (_pin : Int) : Prog Bool := fun w =>
  match w.line with
  | [] => none
  | level :: rest => some (level, { w with line := rest })

/-- The function `gettimeofday`. -/
def gettimeofday : Prog timeval := fun w =>
  match w.clock with
  | [] => none
  | now :: rest => some (now, { w with clock := rest })

/-- One of the two polling loops of `sensorLowHighWait`:
`while (digitalRead(GPIO)==level) { gettimeofday(&now); if (timercmp(&now, &timeUp, >)) return FALSE; }`.
The result is `false` when the loop left the function with `FALSE` and `true`
when the loop ended. Every turn reads the line once, so a fuel above the number
of levels left never runs out first. -/
def pollWhile ( GPIO : Int) (level : Bool) (timeUp : timeval) : Nat → Prog Bool
  | 0 => fun _ => none
  | fuel + 1 =>
    (digitalRead GPIO).andThen fun l =>
    if l = level then
      gettimeofday.andThen fun now =>
      if timercmpGt now timeUp then Prog.ret false
      else pollWhile GPIO level timeUp fuel
    else Prog.ret true

/-- A polling loop of `sensorLowHighWait`, run with enough fuel for the levels
the world still holds. -/
def pollLine ( GPIO : Int) (level : Bool) (timeUp : timeval) : Prog Bool :=
  fun w => pollWhile GPIO level timeUp (w.line.length + 1) w

/-- The function `sensorLowHighWait`. -/
def sensorLowHighWait ( GPIO : Int) : Prog Bool :=
  gettimeofday.andThen fun now =>
  let timeOut : timeval := { tv_sec := 0, tv_usec := 1000 }
  let timeUp := timeradd now timeOut
  (pollLine GPIO HIGH timeUp).andThen fun ended =>
  if !ended then Prog.ret false
  else
    gettimeofday.andThen fun now =>
    let timeUp := timeradd now timeOut
    (pollLine GPIO LOW timeUp).andThen fun ended =>
    if !ended then Prog.ret false
    else Prog.ret true

/-- The loop of `retrieveByte` with `bits` turns left and the bits read so far in
`result`, an `unsigned int`. -/
def retrieveBits ( GPIO : Int) : Nat → Nat → Prog Nat
  | 0, result => Prog.ret result
  | bits + 1, result =>
    (sensorLowHighWait GPIO).andThen fun ok =>
    if !ok then Prog.ret 0
    else
      (call (Call.delayMicroseconds 30)).andThen fun _ =>
      let result := (result <<< 1) % 2 ^ 32
      (digitalRead GPIO).andThen fun l =>
      let result := if l = HIGH then result ||| 1 else result
      retrieveBits GPIO bits result

/-- The function `retrieveByte`. -/
def retrieveByte ( GPIO : Int) : Prog Nat := retrieveBits GPIO 8 0

/-- The function `querySensor`. It returns its `int` result, as a `Bool`, with
the array `results` as the call leaves it. The loop over `byte = 0 .. 4` is
unrolled. -/
def querySensor ( GPIO : Int) (results : List Nat) : Prog (Bool × List Nat) :=
  (call (Call.nanosleep 4 0)).andThen fun _ =>
  gettimeofday.andThen fun then_ =>
  (call (Call.pinMode GPIO true)).andThen fun _ =>
  (call (Call.digitalWrite GPIO LOW)).andThen fun _ =>
  (call (Call.delay 10)).andThen fun _ =>
  (call (Call.digitalWrite GPIO HIGH)).andThen fun _ =>
  (call (Call.delayMicroseconds 40)).andThen fun _ =>
  (call (Call.pinMode GPIO false)).andThen fun _ =>
  (sensorLowHighWait GPIO).andThen fun ok =>
  if !ok then Prog.ret (false, results)
  else
    let queryChecksum := 0
    (retrieveByte GPIO).andThen fun b0 =>
    let results := results.set 0 b0
    let queryChecksum := (queryChecksum + b0) % 2 ^ 32
    (retrieveByte GPIO).andThen fun b1 =>
    let results := results.set 1 b1
    let queryChecksum := (queryChecksum + b1) % 2 ^ 32
    (retrieveByte GPIO).andThen fun b2 =>
    let results := results.set 2 b2
    let queryChecksum := (queryChecksum + b2) % 2 ^ 32
    (retrieveByte GPIO).andThen fun b3 =>
    let results := results.set 3 b3
    let queryChecksum := (queryChecksum + b3) % 2 ^ 32
    (retrieveByte GPIO).andThen fun b4 =>
    let queryChecksum := queryChecksum &&& 0xFF
    gettimeofday.andThen fun now =>
    let took := timersub now then_
    if took.tv_sec ≠ 0 ∨ took.tv_usec > 16000 then Prog.ret (false, results)
    else Prog.ret (decide (queryChecksum = b4), results)

/-- Macro `QUERYRETRIES` of dht22.c. -/
def QUERYRETRIES : Nat := 2

/-- The two assignments of `parseSensorOutput` that parse `sensorData`, and the
adjustment for negative temperatures that follows them. -/
def parseData (sensorData : List Nat) : sensorOutput :=
  let temperature :=
    ((CFloat.ofInt (sensorData.getD 2 0)).mul (CFloat.ofInt 256)
      |>.add (CFloat.ofInt (sensorData.getD 3 0))).div (CFloat.ofInt 10)
  let humidity :=
    ((CFloat.ofInt (sensorData.getD 0 0)).mul (CFloat.ofInt 256)
      |>.add (CFloat.ofInt (sensorData.getD 1 0))).div (CFloat.ofInt 10)
  let temperature :=
    if (sensorData.getD 2 0) &&& 0x80 ≠ 0 then temperature.mul (CFloat.ofInt (-1)) else temperature
  { temperature := temperature, humidity := humidity }

/-- The test "within the sensor's documented capabilities" of `parseSensorOutput`. -/
def withinCapabilities (result : sensorOutput) : Bool :=
  result.temperature.ge (CFloat.ofInt SENSOR_TMP_MIN)
  && result.temperature.le (CFloat.ofInt SENSOR_TMP_MAX)
  && result.humidity.ge (CFloat.ofInt SENSOR_HUM_MIN)
  && result.humidity.le (CFloat.ofInt SENSOR_HUM_MAX)

/-- The value `parseSensorOutput` returns when no measurement was valid. -/
def notAvailable : sensorOutput :=
  { temperature := CFloat.ofInt SENSOR_NA, humidity := CFloat.ofInt SENSOR_NA }

/-- The loop `while (queryRetries--)` of `parseSensorOutput` and the code after
it, entered with `queryRetries` retries left. -/
def queryLoop ( GPIO : Int) : Nat → Prog sensorOutput
  | 0 => Prog.ret notAvailable
  | queryRetries + 1 =>
    let sensorData := [0, 0, 0, 0]
    (querySensor GPIO sensorData).andThen fun (ok, sensorData) =>
    if ok then
      let result := parseData sensorData
      if withinCapabilities result then Prog.ret result
      else queryLoop GPIO queryRetries
    else queryLoop GPIO queryRetries

/-- Macro `EXIT_FAILURE` of `stdlib.h`. -/
def EXIT_FAILURE : Nat := 1

/-- The function `parseSensorOutput`. When `wiringPiSetup` fails the process
exits with `EXIT_FAILURE`, which is the `Except.error` result. -/
def parseSensorOutput ( GPIO : Int) : Prog (Except Nat sensorOutput) := fun w =>
  if w.wiringPi = -1 then some (Except.error EXIT_FAILURE, w)
  else
    ((call (Call.piHiPri 55)).andThen fun _ =>
     (queryLoop GPIO QUERYRETRIES).andThen fun result =>
     Prog.ret (Except.ok result)) w

/-! ## nagioshelper.h, nagioshelper.c -/

/-- The C type `struct thresholdRange`. -/
structure thresholdRange where
  min : Int
  max : Int
deriving DecidableEq, Repr

/-- The C type `struct threshold`. -/
structure threshold where
  temperature : thresholdRange
  humidity : thresholdRange
deriving DecidableEq, Repr

/-- The C type `struct execParameters`. -/
structure execParameters where
  GPIO : Int
  warn : threshold
  crit : threshold
deriving DecidableEq, Repr

/-- Macro `ERRCODE_USAGE`. -/
def ERRCODE_USAGE : Nat := 0
/-- Macro `ERRCODE_INVALID_GPIO`. -/
def ERRCODE_INVALID_GPIO : Nat := 1
/-- Macro `ERRCODE_INVALID_THRESHOLD`. -/
def ERRCODE_INVALID_THRESHOLD : Nat := 2
/-- Macro `ERRCODE_INVALID_TMP_RANGE`. -/
def ERRCODE_INVALID_TMP_RANGE : Nat := 3
/-- Macro `ERRCODE_INVALID_HUM_RANGE`. -/
def ERRCODE_INVALID_HUM_RANGE : Nat := 4
/-- Macro `ERRCODE_INVALID_TMP_RANGES`: "The temperature warning threshold range must
be a subset of the temperature critical threshold range." -/
def ERRCODE_INVALID_TMP_RANGES : Nat := 5
/-- Macro `ERRCODE_INVALID_HUM_RANGES`: "The humidity warning threshold range must be
a subset of the humidity critical threshold range." -/
def ERRCODE_INVALID_HUM_RANGES : Nat := 6

/-- Macro `THRNG_DISABLE_MIN`. -/
def THRNG_DISABLE_MIN : Int := -110
/-- Macro `THRNG_DISABLE_MAX`. -/
def THRNG_DISABLE_MAX : Int := 110

/-- The function `throwError` (a reserved word here, hence the shorter name): prints the message of `errorCode` on stderr and calls
`exit(EXIT_FAILURE)`. The process ends there; the error code is kept as the
failure value. -/
def throwErr {α : Type} (errorCode : Nat) : Except Nat α := Except.error errorCode

/-- The function `defaultParameters`. -/
def defaultParameters : execParameters :=
  { GPIO := -1
    warn := { temperature := { min := THRNG_DISABLE_MIN, max := THRNG_DISABLE_MAX }
              humidity := { min := THRNG_DISABLE_MIN, max := THRNG_DISABLE_MAX } }
    crit := { temperature := { min := THRNG_DISABLE_MIN, max := THRNG_DISABLE_MAX }
              humidity := { min := THRNG_DISABLE_MIN, max := THRNG_DISABLE_MAX } } }

/-- The function `normalizeThresholdRanges`: four successive conditional
assignments on a copy of `params`. The first one tests the critical temperature
minimum against `THRNG_DISABLE_MAX`, as the source does. -/
def normalizeThresholdRanges (params : execParameters) : execParameters :=
  let r0 := params
  let r1 : execParameters :=
    if r0.warn.temperature.min = THRNG_DISABLE_MIN ∧ r0.crit.temperature.min ≠ THRNG_DISABLE_MAX then
      { r0 with warn := { r0.warn with
          temperature := { r0.warn.temperature with min := r0.crit.temperature.min } } }
    else r0
  let r2 : execParameters :=
    if r1.warn.temperature.max = THRNG_DISABLE_MAX ∧ r1.crit.temperature.max ≠ THRNG_DISABLE_MAX then
      { r1 with warn := { r1.warn with
          temperature := { r1.warn.temperature with max := r1.crit.temperature.max } } }
    else r1
  let r3 : execParameters :=
    if r2.warn.humidity.min = THRNG_DISABLE_MIN ∧ r2.crit.humidity.min ≠ THRNG_DISABLE_MIN then
      { r2 with warn := { r2.warn with
          humidity := { r2.warn.humidity with min := r2.crit.humidity.min } } }
    else r2
  let r4 : execParameters :=
    if r3.warn.humidity.max = THRNG_DISABLE_MAX ∧ r3.crit.humidity.max ≠ THRNG_DISABLE_MAX then
      { r3 with warn := { r3.warn with
          humidity := { r3.warn.humidity with max := r3.crit.humidity.max } } }
    else r3
  r4

/-- The envelope test of `validateThresholdRanges` on one temperature range
(one iteration of its loop, first `if`). -/
def tmpRangeInvalid (r : thresholdRange) : Bool :=
  ((r.min < SENSOR_TMP_MIN ∨ r.min > SENSOR_TMP_MAX) ∧ r.min ≠ THRNG_DISABLE_MIN)
  ∨ ((r.max < SENSOR_TMP_MIN ∨ r.max > SENSOR_TMP_MAX) ∧ r.max ≠ THRNG_DISABLE_MAX)

/-- The envelope test of `validateThresholdRanges` on one humidity range
(one iteration of its loop, second `if`). -/
def humRangeInvalid (r : thresholdRange) : Bool :=
  ((r.min < SENSOR_HUM_MIN ∨ r.min > SENSOR_HUM_MAX) ∧ r.min ≠ THRNG_DISABLE_MIN)
  ∨ ((r.max < SENSOR_HUM_MIN ∨ r.max > SENSOR_HUM_MAX) ∧ r.max ≠ THRNG_DISABLE_MAX)

/-- The function `validateThresholdRanges`. The loop over `range = 0, 1` is
unrolled: index 0 holds the bounds of `warn`, index 1 those of `crit`. -/
def validateThresholdRanges (params : execParameters) : Except Nat execParameters :=
  if tmpRangeInvalid params.warn.temperature then throwErr ERRCODE_INVALID_TMP_RANGE
  else if humRangeInvalid params.warn.humidity then throwErr ERRCODE_INVALID_HUM_RANGE
  else if tmpRangeInvalid params.crit.temperature then throwErr ERRCODE_INVALID_TMP_RANGE
  else if humRangeInvalid params.crit.humidity then throwErr ERRCODE_INVALID_HUM_RANGE
  else
    let result := normalizeThresholdRanges params
    if result.warn.temperature.min < result.crit.temperature.min
        ∨ result.warn.temperature.max > result.crit.temperature.max then
      throwErr ERRCODE_INVALID_TMP_RANGES
    else if result.warn.humidity.min < result.crit.humidity.min
        ∨ result.warn.humidity.max > result.crit.humidity.max then
      throwErr ERRCODE_INVALID_HUM_RANGES
    else Except.ok result

/-- C `isspace` in the "C" locale. -/
def isspace (c : Char) : Bool :=
  c = ' ' ∨ c = Char.ofNat 9 ∨ c = Char.ofNat 10 ∨ c = Char.ofNat 11 ∨ c = Char.ofNat 12
    ∨ c = Char.ofNat 13

/-- C `isdigit`, as the truth value of its result. -/
def isdigit (c : Char) : Bool := '0' ≤ c ∧ c ≤ '9'

/-- The value of the decimal digits at the start of a string, after the digits
already read with value `acc`. -/
def digitsValue : List Char → Nat → Nat
  | [], acc => acc
  | c :: cs, acc => if isdigit c then digitsValue cs (acc * 10 + (c.toNat - '0'.toNat)) else acc

/-- The integer a string denotes for `atoi` once the leading white space is gone: an
optional sign, then decimal digits up to the first other character. -/
def signedValue : List Char → Int
  | '-' :: cs => -(digitsValue cs 0 : Int)
  | '+' :: cs => (digitsValue cs 0 : Int)
  | cs => (digitsValue cs 0 : Int)

/-- C `atoi` on a string given by its characters before the terminating NUL:
leading white space, an optional sign, then decimal digits up to the first other
character. C leaves the result undefined when the value does not fit an `int`;
the model clamps it to the range of a 32-bit `int`, as `strtol` does where
`long` has 32 bits. Where `long` has 64 bits the `(int) strtol` of glibc
truncates instead; the two agree on every string whose value fits an `int`. -/
def atoi (s : List Char) : Int :=
  let v : Int := signedValue (s.dropWhile isspace)
  if v < -2147483648 then -2147483648 else if v > 2147483647 then 2147483647 else v

/-- The function `validateThresholdRange`. -/
def validateThresholdRange (inputString : List Char) : Except Nat Int :=
  let result := atoi inputString
  let inputString :=
    match inputString with
    | '-' :: rest => rest
    | s => s
  if inputString.all isdigit then Except.ok result
  else throwErr ERRCODE_INVALID_THRESHOLD

/-- The function `parseGPIO`. -/
def parseGPIO (inputString : List Char) : Except Nat Int :=
  let result := atoi inputString
  if ¬ inputString.all isdigit then throwErr ERRCODE_INVALID_GPIO
  else if result < 0 ∨ result > 31 then throwErr ERRCODE_INVALID_GPIO
  else Except.ok result

/-- The function `parseThresholdRange`. The string is cut at its first `:`, as
`strchr` finds it and the assignment `*delimiter='\0'` cuts it. -/
def parseThresholdRange (inputString : List Char) : Except Nat thresholdRange :=
  if ':' ∉ inputString then
    match validateThresholdRange inputString with
    | Except.error e => Except.error e
    | Except.ok max => Except.ok { min := THRNG_DISABLE_MIN, max := max }
  else
    match inputString with
    | ':' :: rest =>
      match validateThresholdRange rest with
      | Except.error e => Except.error e
      | Except.ok max => Except.ok { min := THRNG_DISABLE_MIN, max := max }
    | _ =>
      let head := inputString.takeWhile (fun c => c ≠ ':')
      let tail := (inputString.dropWhile (fun c => c ≠ ':')).drop 1
      if tail = [] then
        match validateThresholdRange head with
        | Except.error e => Except.error e
        | Except.ok min => Except.ok { min := min, max := THRNG_DISABLE_MAX }
      else
        match validateThresholdRange head with
        | Except.error e => Except.error e
        | Except.ok min =>
          match validateThresholdRange tail with
          | Except.error e => Except.error e
          | Except.ok max =>
            if min > max then Except.ok { min := max, max := min }
            else Except.ok { min := min, max := max }

/-- The function `parseThreshold`. The string is cut at its first `,`. -/
def parseThreshold (inputString : List Char) : Except Nat threshold :=
  let disabled : thresholdRange := { min := THRNG_DISABLE_MIN, max := THRNG_DISABLE_MAX }
  if ',' ∉ inputString then
    match parseThresholdRange inputString with
    | Except.error e => Except.error e
    | Except.ok temperature => Except.ok { temperature := temperature, humidity := disabled }
  else
    match inputString with
    | ',' :: rest =>
      match parseThresholdRange rest with
      | Except.error e => Except.error e
      | Except.ok humidity => Except.ok { temperature := disabled, humidity := humidity }
    | _ =>
      let head := inputString.takeWhile (fun c => c ≠ ',')
      let tail := (inputString.dropWhile (fun c => c ≠ ',')).drop 1
      if tail = [] then
        match parseThresholdRange head with
        | Except.error e => Except.error e
        | Except.ok temperature => Except.ok { temperature := temperature, humidity := disabled }
      else
        match parseThresholdRange head with
        | Except.error e => Except.error e
        | Except.ok temperature =>
          match parseThresholdRange tail with
          | Except.error e => Except.error e
          | Except.ok humidity => Except.ok { temperature := temperature, humidity := humidity }

/-- The loop `while ((argument=getopt(argc, argv, "p:w:c:"))!=-1)` of
`parseParameters`. The library function `getopt` is not part of the program:
the loop is given what the successive calls of `getopt` return, each option
character with the argument left in `optarg`. -/
def parseOptions : List (Char × List Char) → execParameters → Except Nat execParameters
  | [], result => Except.ok result
  | (argument, optarg) :: rest, result =>
    if argument = 'p' then
      match parseGPIO optarg with
      | Except.error e => Except.error e
      | Except.ok pin => parseOptions rest { result with GPIO := pin }
    else if argument = 'w' then
      match parseThreshold optarg with
      | Except.error e => Except.error e
      | Except.ok warn => parseOptions rest { result with warn := warn }
    else if argument = 'c' then
      match parseThreshold optarg with
      | Except.error e => Except.error e
      | Except.ok crit => parseOptions rest { result with crit := crit }
    else throwErr ERRCODE_USAGE

/-- The function `parseParameters`, on what `getopt` returns for the argument
vector. -/
def parseParameters (options : List (Char × List Char)) : Except Nat execParameters :=
  match parseOptions options defaultParameters with
  | Except.error e => Except.error e
  | Except.ok result =>
    if execParameters.GPIO result = -1 then throwErr ERRCODE_USAGE
    else validateThresholdRanges result

/-- The table `states` of `outputResults`. -/
def states : List String := ["OK", "WARNING", "CRITICAL", "UNKNOWN"]

/-- What `outputResults` hands to `fprintf` and returns: the state name
`states[result]`, the temperature and humidity printed (each of them three
times), the four threshold maxima of the performance data, and the return
value. -/
structure nagiosResponse where
  state : Option String
  temperature : CFloat
  humidity : CFloat
  warnTemperatureMax : Int
  critTemperatureMax : Int
  warnHumidityMax : Int
  critHumidityMax : Int
  result : Nat
deriving DecidableEq, Repr

/-- The status computed by `outputResults`: 3 unless both values differ from
`SENSOR_NA`, then 0 inside the warning ranges, 1 inside the critical ranges, 2
otherwise. Each `int` bound is converted to `float` for its comparison. -/
def outputStatus (params : execParameters) (output : sensorOutput) : Nat :=
  if output.temperature.ne (CFloat.ofInt SENSOR_NA) && output.humidity.ne (CFloat.ofInt SENSOR_NA) then
    if output.temperature.ge (CFloat.ofInt params.warn.temperature.min)
        && output.temperature.le (CFloat.ofInt params.warn.temperature.max)
        && output.humidity.ge (CFloat.ofInt params.warn.humidity.min)
        && output.humidity.le (CFloat.ofInt params.warn.humidity.max) then 0
    else if output.temperature.ge (CFloat.ofInt params.crit.temperature.min)
        && output.temperature.le (CFloat.ofInt params.crit.temperature.max)
        && output.humidity.ge (CFloat.ofInt params.crit.humidity.min)
        && output.humidity.le (CFloat.ofInt params.crit.humidity.max) then 1
    else 2
  else 3

/-- The function `outputResults`. -/
def outputResults (params : execParameters) (output : sensorOutput) : nagiosResponse :=
  let result := outputStatus params output
  let output : sensorOutput :=
    if output.temperature.ne (CFloat.ofInt SENSOR_NA) && output.humidity.ne (CFloat.ofInt SENSOR_NA)
    then output
    else { temperature := CFloat.ofInt 0, humidity := CFloat.ofInt 0 }
  { state := states.get? result
    temperature := output.temperature
    humidity := output.humidity
    warnTemperatureMax := params.warn.temperature.max
    critTemperatureMax := params.crit.temperature.max
    warnHumidityMax := params.warn.humidity.max
    critHumidityMax := params.crit.humidity.max
    result := result }

/-- The function `main` of check_dht22.c, on what `getopt` returns for the argument
vector. The process ends with `EXIT_FAILURE` (`Except.error`) when
`parseParameters` or `parseSensorOutput` calls `exit`, and otherwise with what
`outputResults` prints and returns. -/
def main (options : List (Char × List Char)) : Prog (Except Nat nagiosResponse) :=
  match parseParameters options with
  | Except.error _ => Prog.ret (Except.error EXIT_FAILURE)
  | Except.ok params =>
    (parseSensorOutput (execParameters.GPIO params)).andThen fun result =>
    match result with
    | Except.error status => Prog.ret (Except.error status)
    | Except.ok output => Prog.ret (Except.ok (outputResults params output))

/-- The C condition `v >= r.min && v <= r.max` of `outputResults` on one axis: the two
bounds are converted to `float` and compared with the measured value. -/
def withinRange (v : CFloat) (r : thresholdRange) : Prop :=
  v.ge (CFloat.ofInt r.min) = true ∧ v.le (CFloat.ofInt r.max) = true

/-- A measurement lies within a threshold on both axes. -/
def withinThreshold (output : sensorOutput) (t : threshold) : Prop :=
  withinRange output.temperature t.temperature ∧ withinRange output.humidity t.humidity

/-- The value of a `float` is a real number between the integers `lo` and `hi`. -/
def CFloat.between (lo hi : Int) (x : CFloat) : Prop :=
  ∃ k : Int, x = CFloat.fin k ∧ lo * (CFloat.one : Int) ≤ k ∧ k ≤ hi * (CFloat.one : Int)

/-- A configuration with `warn.temperature.min = 50` and `crit.temperature.min = 10`,
every other bound left disabled. -/
def warnAboveCrit : execParameters :=
  { defaultParameters with
    GPIO := 7
    warn := { defaultParameters.warn with temperature := { min := 50, max := THRNG_DISABLE_MAX } }
    crit := { defaultParameters.crit with temperature := { min := 10, max := THRNG_DISABLE_MAX } } }

/-- A configuration whose warning temperature minimum is disabled and whose
critical temperature minimum is 110. -/
def critMinAtMaxSentinel : execParameters :=
  { defaultParameters with
    crit := { defaultParameters.crit with temperature := { min := 110, max := THRNG_DISABLE_MAX } } }

/-- The configuration of the usage example: `-p 7 -w 10:40,30:70 -c 5:45,25:75`. -/
def usageExample : execParameters :=
  { GPIO := 7
    warn := { temperature := { min := 10, max := 40 }, humidity := { min := 30, max := 70 } }
    crit := { temperature := { min := 5, max := 45 }, humidity := { min := 25, max := 75 } } }

/-- The configuration `-p 7 -c 5:45,25:75`: no warning threshold given. -/
def critOnlyExample : execParameters :=
  { defaultParameters with
    GPIO := 7
    crit := { temperature := { min := 5, max := 45 }, humidity := { min := 25, max := 75 } } }

/-- A bound is inside the envelope `lo .. hi` or equal to the sentinel that disables it. -/
def boundAllowed (lo hi sentinel b : Int) : Prop := (lo ≤ b ∧ b ≤ hi) ∨ b = sentinel

/-- Both bounds of both ranges of a threshold are inside the sensor envelope or disabled. -/
def thresholdAllowed (t : threshold) : Prop :=
  boundAllowed SENSOR_TMP_MIN SENSOR_TMP_MAX THRNG_DISABLE_MIN t.temperature.min
  ∧ boundAllowed SENSOR_TMP_MIN SENSOR_TMP_MAX THRNG_DISABLE_MAX t.temperature.max
  ∧ boundAllowed SENSOR_HUM_MIN SENSOR_HUM_MAX THRNG_DISABLE_MIN t.humidity.min
  ∧ boundAllowed SENSOR_HUM_MIN SENSOR_HUM_MAX THRNG_DISABLE_MAX t.humidity.max

/-- The warning range lies inside the critical range on both axes. -/
def warnInsideCrit (p : execParameters) : Prop :=
  p.warn.temperature.min ≥ p.crit.temperature.min
  ∧ p.warn.temperature.max ≤ p.crit.temperature.max
  ∧ p.warn.humidity.min ≥ p.crit.humidity.min
  ∧ p.warn.humidity.max ≤ p.crit.humidity.max

/-- The number of calls of `querySensor` begun so far: each call begins with its
only call of `nanosleep`, which no other function makes. -/
def queryCount (w : World) : Nat := w.log.count (Call.nanosleep 4 0)

/-- The time of a timestamp in microseconds. -/
def timeval.micros (t : timeval) : Int := t.tv_sec * 1000000 + t.tv_usec

/-- A timestamp as `gettimeofday` gives it: microseconds within the second. -/
def timeval.normalized (t : timeval) : Prop := 0 ≤ t.tv_usec ∧ t.tv_usec < 1000000

/-- What one attempt sees when its sync wait succeeds: the time read before the
reset pulse, the five bytes retrieved in arrival order, the time read after the
last bit. -/
structure Observation where
  then_ : timeval
  b0 : Nat
  b1 : Nat
  b2 : Nat
  b3 : Nat
  b4 : Nat
  now : timeval
deriving DecidableEq, Repr

/-- The interaction of one call of `querySensor` with the world, without the
verdict: the same calls in the same order, returning what was seen, or `none`
when the sync wait failed. -/
def observe ( GPIO : Int) : Prog (Option Observation) :=
  (call (Call.nanosleep 4 0)).andThen fun _ =>
  gettimeofday.andThen fun then_ =>
  (call (Call.pinMode GPIO true)).andThen fun _ =>
  (call (Call.digitalWrite GPIO LOW)).andThen fun _ =>
  (call (Call.delay 10)).andThen fun _ =>
  (call (Call.digitalWrite GPIO HIGH)).andThen fun _ =>
  (call (Call.delayMicroseconds 40)).andThen fun _ =>
  (call (Call.pinMode GPIO false)).andThen fun _ =>
  (sensorLowHighWait GPIO).andThen fun ok =>
  if !ok then Prog.ret none
  else
    (retrieveByte GPIO).andThen fun b0 =>
    (retrieveByte GPIO).andThen fun b1 =>
    (retrieveByte GPIO).andThen fun b2 =>
    (retrieveByte GPIO).andThen fun b3 =>
    (retrieveByte GPIO).andThen fun b4 =>
    gettimeofday.andThen fun now =>
    Prog.ret (some { then_ := then_, b0 := b0, b1 := b1, b2 := b2, b3 := b3, b4 := b4, now := now })

/-- The levels the line shows while a sync wait or the wait of one bit succeeds at
once and the bit is then sampled as `s`: low, high, `s`. -/
def bitLevels (s : Bool) : List Bool := [LOW, HIGH, s]

/-- The levels the line shows for one byte, most significant bit first. -/
def byteLevels (b : Nat) : List Bool :=
  (bitLevels (b.testBit 7)) ++ (bitLevels (b.testBit 6)) ++ (bitLevels (b.testBit 5))
  ++ (bitLevels (b.testBit 4)) ++ (bitLevels (b.testBit 3)) ++ (bitLevels (b.testBit 2))
  ++ (bitLevels (b.testBit 1)) ++ (bitLevels (b.testBit 0))

/-- The levels the line shows during one attempt that answers with the five given
bytes: the acknowledgement, then the forty bits. -/
def frameLevels (b0 b1 b2 b3 b4 : Nat) : List Bool :=
  [LOW, HIGH] ++ byteLevels b0 ++ byteLevels b1 ++ byteLevels b2 ++ byteLevels b3 ++ byteLevels b4

/-- The times `gettimeofday` reports during one attempt in which no wait loops:
`start` before the reset pulse, two readings for each of the 41 waits, `finish`
after the last bit. -/
def frameTimes (start finish : timeval) : List timeval :=
  [start] ++ List.replicate 82 { tv_sec := start.tv_sec, tv_usec := start.tv_usec + 10040 } ++ [finish]

/-- A world in which the sensor answers one attempt with the given bytes between the
times `start` and `finish`. -/
def frameWorld (b0 b1 b2 b3 b4 : Nat) (start finish : timeval) : World :=
  { wiringPi := 0, line := frameLevels b0 b1 b2 b3 b4, clock := frameTimes start finish, log := [] }

/-- A world in which the sensor never answers: the line stays high and each sync
wait times out. It holds enough levels and times for two attempts. -/
def silentWorld : World :=
  { wiringPi := 0
    line := [HIGH, HIGH]
    clock := [{ tv_sec := 5, tv_usec := 0 }, { tv_sec := 5, tv_usec := 10040 },
              { tv_sec := 5, tv_usec := 11041 },
              { tv_sec := 9, tv_usec := 20000 }, { tv_sec := 9, tv_usec := 30040 },
              { tv_sec := 9, tv_usec := 31041 }]
    log := [] }

/-- The calls one attempt makes when no wait fails: the sleep, the wake-up sequence
and the sampling delay of each of the forty bits. -/
def attemptCalls ( GPIO : Int) : List Call :=
  [Call.nanosleep 4 0, Call.pinMode GPIO true, Call.digitalWrite GPIO LOW, Call.delay 10,
   Call.digitalWrite GPIO HIGH, Call.delayMicroseconds 40, Call.pinMode GPIO false]
  ++ List.replicate 40 (Call.delayMicroseconds 30)

/-- The calls one attempt makes when its sync wait fails. -/
def syncFailureCalls ( GPIO : Int) : List Call :=
  [Call.nanosleep 4 0, Call.pinMode GPIO true, Call.digitalWrite GPIO LOW, Call.delay 10,
   Call.digitalWrite GPIO HIGH, Call.delayMicroseconds 40, Call.pinMode GPIO false]

/-- A frame the sensor sends for 35.1 °C and 65.2 %: bytes `02 8C 01 5F` and their
checksum `EE`. -/
def sampleFrame : Observation :=
  { then_ := { tv_sec := 5, tv_usec := 0 }
    b0 := 0x02, b1 := 0x8C, b2 := 0x01, b3 := 0x5F, b4 := 0xEE
    now := { tv_sec := 5, tv_usec := 15010 } }

/-- The same frame, read across a scheduling interruption: 16001 microseconds. -/
def lateFrame : Observation :=
  { sampleFrame with now := { tv_sec := 5, tv_usec := 16001 } }

/-- The world in which the sensor sends a given observation to a single attempt. -/
def worldOf (o : Observation) : World :=
  frameWorld o.b0 o.b1 o.b2 o.b3 o.b4 o.then_ o.now

/-- The world an attempt on pin 7 leaves behind when it has consumed `worldOf o`. -/
def worldAfterAttempt : World :=
  { wiringPi := 0, line := [], clock := [], log := attemptCalls 7 }

/-- Equality of results of type `Except` is decidable when it is on both sides. -/
instance instDecidableEqExcept {ε α : Type} [DecidableEq ε] [DecidableEq α] :
    DecidableEq (Except ε α)
  | Except.ok a, Except.ok b =>
    if h : a = b then isTrue (by rw [h]) else isFalse (fun e => h (Except.ok.inj e))
  | Except.error a, Except.error b =>
    if h : a = b then isTrue (by rw [h]) else isFalse (fun e => h (Except.error.inj e))
  | Except.ok _, Except.error _ => isFalse (fun e => Except.noConfusion e)
  | Except.error _, Except.ok _ => isFalse (fun e => Except.noConfusion e)

/-- The world `parseSensorOutput` leaves on pin 7 after one attempt that consumed
`worldOf o`. -/
def worldAfterParse : World :=
  { wiringPi := 0, line := [], clock := [], log := [Call.piHiPri 55] ++ attemptCalls 7 }

/-- The silent world after the first attempt of `parseSensorOutput` on pin 7. -/
def silentWorldAfterFirst : World :=
  { wiringPi := 0
    line := [HIGH]
    clock := [{ tv_sec := 9, tv_usec := 20000 }, { tv_sec := 9, tv_usec := 30040 },
              { tv_sec := 9, tv_usec := 31041 }]
    log := [Call.piHiPri 55] ++ syncFailureCalls 7 }

/-- The silent world after the second attempt of `parseSensorOutput` on pin 7. -/
def silentWorldAfterSecond : World :=
  { wiringPi := 0, line := [], clock := []
    log := [Call.piHiPri 55] ++ syncFailureCalls 7 ++ syncFailureCalls 7 }

/-- A frame the sensor sends for -10.0 °C and 65.2 %: bytes `02 8C 80 64`, the sign
flag being bit 7 of the third byte, and their checksum `72`. -/
def negativeFrame : Observation :=
  { then_ := { tv_sec := 5, tv_usec := 0 }
    b0 := 0x02, b1 := 0x8C, b2 := 0x80, b3 := 0x64, b4 := 0x72
    now := { tv_sec := 5, tv_usec := 15010 } }

/-- A world in which the sensor answers both attempts with `negativeFrame`. -/
def negativeWorld : World :=
  { wiringPi := 0
    line := (worldOf negativeFrame).line ++ (worldOf negativeFrame).line
    clock := (worldOf negativeFrame).clock ++ (worldOf negativeFrame).clock
    log := [] }

/-- The world `parseSensorOutput` leaves on pin 7 after two attempts that each
retrieved a whole frame. -/
def worldAfterTwoFrames : World :=
  { wiringPi := 0, line := [], clock := []
    log := [Call.piHiPri 55] ++ attemptCalls 7 ++ attemptCalls 7 }

/-- The usage example with a critical temperature maximum of 95, above the
envelope. -/
def usageExampleOutOfEnvelope : execParameters :=
  { usageExample with
    crit := { usageExample.crit with temperature := { min := 5, max := 95 } } }

/-- A world in which the sensor acknowledges the wake-up and then falls silent: the
line stays high, and the first wait of each of the five bytes runs into its
timeout of 1000 microseconds. The whole attempt takes 15210 microseconds. -/
def deadSensorWorld : World :=
  { wiringPi := 0
    line := [LOW, HIGH, HIGH, HIGH, HIGH, HIGH, HIGH]
    clock := [{ tv_sec := 5, tv_usec := 0 },
              { tv_sec := 5, tv_usec := 10040 }, { tv_sec := 5, tv_usec := 10100 },
              { tv_sec := 5, tv_usec := 10160 }, { tv_sec := 5, tv_usec := 11161 },
              { tv_sec := 5, tv_usec := 11170 }, { tv_sec := 5, tv_usec := 12171 },
              { tv_sec := 5, tv_usec := 12180 }, { tv_sec := 5, tv_usec := 13181 },
              { tv_sec := 5, tv_usec := 13190 }, { tv_sec := 5, tv_usec := 14191 },
              { tv_sec := 5, tv_usec := 14200 }, { tv_sec := 5, tv_usec := 15201 },
              { tv_sec := 5, tv_usec := 15210 }]
    log := [] }

/-- The world `deadSensorWorld` after the wake-up sequence and the successful sync
wait of an attempt on pin 7. -/
def deadSensorAfterSync : World :=
  { wiringPi := 0
    line := [HIGH, HIGH, HIGH, HIGH, HIGH]
    clock := deadSensorWorld.clock.drop 3
    log := syncFailureCalls 7 }

/-- The world `deadSensorWorld` after the first wait of the first byte. -/
def deadSensorAfterTimeout : World :=
  { wiringPi := 0
    line := [HIGH, HIGH, HIGH, HIGH]
    clock := deadSensorWorld.clock.drop 5
    log := syncFailureCalls 7 }

/-- The world `deadSensorWorld` after a whole attempt on pin 7. -/
def deadSensorAfterAttempt : World :=
  { wiringPi := 0, line := [], clock := [], log := syncFailureCalls 7 }

/-- The reading of one bit in the loop of `retrieveByte`: the transition wait, the
sampling delay of 30 microseconds, and the sample of the line. The result is
`none` when the wait fails. -/
def sampleBit ( GPIO : Int) : Prog (Option Bool) :=
  (sensorLowHighWait GPIO).andThen fun ok =>
  if !ok then Prog.ret none
  else
    (call (Call.delayMicroseconds 30)).andThen fun _ =>
    (digitalRead GPIO).andThen fun l =>
    Prog.ret (some l)

/-- The opening of `querySensor`, up to the sync wait: the sleep, the timestamp
`then`, and the wake-up sequence on the line. It returns the timestamp. -/
def wakeSensor ( GPIO : Int) : Prog timeval :=
  (call (Call.nanosleep 4 0)).andThen fun _ =>
  gettimeofday.andThen fun then_ =>
  (call (Call.pinMode GPIO true)).andThen fun _ =>
  (call (Call.digitalWrite GPIO LOW)).andThen fun _ =>
  (call (Call.delay 10)).andThen fun _ =>
  (call (Call.digitalWrite GPIO HIGH)).andThen fun _ =>
  (call (Call.delayMicroseconds 40)).andThen fun _ =>
  (call (Call.pinMode GPIO false)).andThen fun _ =>
  Prog.ret then_

/-- The line level as a bit: 1 for `HIGH`, 0 for `LOW`. -/
def levelBit (s : Bool) : Nat := if s = HIGH then 1 else 0

/-- The world `worldOf o` during an attempt on pin 7 that has used up `levels`
levels of the line and `times` clock readings and has sampled `bits` bits. -/
def frameStage (o : Observation) (levels times bits : Nat) : World :=
  { wiringPi := 0
    line := (worldOf o).line.drop levels
    clock := (worldOf o).clock.drop times
    log := syncFailureCalls 7 ++ List.replicate bits (Call.delayMicroseconds 30) }

/-- The characters of a string literal, as a C string. -/
def cstr (s : String) : List Char := s.toList

/-- What `getopt` returns for `check_dht22 -p 7 -w :10 -c 20:30`. -/
def warnBelowCritOptions : List (Char × List Char) :=
  [('p', cstr "7"), ('w', cstr ":10"), ('c', cstr "20:30")]

/-- The configuration `parseParameters` hands to `validateThresholdRanges` for
`-p 7 -w :10 -c 20:30`: the warning temperature range is `[-110, 10]` (minimum
disabled), the critical one `[20, 30]`. -/
def warnBelowCrit : execParameters :=
  { defaultParameters with
    GPIO := 7
    warn := { defaultParameters.warn with temperature := { min := THRNG_DISABLE_MIN, max := 10 } }
    crit := { defaultParameters.crit with temperature := { min := 20, max := 30 } } }

/-- What `getopt` returns for `check_dht22 -p 7 -w 10:40 -c 50:60`. -/
def nestingViolationOptions : List (Char × List Char) :=
  [('p', cstr "7"), ('w', cstr "10:40"), ('c', cstr "50:60")]

/-- What `getopt` returns for `check_dht22 -p 7 -c 5:95`. -/
def outOfEnvelopeOptions : List (Char × List Char) :=
  [('p', cstr "7"), ('c', cstr "5:95")]

/-- The variant of `normalizeThresholdRanges` whose first test compares the critical
temperature minimum with `THRNG_DISABLE_MIN`, the sentinel of its own side, as
the three other tests do with theirs. The other three steps are those of the
source. -/
def normalizeThresholdRangesOwnSentinel (params : execParameters) : execParameters :=
  let r0 := params
  let r1 : execParameters :=
    if r0.warn.temperature.min = THRNG_DISABLE_MIN ∧ r0.crit.temperature.min ≠ THRNG_DISABLE_MIN then
      { r0 with warn := { r0.warn with
          temperature := { r0.warn.temperature with min := r0.crit.temperature.min } } }
    else r0
  let r2 : execParameters :=
    if r1.warn.temperature.max = THRNG_DISABLE_MAX ∧ r1.crit.temperature.max ≠ THRNG_DISABLE_MAX then
      { r1 with warn := { r1.warn with
          temperature := { r1.warn.temperature with max := r1.crit.temperature.max } } }
    else r1
  let r3 : execParameters :=
    if r2.warn.humidity.min = THRNG_DISABLE_MIN ∧ r2.crit.humidity.min ≠ THRNG_DISABLE_MIN then
      { r2 with warn := { r2.warn with
          humidity := { r2.warn.humidity with min := r2.crit.humidity.min } } }
    else r2
  let r4 : execParameters :=
    if r3.warn.humidity.max = THRNG_DISABLE_MAX ∧ r3.crit.humidity.max ≠ THRNG_DISABLE_MAX then
      { r3 with warn := { r3.warn with
          humidity := { r3.warn.humidity with max := r3.crit.humidity.max } } }
    else r3
  r4

/-- The configuration of `-p 7` alone: every threshold at its default. -/
def noThresholdExample : execParameters := { defaultParameters with GPIO := 7 }

/-- The value of a `float` lies between the two bounds of a range, as numbers, the
bounds included: `r.min ≤ v ≤ r.max`. -/
def insideRange (v : CFloat) (r : thresholdRange) : Prop := v.between r.min r.max

/-- A measurement lies inside a threshold on both axes, as numbers. -/
def insideThreshold (output : sensorOutput) (t : threshold) : Prop :=
  insideRange output.temperature t.temperature ∧ insideRange output.humidity t.humidity

/-- The four bounds of a threshold have a magnitude of at most `2^24 = 16777216`,
the integers a `float` holds without rounding. -/
def thresholdExact (t : threshold) : Prop :=
  t.temperature.min.natAbs ≤ 2 ^ 24 ∧ t.temperature.max.natAbs ≤ 2 ^ 24
  ∧ t.humidity.min.natAbs ≤ 2 ^ 24 ∧ t.humidity.max.natAbs ≤ 2 ^ 24

/-- A configuration whose temperature maxima are the largest `int`, 2147483647. -/
def maxAtIntMax : execParameters :=
  { GPIO := 7
    warn := { temperature := { min := 0, max := 2147483647 }, humidity := { min := 0, max := 100 } }
    crit := { temperature := { min := 0, max := 2147483647 }, humidity := { min := 0, max := 100 } } }

/-- The measurement of temperature 2147483648 (`2^31`, a `float`) and humidity 50. -/
def aboveIntMax : sensorOutput :=
  { temperature := CFloat.fin (2147483648 * (CFloat.one : Int)), humidity := CFloat.ofInt 50 }

/-- The measurement of temperature 42 and humidity 50. -/
def warmReading : sensorOutput :=
  { temperature := CFloat.ofInt 42, humidity := CFloat.ofInt 50 }


set_option maxRecDepth 8000

/-! ## Properties of the `float` model -/

theorem CFloat.log2Aux_pow_le (fuel n : Nat) (h : n ≠ 0) : 2 ^ CFloat.log2Aux fuel n ≤ n := by
  induction fuel generalizing n with
  | zero => simp [CFloat.log2Aux]; omega
  | succ fuel ih =>
    unfold CFloat.log2Aux
    split
    · simp; omega
    · have h2 : n / 2 ≠ 0 := by omega
      have := ih (n / 2) h2
      rw [pow_succ]
      omega

/-- Rounding leaves a magnitude that is a multiple of the spacing of its binade as it is. -/
theorem CFloat.roundMag_of_dvd (a : Nat) (h : 2 ^ (CFloat.log2 a - 23) ∣ a) :
    CFloat.roundMag a 1 = a := by
  have hq : 0 < 2 ^ (CFloat.log2 a - 23) := Nat.pos_pow_of_pos _ (by decide)
  have hr : a % 2 ^ (CFloat.log2 a - 23) = 0 := Nat.mod_eq_zero_of_dvd h
  simp only [CFloat.roundMag, Nat.div_one, one_mul, hr, Nat.mul_zero]
  rw [if_neg (by omega)]
  exact Nat.div_mul_cancel h

/-- An integer of magnitude up to `2^24` converts to `float` without rounding. -/
theorem CFloat.ofInt_of_small (i : Int) (h : i.natAbs ≤ 2 ^ 24) :
    CFloat.ofInt i = CFloat.fin (i * (CFloat.one : Int)) := by
  have hone : (CFloat.one : Nat) = 2 ^ 149 := rfl
  have habs : (i * (CFloat.one : Int)).natAbs = i.natAbs * 2 ^ 149 := by
    rw [Int.natAbs_mul, hone]; rfl
  have hdvd : 2 ^ (CFloat.log2 (i.natAbs * 2 ^ 149) - 23) ∣ i.natAbs * 2 ^ 149 := by
    by_cases hz : i.natAbs = 0
    · simp [hz]
    · have hne : i.natAbs * 2 ^ 149 ≠ 0 := Nat.mul_ne_zero hz (by positivity)
      have hle := CFloat.log2Aux_pow_le 277 _ hne
      have hub : i.natAbs * 2 ^ 149 ≤ 2 ^ 173 := by
        calc i.natAbs * 2 ^ 149 ≤ 2 ^ 24 * 2 ^ 149 := Nat.mul_le_mul_right _ h
          _ = 2 ^ 173 := by rw [← pow_add]
      have hL : CFloat.log2 (i.natAbs * 2 ^ 149) ≤ 173 := by
        by_contra hc
        have : 2 ^ 174 ≤ 2 ^ CFloat.log2 (i.natAbs * 2 ^ 149) :=
          Nat.pow_le_pow_right (by decide) (by omega)
        have h174 : (2 : Nat) ^ 173 < 2 ^ 174 := Nat.pow_lt_pow_right (by decide) (by decide)
        unfold CFloat.log2 at this
        omega
      by_cases h173 : CFloat.log2 (i.natAbs * 2 ^ 149) = 173
      · have : i.natAbs * 2 ^ 149 = 2 ^ 173 := by
          unfold CFloat.log2 at h173
          rw [h173] at hle
          omega
        rw [h173, this]
        exact Nat.pow_dvd_pow 2 (by decide)
      · exact Dvd.dvd.mul_left (Nat.pow_dvd_pow 2 (by omega)) _
  have hround := CFloat.roundMag_of_dvd _ hdvd
  have hno : ¬ CFloat.overflow ≤ i.natAbs * 2 ^ 149 := by
    have : i.natAbs * 2 ^ 149 ≤ 2 ^ 24 * 2 ^ 149 := Nat.mul_le_mul_right _ h
    have h2 : (2 : Nat) ^ 24 * 2 ^ 149 < 2 ^ 128 * 2 ^ 149 :=
      Nat.mul_lt_mul_of_pos_right (by decide) (by positivity)
    unfold CFloat.overflow
    omega
  unfold CFloat.ofInt CFloat.round
  simp only [habs, hround, if_neg hno]
  congr 1
  have hpos : (0 : Int) < (CFloat.one : Int) := by rw [hone]; positivity
  by_cases hneg : i * (CFloat.one : Int) < 0
  · rw [if_pos hneg]
    have : i < 0 := by
      by_contra hc
      have : 0 ≤ i * (CFloat.one : Int) := Int.mul_nonneg (by omega) (le_of_lt hpos)
      omega
    rw [hone, Nat.cast_mul, Int.ofNat_natAbs_of_nonpos (le_of_lt this), Int.neg_mul]
    norm_num
  · rw [if_neg hneg]
    have : 0 ≤ i := by
      by_contra hc
      have : i * (CFloat.one : Int) < 0 := Int.mul_neg_of_neg_of_pos (by omega) hpos
      omega
    rw [hone, Nat.cast_mul, Int.natAbs_of_nonneg this]

/-! ## Threshold validation -/

theorem tmpRangeInvalid_eq_false (r : thresholdRange) :
    tmpRangeInvalid r = false ↔
      boundAllowed SENSOR_TMP_MIN SENSOR_TMP_MAX THRNG_DISABLE_MIN r.min
      ∧ boundAllowed SENSOR_TMP_MIN SENSOR_TMP_MAX THRNG_DISABLE_MAX r.max := by
  simp only [tmpRangeInvalid, boundAllowed, decide_eq_false_iff_not]
  constructor
  · intro h; constructor <;> by_contra hc <;> apply h <;> omega
  · rintro ⟨h1, h2⟩ hc; omega

theorem humRangeInvalid_eq_false (r : thresholdRange) :
    humRangeInvalid r = false ↔
      boundAllowed SENSOR_HUM_MIN SENSOR_HUM_MAX THRNG_DISABLE_MIN r.min
      ∧ boundAllowed SENSOR_HUM_MIN SENSOR_HUM_MAX THRNG_DISABLE_MAX r.max := by
  simp only [humRangeInvalid, boundAllowed, decide_eq_false_iff_not]
  constructor
  · intro h; constructor <;> by_contra hc <;> apply h <;> omega
  · rintro ⟨h1, h2⟩ hc; omega

/-- What `validateThresholdRanges` does once the four envelope tests have passed. -/
theorem validateThresholdRanges_of_allowed (params : execParameters)
    (hw : thresholdAllowed params.warn) (hc : thresholdAllowed params.crit) :
    validateThresholdRanges params =
      (let result := normalizeThresholdRanges params
       if result.warn.temperature.min < result.crit.temperature.min
          ∨ result.warn.temperature.max > result.crit.temperature.max then
         Except.error ERRCODE_INVALID_TMP_RANGES
       else if result.warn.humidity.min < result.crit.humidity.min
          ∨ result.warn.humidity.max > result.crit.humidity.max then
         Except.error ERRCODE_INVALID_HUM_RANGES
       else Except.ok result) := by
  obtain ⟨hw1, hw2, hw3, hw4⟩ := hw
  obtain ⟨hc1, hc2, hc3, hc4⟩ := hc
  have e1 := (tmpRangeInvalid_eq_false params.warn.temperature).2 ⟨hw1, hw2⟩
  have e2 := (humRangeInvalid_eq_false params.warn.humidity).2 ⟨hw3, hw4⟩
  have e3 := (tmpRangeInvalid_eq_false params.crit.temperature).2 ⟨hc1, hc2⟩
  have e4 := (humRangeInvalid_eq_false params.crit.humidity).2 ⟨hc3, hc4⟩
  simp [validateThresholdRanges, e1, e2, e3, e4, throwErr]

/-- A configuration is accepted exactly when its eight bounds are allowed and its
normal form has the warning ranges inside the critical ranges; the normal form is
what is returned. -/
theorem validateThresholdRanges_ok_iff (params result : execParameters) :
    validateThresholdRanges params = Except.ok result ↔
      thresholdAllowed params.warn ∧ thresholdAllowed params.crit
      ∧ result = normalizeThresholdRanges params ∧ warnInsideCrit result := by
  constructor
  · intro h
    unfold validateThresholdRanges at h
    split at h
    · simp [throwErr] at h
    split at h
    · simp [throwErr] at h
    split at h
    · simp [throwErr] at h
    split at h
    · simp [throwErr] at h
    rename_i e1 e2 e3 e4
    simp only [Bool.not_eq_true] at e1 e2 e3 e4
    rw [tmpRangeInvalid_eq_false] at e1 e3
    rw [humRangeInvalid_eq_false] at e2 e4
    simp only at h
    split at h
    · simp [throwErr] at h
    split at h
    · simp [throwErr] at h
    rename_i n1 n2
    simp only [Except.ok.injEq] at h
    subst h
    refine ⟨⟨e1.1, e1.2, e2.1, e2.2⟩, ⟨e3.1, e3.2, e4.1, e4.2⟩, rfl, ?_⟩
    unfold warnInsideCrit
    omega
  · rintro ⟨hw, hc, rfl, hin⟩
    rw [validateThresholdRanges_of_allowed params hw hc]
    unfold warnInsideCrit at hin
    simp only
    rw [if_neg (by omega), if_neg (by omega)]

/-! ## Classification -/

/-- The chain of tests of `outputResults` on a measurement that passes its first
test, in terms of the C comparisons against the converted bounds. -/
theorem outputResults_chain (params : execParameters) (output : sensorOutput)
    (ht : output.temperature.ne (CFloat.ofInt SENSOR_NA) = true)
    (hh : output.humidity.ne (CFloat.ofInt SENSOR_NA) = true) :
    ((outputResults params output).result = 0 ↔ withinThreshold output params.warn)
    ∧ (¬ withinThreshold output params.warn →
        ((outputResults params output).result = 1 ↔ withinThreshold output params.crit))
    ∧ (¬ withinThreshold output params.warn → ¬ withinThreshold output params.crit →
        (outputResults params output).result = 2) := by
  simp only [outputResults, outputStatus, ht, hh, Bool.and_self, if_true, withinThreshold,
    withinRange, Bool.and_eq_true]
  by_cases hw : ((output.temperature.ge (CFloat.ofInt params.warn.temperature.min) = true
      ∧ output.temperature.le (CFloat.ofInt params.warn.temperature.max) = true)
      ∧ output.humidity.ge (CFloat.ofInt params.warn.humidity.min) = true)
      ∧ output.humidity.le (CFloat.ofInt params.warn.humidity.max) = true
  · rw [if_pos hw]
    obtain ⟨⟨⟨h1, h2⟩, h3⟩, h4⟩ := hw
    simp [h1, h2, h3, h4]
  · rw [if_neg hw]
    have hw2 : ¬ ((output.temperature.ge (CFloat.ofInt params.warn.temperature.min) = true
      ∧ output.temperature.le (CFloat.ofInt params.warn.temperature.max) = true)
      ∧ (output.humidity.ge (CFloat.ofInt params.warn.humidity.min) = true
      ∧ output.humidity.le (CFloat.ofInt params.warn.humidity.max) = true)) := by
      rintro ⟨⟨a, b⟩, c, d⟩; exact hw ⟨⟨⟨a, b⟩, c⟩, d⟩
    by_cases hc : ((output.temperature.ge (CFloat.ofInt params.crit.temperature.min) = true
        ∧ output.temperature.le (CFloat.ofInt params.crit.temperature.max) = true)
        ∧ output.humidity.ge (CFloat.ofInt params.crit.humidity.min) = true)
        ∧ output.humidity.le (CFloat.ofInt params.crit.humidity.max) = true
    · rw [if_pos hc]
      obtain ⟨⟨⟨h1, h2⟩, h3⟩, h4⟩ := hc
      simp [hw2, h1, h2, h3, h4]
    · rw [if_neg hc]
      have hc2 : ¬ ((output.temperature.ge (CFloat.ofInt params.crit.temperature.min) = true
        ∧ output.temperature.le (CFloat.ofInt params.crit.temperature.max) = true)
        ∧ (output.humidity.ge (CFloat.ofInt params.crit.humidity.min) = true
        ∧ output.humidity.le (CFloat.ofInt params.crit.humidity.max) = true)) := by
        rintro ⟨⟨a, b⟩, c, d⟩; exact hc ⟨⟨⟨a, b⟩, c⟩, d⟩
      simp [hw2, hc2]

/-- C2. Whatever the thresholds, `outputResults` applied to the value
`parseSensorOutput` returns when no attempt was valid (temperature and humidity
both `SENSOR_NA`) returns 3, names the state UNKNOWN, and reports the value zero
for both the temperature and the humidity. -/
theorem outputResults_notAvailable (params : execParameters) :
    (outputResults params notAvailable).result = 3
    ∧ (outputResults params notAvailable).state = some "UNKNOWN"
    ∧ (outputResults params notAvailable).temperature = CFloat.fin 0
    ∧ (outputResults params notAvailable).humidity = CFloat.fin 0 := by
  have h : (CFloat.ofInt SENSOR_NA).ne (CFloat.ofInt SENSOR_NA) = false := by decide
  have h0 : CFloat.ofInt 0 = CFloat.fin 0 := by decide
  simp [outputResults, outputStatus, notAvailable, h, h0, states]

/-- C3, counterexample. The configuration with `warn.temperature.min = 50` and
`crit.temperature.min = 10`, every other bound disabled, is accepted and returned
unchanged, although its warning minimum is above its critical minimum. -/
theorem validateThresholdRanges_accepts_warnAboveCrit :
    warnAboveCrit.warn.temperature.min = 50
    ∧ warnAboveCrit.crit.temperature.min = 10
    ∧ validateThresholdRanges warnAboveCrit = Except.ok warnAboveCrit
    ∧ ¬ (warnAboveCrit.warn.temperature.min ≤ warnAboveCrit.crit.temperature.min) := by
  refine ⟨rfl, rfl, ?_, by decide⟩
  rw [validateThresholdRanges_ok_iff]
  refine ⟨?_, ?_, by decide, ?_⟩
  · unfold thresholdAllowed boundAllowed; decide
  · unfold thresholdAllowed boundAllowed; decide
  · unfold warnInsideCrit; decide

/-- C3, amended. Every configuration `validateThresholdRanges` accepts has, after
normalization, the warning interval inside the critical interval on both axes
(`warn.min >= crit.min` and `warn.max <= crit.max`), and every configuration
with `warn.temperature.min = 10` and `crit.temperature.min = 50` is rejected:
with the error of the temperature ranges when all its bounds are inside the
envelope or disabled, with an envelope error otherwise. -/
theorem validateThresholdRanges_enforces_warn_inside_crit (params result : execParameters) :
    (validateThresholdRanges params = Except.ok result → warnInsideCrit result)
    ∧ (params.warn.temperature.min = 10 → params.crit.temperature.min = 50 →
        (∃ e, validateThresholdRanges params = Except.error e)
        ∧ (thresholdAllowed params.warn → thresholdAllowed params.crit →
            validateThresholdRanges params = Except.error ERRCODE_INVALID_TMP_RANGES)) := by
  refine ⟨fun h => ((validateThresholdRanges_ok_iff params result).1 h).2.2.2, ?_⟩
  intro hw hc
  have hn : (normalizeThresholdRanges params).warn.temperature.min
      < (normalizeThresholdRanges params).crit.temperature.min := by
    simp [normalizeThresholdRanges, hw, hc, THRNG_DISABLE_MIN, THRNG_DISABLE_MAX]
    repeat' split
    all_goals simp [hw, hc]
  constructor
  · cases hv : validateThresholdRanges params with
    | error e => exact ⟨e, rfl⟩
    | ok r =>
      obtain ⟨_, _, rfl, hin⟩ := (validateThresholdRanges_ok_iff params r).1 hv
      unfold warnInsideCrit at hin
      omega
  · intro h1 h2
    rw [validateThresholdRanges_of_allowed params h1 h2]
    simp only
    rw [if_pos (Or.inl hn)]

/-- C3, amended, at two configurations: the usage example is accepted with its
warning ranges inside its critical ranges, and the usage example with the two
temperature minima set to 10 (warning) and 50 (critical) is rejected. -/
theorem validateThresholdRanges_enforces_warn_inside_crit_witness :
    validateThresholdRanges usageExample = Except.ok usageExample
    ∧ warnInsideCrit usageExample
    ∧ validateThresholdRanges
        { usageExample with
          warn := { usageExample.warn with temperature := { min := 10, max := 40 } }
          crit := { usageExample.crit with temperature := { min := 50, max := 60 } } }
      = Except.error ERRCODE_INVALID_TMP_RANGES := by
  have hok : validateThresholdRanges usageExample = Except.ok usageExample := by
    rw [validateThresholdRanges_ok_iff]
    refine ⟨?_, ?_, by decide, ?_⟩
    · unfold thresholdAllowed boundAllowed; decide
    · unfold thresholdAllowed boundAllowed; decide
    · unfold warnInsideCrit; decide
  refine ⟨hok, (validateThresholdRanges_enforces_warn_inside_crit usageExample usageExample).1 hok,
    ((validateThresholdRanges_enforces_warn_inside_crit
      { usageExample with
        warn := { usageExample.warn with temperature := { min := 10, max := 40 } }
        crit := { usageExample.crit with temperature := { min := 50, max := 60 } } }
      usageExample).2 rfl rfl).2 ?_ ?_⟩
  · unfold thresholdAllowed boundAllowed; decide
  · unfold thresholdAllowed boundAllowed; decide

/-- C4. Every configuration returned by `validateThresholdRanges` has the warning
range a subset of the critical range on both axes, and every configuration whose
bounds are all inside the envelope or disabled and whose normal form violates one
of the four inequalities is rejected, with the error of the temperature ranges
or the error of the humidity ranges. -/
theorem validateThresholdRanges_warn_subset_of_crit (params result : execParameters) :
    (validateThresholdRanges params = Except.ok result →
      result.warn.temperature.min ≥ result.crit.temperature.min
      ∧ result.warn.temperature.max ≤ result.crit.temperature.max
      ∧ result.warn.humidity.min ≥ result.crit.humidity.min
      ∧ result.warn.humidity.max ≤ result.crit.humidity.max)
    ∧ (thresholdAllowed params.warn → thresholdAllowed params.crit →
        ¬ ((normalizeThresholdRanges params).warn.temperature.min
              ≥ (normalizeThresholdRanges params).crit.temperature.min
            ∧ (normalizeThresholdRanges params).warn.temperature.max
              ≤ (normalizeThresholdRanges params).crit.temperature.max
            ∧ (normalizeThresholdRanges params).warn.humidity.min
              ≥ (normalizeThresholdRanges params).crit.humidity.min
            ∧ (normalizeThresholdRanges params).warn.humidity.max
              ≤ (normalizeThresholdRanges params).crit.humidity.max) →
        validateThresholdRanges params = Except.error ERRCODE_INVALID_TMP_RANGES
        ∨ validateThresholdRanges params = Except.error ERRCODE_INVALID_HUM_RANGES) := by
  refine ⟨fun h => ((validateThresholdRanges_ok_iff params result).1 h).2.2.2, ?_⟩
  intro h1 h2 hv
  rw [validateThresholdRanges_of_allowed params h1 h2]
  simp only
  by_cases ht : (normalizeThresholdRanges params).warn.temperature.min
        < (normalizeThresholdRanges params).crit.temperature.min
      ∨ (normalizeThresholdRanges params).warn.temperature.max
        > (normalizeThresholdRanges params).crit.temperature.max
  · rw [if_pos ht]; exact Or.inl rfl
  · rw [if_neg ht, if_pos (by omega)]; exact Or.inr rfl

/-- C4 at two configurations: the usage example is accepted and nested, and the
usage example with a warning humidity maximum of 80 (above the critical 75) is
rejected with the error of the humidity ranges. -/
theorem validateThresholdRanges_warn_subset_of_crit_witness :
    validateThresholdRanges usageExample = Except.ok usageExample
    ∧ (usageExample.warn.temperature.min ≥ usageExample.crit.temperature.min
      ∧ usageExample.warn.temperature.max ≤ usageExample.crit.temperature.max
      ∧ usageExample.warn.humidity.min ≥ usageExample.crit.humidity.min
      ∧ usageExample.warn.humidity.max ≤ usageExample.crit.humidity.max)
    ∧ validateThresholdRanges
        { usageExample with
          warn := { usageExample.warn with humidity := { min := 30, max := 80 } } }
      = Except.error ERRCODE_INVALID_HUM_RANGES := by
  have hok : validateThresholdRanges usageExample = Except.ok usageExample := by
    rw [validateThresholdRanges_ok_iff]
    refine ⟨?_, ?_, by decide, ?_⟩
    · unfold thresholdAllowed boundAllowed; decide
    · unfold thresholdAllowed boundAllowed; decide
    · unfold warnInsideCrit; decide
  refine ⟨hok, (validateThresholdRanges_warn_subset_of_crit usageExample usageExample).1 hok, ?_⟩
  have h := (validateThresholdRanges_warn_subset_of_crit
      { usageExample with
        warn := { usageExample.warn with humidity := { min := 30, max := 80 } } }
      usageExample).2
    (by unfold thresholdAllowed boundAllowed; decide)
    (by unfold thresholdAllowed boundAllowed; decide)
    (by decide)
  rcases h with h | h
  · have hv : validateThresholdRanges
        { usageExample with
          warn := { usageExample.warn with humidity := { min := 30, max := 80 } } }
        = Except.error ERRCODE_INVALID_HUM_RANGES := rfl
    rw [hv] at h
    simp [ERRCODE_INVALID_HUM_RANGES, ERRCODE_INVALID_TMP_RANGES] at h
  · exact h

/-! ## Steps on the world -/

theorem Prog.andThen_eq_some {α β : Type} (p : Prog α) (f : α → Prog β) (w : World)
    (r : β × World) :
    p.andThen f w = some r ↔ ∃ a w1, p w = some (a, w1) ∧ f a w1 = some r := by
  unfold Prog.andThen
  cases h : p w with
  | none => simp
  | some x =>
    obtain ⟨a, w1⟩ := x
    simp only [Option.some.injEq, Prod.mk.injEq]
    constructor
    · intro hf; exact ⟨a, w1, ⟨rfl, rfl⟩, hf⟩
    · rintro ⟨a2, w2, ⟨rfl, rfl⟩, hf⟩; exact hf

theorem call_log (c : Call) (w : World) (r : Unit × World) (h : call c w = some r) :
    r.2.log = w.log ++ [c] := by
  unfold call at h
  simp only [Option.some.injEq] at h
  subst h; rfl

theorem digitalRead_log (pin : Int) (w : World) (r : Bool × World)
    (h : digitalRead pin w = some r) : r.2.log = w.log := by
  unfold digitalRead at h
  split at h
  · simp at h
  · simp only [Option.some.injEq] at h; subst h; rfl

theorem gettimeofday_log (w : World) (r : timeval × World) (h : gettimeofday w = some r) :
    r.2.log = w.log := by
  unfold gettimeofday at h
  split at h
  · simp at h
  · simp only [Option.some.injEq] at h; subst h; rfl

theorem pollWhile_log ( GPIO : Int) (level : Bool) (timeUp : timeval) (fuel : Nat) (w : World)
    (r : Bool × World) (h : pollWhile GPIO level timeUp fuel w = some r) : r.2.log = w.log := by
  induction fuel generalizing w with
  | zero => simp [pollWhile] at h
  | succ fuel ih =>
    unfold pollWhile at h
    rw [Prog.andThen_eq_some] at h
    obtain ⟨l, w1, h1, h2⟩ := h
    have e1 := digitalRead_log _ _ _ h1
    split at h2
    · rw [Prog.andThen_eq_some] at h2
      obtain ⟨now, w2, h3, h4⟩ := h2
      have e2 := gettimeofday_log _ _ h3
      split at h4
      · simp only [Prog.ret, Option.some.injEq] at h4
        subst h4; simp_all
      · have := ih _ h4
        simp_all
    · simp only [Prog.ret, Option.some.injEq] at h2
      subst h2; simp_all

theorem sensorLowHighWait_log ( GPIO : Int) (w : World) (r : Bool × World)
    (h : sensorLowHighWait GPIO w = some r) : r.2.log = w.log := by
  unfold sensorLowHighWait at h
  rw [Prog.andThen_eq_some] at h
  obtain ⟨now, w1, h1, h⟩ := h
  have e1 := gettimeofday_log _ _ h1
  simp only at h
  rw [Prog.andThen_eq_some] at h
  obtain ⟨ended, w2, h2, h⟩ := h
  have e2 := pollWhile_log _ _ _ _ _ _ h2
  split at h
  · simp only [Prog.ret, Option.some.injEq] at h
    subst h; simp_all
  · rw [Prog.andThen_eq_some] at h
    obtain ⟨now2, w3, h3, h⟩ := h
    have e3 := gettimeofday_log _ _ h3
    rw [Prog.andThen_eq_some] at h
    obtain ⟨ended2, w4, h4, h⟩ := h
    have e4 := pollWhile_log _ _ _ _ _ _ h4
    split at h <;>
    · simp only [Prog.ret, Option.some.injEq] at h
      subst h; simp_all

theorem retrieveBits_queryCount ( GPIO : Int) (bits result : Nat) (w : World) (r : Nat × World)
    (h : retrieveBits GPIO bits result w = some r) : queryCount r.2 = queryCount w := by
  induction bits generalizing result w with
  | zero =>
    simp only [retrieveBits, Prog.ret, Option.some.injEq] at h
    subst h; rfl
  | succ bits ih =>
    unfold retrieveBits at h
    rw [Prog.andThen_eq_some] at h
    obtain ⟨ok, w1, h1, h⟩ := h
    have e1 := sensorLowHighWait_log _ _ _ h1
    split at h
    · simp only [Prog.ret, Option.some.injEq] at h
      subst h; simp_all [queryCount]
    · rw [Prog.andThen_eq_some] at h
      obtain ⟨_, w2, h2, h⟩ := h
      have e2 := call_log _ _ _ h2
      simp only at h
      rw [Prog.andThen_eq_some] at h
      obtain ⟨l, w3, h3, h⟩ := h
      have e3 := digitalRead_log _ _ _ h3
      have := ih _ _ h
      simp only at e1 e2 e3
      rw [this]
      unfold queryCount
      rw [e3, e2, e1]
      simp

theorem retrieveBits_lt ( GPIO : Int) (bits done result : Nat) (w : World) (r : Nat × World)
    (hd : done + bits ≤ 32) (hr : result < 2 ^ done)
    (h : retrieveBits GPIO bits result w = some r) : r.1 < 2 ^ (done + bits) := by
  induction bits generalizing done result w with
  | zero =>
    simp only [retrieveBits, Prog.ret, Option.some.injEq] at h
    subst h; simpa using hr
  | succ bits ih =>
    unfold retrieveBits at h
    rw [Prog.andThen_eq_some] at h
    obtain ⟨ok, w1, h1, h⟩ := h
    split at h
    · simp only [Prog.ret, Option.some.injEq] at h
      subst h; exact Nat.pos_pow_of_pos _ (by decide)
    · rw [Prog.andThen_eq_some] at h
      obtain ⟨_, w2, h2, h⟩ := h
      simp only at h
      rw [Prog.andThen_eq_some] at h
      obtain ⟨l, w3, h3, h⟩ := h
      have hs : (result <<< 1) % 2 ^ 32 < 2 ^ (done + 1) := by
        rw [Nat.shiftLeft_eq, pow_succ]
        exact lt_of_le_of_lt (Nat.mod_le _ _) (by omega)
      have hnew : (if l = HIGH then (result <<< 1) % 2 ^ 32 ||| 1 else (result <<< 1) % 2 ^ 32)
          < 2 ^ (done + 1) := by
        split
        · exact Nat.or_lt_two_pow hs (Nat.one_lt_two_pow (by omega))
        · exact hs
      have := ih (done + 1) _ _ (by omega) hnew h
      rw [show done + (bits + 1) = done + 1 + bits by omega]
      exact this

/-- Every value `retrieveByte` returns is a byte. -/
theorem retrieveByte_lt ( GPIO : Int) (w : World) (r : Nat × World)
    (h : retrieveByte GPIO w = some r) : r.1 < 256 := by
  have := retrieveBits_lt GPIO 8 0 0 w r (by decide) (by decide) h
  simpa using this

/-- What `querySensor` returns when its sync wait fails. -/
theorem querySensor_of_observe_none ( GPIO : Int) (results : List Nat) (w w1 : World)
    (h : observe GPIO w = some (none, w1)) :
    querySensor GPIO results w = some ((false, results), w1) := by
  unfold observe at h
  simp only [Prog.andThen_eq_some] at h
  obtain ⟨_, v1, h1, then_, v2, h2, _, v3, h3, _, v4, h4, _, v5, h5, _, v6, h6, _, v7, h7,
    _, v8, h8, ok, v9, h9, h⟩ := h
  unfold querySensor
  simp only [Prog.andThen, h1, h2, h3, h4, h5, h6, h7, h8, h9]
  cases ok with
  | false => simpa [Prog.ret] using h
  | true =>
    simp only [Bool.not_true, Bool.false_eq_true, if_false, Prog.andThen_eq_some] at h
    obtain ⟨b0, u1, g1, b1, u2, g2, b2, u3, g3, b3, u4, g4, b4, u5, g5, now, u6, g6, h⟩ := h
    simp [Prog.ret] at h

/-- What `querySensor` returns when its sync wait succeeds: `FALSE` when the time
taken fails the timing test, the outcome of the checksum comparison otherwise,
with the four data bytes stored in `results`. -/
theorem querySensor_of_observe ( GPIO : Int) (results : List Nat) (w w1 : World) (o : Observation)
    (h : observe GPIO w = some (some o, w1)) :
    querySensor GPIO results w =
      some ((if (timersub o.now o.then_).tv_sec ≠ 0 ∨ (timersub o.now o.then_).tv_usec > 16000
              then false
              else decide (((((0 + o.b0) % 2 ^ 32 + o.b1) % 2 ^ 32 + o.b2) % 2 ^ 32 + o.b3)
                        % 2 ^ 32 &&& 0xFF = o.b4),
             (((results.set 0 o.b0).set 1 o.b1).set 2 o.b2).set 3 o.b3), w1) := by
  unfold observe at h
  simp only [Prog.andThen_eq_some] at h
  obtain ⟨_, v1, h1, then_, v2, h2, _, v3, h3, _, v4, h4, _, v5, h5, _, v6, h6, _, v7, h7,
    _, v8, h8, ok, v9, h9, h⟩ := h
  unfold querySensor
  simp only [Prog.andThen, h1, h2, h3, h4, h5, h6, h7, h8, h9]
  cases ok with
  | false => simp [Prog.ret] at h
  | true =>
    simp only [Bool.not_true, Bool.false_eq_true, if_false, Prog.andThen_eq_some] at h
    obtain ⟨b0, u1, g1, b1, u2, g2, b2, u3, g3, b3, u4, g4, b4, u5, g5, now, u6, g6, h⟩ := h
    simp only [Prog.ret, Option.some.injEq, Prod.mk.injEq] at h
    obtain ⟨ho, hw⟩ := h
    subst ho hw
    simp only [Bool.not_true, Bool.false_eq_true, if_false, Prog.andThen, g1, g2, g3, g4, g5, g6]
    split <;> rfl

/-- The call `querySensor` returns whenever its interaction with the world does. -/
theorem querySensor_eq_some_iff ( GPIO : Int) (results : List Nat) (w : World)
    (r : (Bool × List Nat) × World) (h : querySensor GPIO results w = some r) :
    ∃ o, observe GPIO w = some (o, r.2) := by
  unfold querySensor at h
  simp only [Prog.andThen_eq_some] at h
  obtain ⟨_, v1, h1, then_, v2, h2, _, v3, h3, _, v4, h4, _, v5, h5, _, v6, h6, _, v7, h7,
    _, v8, h8, ok, v9, h9, h⟩ := h
  unfold observe
  simp only [Prog.andThen, h1, h2, h3, h4, h5, h6, h7, h8, h9]
  cases ok with
  | false =>
    simp only [Bool.not_false, if_true, Prog.ret, Option.some.injEq] at h ⊢
    subst h
    exact ⟨none, rfl⟩
  | true =>
    simp only [Bool.not_true, Bool.false_eq_true, if_false, Prog.andThen_eq_some] at h
    obtain ⟨b0, u1, g1, b1, u2, g2, b2, u3, g3, b3, u4, g4, b4, u5, g5, now, u6, g6, h⟩ := h
    simp only [Bool.not_true, Bool.false_eq_true, if_false, Prog.andThen, g1, g2, g3, g4, g5, g6,
      Prog.ret]
    have : r.2 = u6 := by
      split at h <;>
      · simp only [Prog.ret, Option.some.injEq] at h
        subst h; rfl
    rw [this]
    exact ⟨_, rfl⟩

/-- One call of `querySensor` makes one call of `nanosleep`. -/
theorem observe_queryCount ( GPIO : Int) (w : World) (r : Option Observation × World)
    (h : observe GPIO w = some r) : queryCount r.2 = queryCount w + 1 := by
  unfold observe at h
  simp only [Prog.andThen_eq_some] at h
  obtain ⟨_, v1, h1, then_, v2, h2, _, v3, h3, _, v4, h4, _, v5, h5, _, v6, h6, _, v7, h7,
    _, v8, h8, ok, v9, h9, h⟩ := h
  have e1 := call_log _ _ _ h1
  have e2 := gettimeofday_log _ _ h2
  have e3 := call_log _ _ _ h3
  have e4 := call_log _ _ _ h4
  have e5 := call_log _ _ _ h5
  have e6 := call_log _ _ _ h6
  have e7 := call_log _ _ _ h7
  have e8 := call_log _ _ _ h8
  have e9 := sensorLowHighWait_log _ _ _ h9
  simp only at e1 e2 e3 e4 e5 e6 e7 e8 e9
  have hv9 : queryCount v9 = queryCount w + 1 := by
    unfold queryCount
    rw [e9, e8, e7, e6, e5, e4, e3, e2, e1]
    simp
  cases ok with
  | false =>
    simp only [Bool.not_false, if_true, Prog.ret, Option.some.injEq] at h
    subst h; exact hv9
  | true =>
    simp only [Bool.not_true, Bool.false_eq_true, if_false, Prog.andThen_eq_some] at h
    obtain ⟨b0, u1, g1, b1, u2, g2, b2, u3, g3, b3, u4, g4, b4, u5, g5, now, u6, g6, h⟩ := h
    have c1 := retrieveBits_queryCount _ _ _ _ _ g1
    have c2 := retrieveBits_queryCount _ _ _ _ _ g2
    have c3 := retrieveBits_queryCount _ _ _ _ _ g3
    have c4 := retrieveBits_queryCount _ _ _ _ _ g4
    have c5 := retrieveBits_queryCount _ _ _ _ _ g5
    have c6 := gettimeofday_log _ _ g6
    simp only [Prog.ret, Option.some.injEq] at h
    subst h
    simp only at c1 c2 c3 c4 c5 c6 ⊢
    have : queryCount u6 = queryCount u5 := by unfold queryCount; rw [c6]
    omega

theorem querySensor_queryCount ( GPIO : Int) (results : List Nat) (w : World)
    (r : (Bool × List Nat) × World) (h : querySensor GPIO results w = some r) :
    queryCount r.2 = queryCount w + 1 := by
  obtain ⟨o, ho⟩ := querySensor_eq_some_iff GPIO results w r h
  exact observe_queryCount GPIO w _ ho

/-- The bytes an attempt observes are bytes. -/
theorem observe_bytes_lt ( GPIO : Int) (w w1 : World) (o : Observation)
    (h : observe GPIO w = some (some o, w1)) :
    o.b0 < 256 ∧ o.b1 < 256 ∧ o.b2 < 256 ∧ o.b3 < 256 ∧ o.b4 < 256 := by
  unfold observe at h
  simp only [Prog.andThen_eq_some] at h
  obtain ⟨_, v1, h1, then_, v2, h2, _, v3, h3, _, v4, h4, _, v5, h5, _, v6, h6, _, v7, h7,
    _, v8, h8, ok, v9, h9, h⟩ := h
  cases ok with
  | false => simp [Prog.ret] at h
  | true =>
    simp only [Bool.not_true, Bool.false_eq_true, if_false, Prog.andThen_eq_some] at h
    obtain ⟨b0, u1, g1, b1, u2, g2, b2, u3, g3, b3, u4, g4, b4, u5, g5, now, u6, g6, h⟩ := h
    simp only [Prog.ret, Option.some.injEq, Prod.mk.injEq] at h
    obtain ⟨ho, hw⟩ := h
    subst ho
    exact ⟨retrieveByte_lt _ _ _ g1, retrieveByte_lt _ _ _ g2, retrieveByte_lt _ _ _ g3,
      retrieveByte_lt _ _ _ g4, retrieveByte_lt _ _ _ g5⟩

/-- The timing test of `querySensor` on two normalized timestamps in order: it fires
exactly when more than 16000 microseconds lie between them. -/
theorem timing_test_iff (then_ now : timeval) (h1 : then_.normalized) (h2 : now.normalized)
    (h3 : then_.micros ≤ now.micros) :
    ((timersub now then_).tv_sec ≠ 0 ∨ (timersub now then_).tv_usec > 16000)
      ↔ now.micros - then_.micros > 16000 := by
  unfold timeval.normalized at h1 h2
  unfold timeval.micros at h3 ⊢
  unfold timersub
  simp only
  split <;> simp only <;> omega

/-- The masked sum that `querySensor` compares with the fifth byte is the sum of
the four data bytes modulo 256. -/
theorem queryChecksum_eq (b0 b1 b2 b3 : Nat) :
    ((((0 + b0) % 2 ^ 32 + b1) % 2 ^ 32 + b2) % 2 ^ 32 + b3) % 2 ^ 32 &&& 0xFF
      = (b0 + b1 + b2 + b3) % 256 := by
  have h := Nat.and_pow_two_sub_one_eq_mod
    (((((0 + b0) % 2 ^ 32 + b1) % 2 ^ 32 + b2) % 2 ^ 32 + b3) % 2 ^ 32) 8
  have e : (2 : Nat) ^ 8 - 1 = 0xFF := by decide
  rw [e] at h
  rw [h]
  omega

/-- A `float` that passes the two C comparisons against small integer bounds is a
finite value between them. -/
theorem CFloat.between_of_ge_le (x : CFloat) (lo hi : Int) (hlo : lo.natAbs ≤ 2 ^ 24)
    (hhi : hi.natAbs ≤ 2 ^ 24) (h1 : x.ge (CFloat.ofInt lo) = true)
    (h2 : x.le (CFloat.ofInt hi) = true) : x.between lo hi := by
  rw [CFloat.ofInt_of_small lo hlo] at h1
  rw [CFloat.ofInt_of_small hi hhi] at h2
  cases x with
  | nan => simp [CFloat.ge, CFloat.le] at h1
  | inf n =>
    simp only [CFloat.ge, CFloat.le] at h1 h2
    cases n <;> simp at h1 h2
  | fin k =>
    simp only [CFloat.ge, CFloat.le, decide_eq_true_eq] at h1 h2
    exact ⟨k, rfl, h1, h2⟩

/-- A reading that passes the test of `parseSensorOutput` lies in the envelope. -/
theorem withinCapabilities_between (r : sensorOutput) (h : withinCapabilities r = true) :
    r.temperature.between (-40) 80 ∧ r.humidity.between 0 100 := by
  simp only [withinCapabilities, Bool.and_eq_true] at h
  obtain ⟨⟨⟨h1, h2⟩, h3⟩, h4⟩ := h
  exact ⟨CFloat.between_of_ge_le _ (-40) 80 (by decide) (by decide) h1 h2,
    CFloat.between_of_ge_le _ 0 100 (by decide) (by decide) h3 h4⟩

/-- Whatever the retry loop returns is the not-available value or passed the
envelope test. -/
theorem queryLoop_result ( GPIO : Int) (queryRetries : Nat) (w w1 : World) (r : sensorOutput)
    (h : queryLoop GPIO queryRetries w = some (r, w1)) :
    r = notAvailable ∨ withinCapabilities r = true := by
  induction queryRetries generalizing w with
  | zero =>
    simp only [queryLoop, Prog.ret, Option.some.injEq, Prod.mk.injEq] at h
    exact Or.inl h.1.symm
  | succ n ih =>
    unfold queryLoop at h
    simp only [Prog.andThen_eq_some] at h
    obtain ⟨⟨ok, d⟩, v, hq, h⟩ := h
    simp only at h
    split at h
    · split at h
      · rename_i hwc
        simp only [Prog.ret, Option.some.injEq, Prod.mk.injEq] at h
        rw [← h.1]
        exact Or.inr hwc
      · exact ih _ h
    · exact ih _ h

/-! ## The protocol driver -/

/-- C6. In an attempt whose sync wait succeeded, that retrieved the five bytes
`b0 .. b4` and whose elapsed time is within the timing envelope, each byte is in
0 .. 255, `querySensor` returns with `results[0..3]` holding `b0 .. b3`, and it
reports success exactly when `(b0 + b1 + b2 + b3) mod 256 = b4`. -/
theorem querySensor_checksum ( GPIO : Int) (results : List Nat) (w w1 : World) (o : Observation)
    (hlen : results.length = 4)
    (h : observe GPIO w = some (some o, w1))
    (hthen : o.then_.normalized) (hnow : o.now.normalized)
    (horder : o.then_.micros ≤ o.now.micros)
    (hin : o.now.micros - o.then_.micros ≤ 16000) :
    (o.b0 < 256 ∧ o.b1 < 256 ∧ o.b2 < 256 ∧ o.b3 < 256 ∧ o.b4 < 256)
    ∧ ∃ ok, querySensor GPIO results w = some ((ok, [o.b0, o.b1, o.b2, o.b3]), w1)
        ∧ (ok = true ↔ (o.b0 + o.b1 + o.b2 + o.b3) % 256 = o.b4) := by
  refine ⟨observe_bytes_lt GPIO w w1 o h, decide ((o.b0 + o.b1 + o.b2 + o.b3) % 256 = o.b4), ?_,
    by simp⟩
  rw [querySensor_of_observe GPIO results w w1 o h]
  have ht := (timing_test_iff o.then_ o.now hthen hnow horder).not.2 (by omega)
  rw [if_neg ht, queryChecksum_eq]
  match results, hlen with
  | [a, b, c, d], _ => rfl

/-- C6 at the sample frame `02 8C 01 5F EE`, read in 15010 microseconds: the
attempt succeeds and stores the four data bytes. -/
theorem querySensor_checksum_witness :
    observe 7 (worldOf sampleFrame) = some (some sampleFrame, worldAfterAttempt)
    ∧ querySensor 7 [0, 0, 0, 0] (worldOf sampleFrame)
        = some ((true, [0x02, 0x8C, 0x01, 0x5F]), worldAfterAttempt)
    ∧ ((sampleFrame.b0 < 256 ∧ sampleFrame.b1 < 256 ∧ sampleFrame.b2 < 256 ∧ sampleFrame.b3 < 256
          ∧ sampleFrame.b4 < 256)
      ∧ ∃ ok, querySensor 7 [0, 0, 0, 0] (worldOf sampleFrame)
            = some ((ok, [sampleFrame.b0, sampleFrame.b1, sampleFrame.b2, sampleFrame.b3]),
                worldAfterAttempt)
          ∧ (ok = true ↔
              (sampleFrame.b0 + sampleFrame.b1 + sampleFrame.b2 + sampleFrame.b3) % 256
                = sampleFrame.b4)) :=
  ⟨by decide!, by decide!,
    querySensor_checksum 7 [0, 0, 0, 0] (worldOf sampleFrame) worldAfterAttempt sampleFrame rfl
      (by decide!) (by unfold timeval.normalized; decide) (by unfold timeval.normalized; decide)
      (by unfold timeval.micros; decide) (by unfold timeval.micros; decide)⟩

/-- C7. For normalized timestamps `then_` (before the reset pulse) and `now`
(after the last bit) with `now` not before `then_`, the timing test of
`querySensor` fires exactly when more than 16000 microseconds lie between them;
when at most 16000 do, the attempt is let through and `querySensor` returns the
outcome of the checksum comparison; when more do, it returns `FALSE` whether or
not the checksum matches. -/
theorem querySensor_timing ( GPIO : Int) (results : List Nat) (w w1 : World) (o : Observation)
    (hlen : results.length = 4)
    (h : observe GPIO w = some (some o, w1))
    (hthen : o.then_.normalized) (hnow : o.now.normalized)
    (horder : o.then_.micros ≤ o.now.micros) :
    (((timersub o.now o.then_).tv_sec ≠ 0 ∨ (timersub o.now o.then_).tv_usec > 16000)
        ↔ o.now.micros - o.then_.micros > 16000)
    ∧ (o.now.micros - o.then_.micros ≤ 16000 →
        querySensor GPIO results w
          = some ((decide ((o.b0 + o.b1 + o.b2 + o.b3) % 256 = o.b4),
                   [o.b0, o.b1, o.b2, o.b3]), w1))
    ∧ (o.now.micros - o.then_.micros > 16000 →
        querySensor GPIO results w = some ((false, [o.b0, o.b1, o.b2, o.b3]), w1)) := by
  have hset : (((results.set 0 o.b0).set 1 o.b1).set 2 o.b2).set 3 o.b3
      = [o.b0, o.b1, o.b2, o.b3] := by
    match results, hlen with
    | [a, b, c, d], _ => rfl
  refine ⟨timing_test_iff o.then_ o.now hthen hnow horder, ?_, ?_⟩
  · intro hin
    rw [querySensor_of_observe GPIO results w w1 o h]
    have ht := (timing_test_iff o.then_ o.now hthen hnow horder).not.2 (by omega)
    rw [if_neg ht, queryChecksum_eq, hset]
  · intro hout
    rw [querySensor_of_observe GPIO results w w1 o h]
    have ht := (timing_test_iff o.then_ o.now hthen hnow horder).2 hout
    rw [if_pos ht, hset]

/-- C7 at the sample frame read in 16001 microseconds: the checksum matches and
the attempt is reported as failed. -/
theorem querySensor_timing_witness :
    observe 7 (worldOf lateFrame) = some (some lateFrame, worldAfterAttempt)
    ∧ (lateFrame.b0 + lateFrame.b1 + lateFrame.b2 + lateFrame.b3) % 256 = lateFrame.b4
    ∧ lateFrame.now.micros - lateFrame.then_.micros = 16001
    ∧ querySensor 7 [0, 0, 0, 0] (worldOf lateFrame)
        = some ((false, [lateFrame.b0, lateFrame.b1, lateFrame.b2, lateFrame.b3]),
            worldAfterAttempt) :=
  ⟨by decide!, by decide, by unfold timeval.micros; decide,
    (querySensor_timing 7 [0, 0, 0, 0] (worldOf lateFrame) worldAfterAttempt lateFrame rfl
      (by decide!) (by unfold timeval.normalized; decide) (by unfold timeval.normalized; decide)
      (by unfold timeval.micros; decide)).2.2 (by unfold timeval.micros; decide)⟩

/-! ## The retry loop and the decoding -/

/-- C8. Whatever the line and the clock do, a measurement `parseSensorOutput`
returns is the not-available value (temperature and humidity both `SENSOR_NA`)
or has a temperature between -40 and 80 and a humidity between 0 and 100: a
frame that decodes outside this envelope is never returned. -/
theorem parseSensorOutput_envelope ( GPIO : Int) (w w1 : World) (r : sensorOutput)
    (h : parseSensorOutput GPIO w = some (Except.ok r, w1)) :
    r = notAvailable ∨ (r.temperature.between (-40) 80 ∧ r.humidity.between 0 100) := by
  unfold parseSensorOutput at h
  split at h
  · simp at h
  · simp only [Prog.andThen_eq_some] at h
    obtain ⟨_, v1, _, r1, v2, hq, h⟩ := h
    simp only [Prog.ret, Option.some.injEq, Prod.mk.injEq, Except.ok.injEq] at h
    rw [← h.1]
    rcases queryLoop_result GPIO _ _ _ _ hq with hna | hwc
    · exact Or.inl hna
    · exact Or.inr (withinCapabilities_between _ hwc)

/-- C8 in the world that sends the sample frame: the measurement returned is the
decoding of `02 8C 01 5F`, which is not the not-available value and lies in the
envelope. -/
theorem parseSensorOutput_envelope_witness :
    parseSensorOutput 7 (worldOf sampleFrame)
      = some (Except.ok (parseData [0x02, 0x8C, 0x01, 0x5F]), worldAfterParse)
    ∧ parseData [0x02, 0x8C, 0x01, 0x5F] ≠ notAvailable
    ∧ (parseData [0x02, 0x8C, 0x01, 0x5F] = notAvailable
        ∨ ((parseData [0x02, 0x8C, 0x01, 0x5F]).temperature.between (-40) 80
            ∧ (parseData [0x02, 0x8C, 0x01, 0x5F]).humidity.between 0 100)) :=
  ⟨by decide!, by decide!,
    parseSensorOutput_envelope 7 (worldOf sampleFrame) worldAfterParse
      (parseData [0x02, 0x8C, 0x01, 0x5F]) (by decide!)⟩

/-- C9. When `wiringPiSetup` succeeds and both attempts fail, each because
`querySensor` reports failure or because the decoded values are outside the
envelope, `parseSensorOutput` returns the not-available value in the world the
second attempt left, and `querySensor` has been called `QUERYRETRIES` = 2 times
in between. -/
theorem parseSensorOutput_exhausts_retries ( GPIO : Int) (w w1 w2 : World) (ok1 ok2 : Bool)
    (d1 d2 : List Nat)
    (hsetup : w.wiringPi ≠ -1)
    (h1 : querySensor GPIO [0, 0, 0, 0] { w with log := w.log ++ [Call.piHiPri 55] }
            = some ((ok1, d1), w1))
    (hf1 : ok1 = false ∨ withinCapabilities (parseData d1) = false)
    (h2 : querySensor GPIO [0, 0, 0, 0] w1 = some ((ok2, d2), w2))
    (hf2 : ok2 = false ∨ withinCapabilities (parseData d2) = false) :
    parseSensorOutput GPIO w = some (Except.ok notAvailable, w2)
    ∧ queryCount w2 = queryCount w + QUERYRETRIES
    ∧ QUERYRETRIES = 2 := by
  have hl1 : queryLoop GPIO 0 w2 = some (notAvailable, w2) := rfl
  have hl2 : queryLoop GPIO 1 w1 = some (notAvailable, w2) := by
    unfold queryLoop
    simp only [Prog.andThen, h2]
    rcases hf2 with hf | hf
    · simp [hf, hl1]
    · cases ok2 <;> simp [hf, hl1]
  have hl3 : queryLoop GPIO 2 { w with log := w.log ++ [Call.piHiPri 55] }
      = some (notAvailable, w2) := by
    unfold queryLoop
    simp only [Prog.andThen, h1]
    rcases hf1 with hf | hf
    · simp [hf, hl2]
    · cases ok1 <;> simp [hf, hl2]
  refine ⟨?_, ?_, rfl⟩
  · unfold parseSensorOutput
    rw [if_neg hsetup]
    simp only [Prog.andThen, call, QUERYRETRIES, hl3, Prog.ret]
  · have c1 := querySensor_queryCount _ _ _ _ h1
    have c2 := querySensor_queryCount _ _ _ _ h2
    simp only at c1 c2
    have c0 : queryCount { w with log := w.log ++ [Call.piHiPri 55] } = queryCount w := by
      simp [queryCount]
    rw [c2, c1, c0]
    rfl

/-- C9 in the silent world, where the sync wait of each attempt times out: two
attempts are made and the not-available value is returned. -/
theorem parseSensorOutput_exhausts_retries_witness :
    querySensor 7 [0, 0, 0, 0] { silentWorld with log := silentWorld.log ++ [Call.piHiPri 55] }
      = some ((false, [0, 0, 0, 0]), silentWorldAfterFirst)
    ∧ querySensor 7 [0, 0, 0, 0] silentWorldAfterFirst
      = some ((false, [0, 0, 0, 0]), silentWorldAfterSecond)
    ∧ queryCount silentWorld = 0
    ∧ (parseSensorOutput 7 silentWorld = some (Except.ok notAvailable, silentWorldAfterSecond)
      ∧ queryCount silentWorldAfterSecond = queryCount silentWorld + QUERYRETRIES
      ∧ QUERYRETRIES = 2) :=
  ⟨by decide!, by decide!, by decide,
    parseSensorOutput_exhausts_retries 7 silentWorld silentWorldAfterFirst silentWorldAfterSecond
      false false [0, 0, 0, 0] [0, 0, 0, 0] (by decide) (by decide!) (Or.inl rfl) (by decide!)
      (Or.inl rfl)⟩

/-- C5, the failing input. The frame `02 8C 80 64` with checksum `72` (-10.0 °C
with the sign flag in bit 7 of the third byte, 65.2 %) is accepted by
`querySensor`. Its humidity is decoded as `652 / 10`, but its temperature is
decoded as `-(32868 / 10)`, the flag bit counted into the magnitude, which is
below -3286 and is not `-(100 / 10)`. The reading fails the envelope test, and
`parseSensorOutput` returns the not-available value when both attempts retrieve
this frame. -/
theorem parseData_counts_sign_bit_into_magnitude :
    querySensor 7 [0, 0, 0, 0] (worldOf negativeFrame)
      = some ((true, [0x02, 0x8C, 0x80, 0x64]), worldAfterAttempt)
    ∧ (parseData [0x02, 0x8C, 0x80, 0x64]).humidity
        = (CFloat.ofInt 652).div (CFloat.ofInt 10)
    ∧ (parseData [0x02, 0x8C, 0x80, 0x64]).temperature
        = ((CFloat.ofInt 32868).div (CFloat.ofInt 10)).mul (CFloat.ofInt (-1))
    ∧ (parseData [0x02, 0x8C, 0x80, 0x64]).temperature.le (CFloat.ofInt (-3286)) = true
    ∧ (parseData [0x02, 0x8C, 0x80, 0x64]).temperature
        ≠ ((CFloat.ofInt 100).div (CFloat.ofInt 10)).mul (CFloat.ofInt (-1))
    ∧ withinCapabilities (parseData [0x02, 0x8C, 0x80, 0x64]) = false
    ∧ parseSensorOutput 7 negativeWorld = some (Except.ok notAvailable, worldAfterTwoFrames) := by
  refine ⟨?_, ?_, ?_, ?_, ?_, ?_, ?_⟩ <;> decide!

/-! ## Envelope of the thresholds -/

theorem boundAllowed_small (lo hi s b : Int) (hlo : -110 ≤ lo) (hhi : hi ≤ 110)
    (hs : s = -110 ∨ s = 110) (h : boundAllowed lo hi s b) : b.natAbs ≤ 2 ^ 24 := by
  unfold boundAllowed at h
  have : (2 : Nat) ^ 24 = 16777216 := by norm_num
  omega

/-- The bounds of an allowed threshold convert to `float` without rounding. -/
theorem thresholdAllowed_small (t : threshold) (h : thresholdAllowed t) :
    t.temperature.min.natAbs ≤ 2 ^ 24 ∧ t.temperature.max.natAbs ≤ 2 ^ 24
    ∧ t.humidity.min.natAbs ≤ 2 ^ 24 ∧ t.humidity.max.natAbs ≤ 2 ^ 24 := by
  obtain ⟨h1, h2, h3, h4⟩ := h
  exact ⟨boundAllowed_small _ _ _ _ (by decide) (by decide) (Or.inl rfl) h1,
    boundAllowed_small _ _ _ _ (by decide) (by decide) (Or.inr rfl) h2,
    boundAllowed_small _ _ _ _ (by decide) (by decide) (Or.inl rfl) h3,
    boundAllowed_small _ _ _ _ (by decide) (by decide) (Or.inr rfl) h4⟩

/-- Normalization leaves the critical threshold and the pin as they are. -/
theorem normalizeThresholdRanges_crit (params : execParameters) :
    (normalizeThresholdRanges params).crit = params.crit
    ∧ execParameters.GPIO (normalizeThresholdRanges params) = execParameters.GPIO params := by
  unfold normalizeThresholdRanges
  simp only
  constructor <;> (repeat' split) <;> rfl

/-- Normalization keeps allowed bounds allowed: a warning bound stays or takes the
critical bound of its own side. -/
theorem normalizeThresholdRanges_allowed (params : execParameters)
    (hw : thresholdAllowed params.warn) (hc : thresholdAllowed params.crit) :
    thresholdAllowed (normalizeThresholdRanges params).warn := by
  obtain ⟨hw1, hw2, hw3, hw4⟩ := hw
  obtain ⟨hc1, hc2, hc3, hc4⟩ := hc
  unfold normalizeThresholdRanges
  simp only
  unfold thresholdAllowed
  (repeat' split) <;> exact ⟨by assumption, by assumption, by assumption, by assumption⟩

/-- C12. `validateThresholdRanges` rejects, with the error of the temperature range
or of the humidity range, every configuration in which some bound of `warn` or
`crit` is neither inside the sensor envelope nor the sentinel that disables its
side; and every bound of a configuration it returns is inside the envelope or
equal to its sentinel. -/
theorem validateThresholdRanges_envelope (params result : execParameters) :
    (¬ (thresholdAllowed params.warn ∧ thresholdAllowed params.crit) →
      validateThresholdRanges params = Except.error ERRCODE_INVALID_TMP_RANGE
      ∨ validateThresholdRanges params = Except.error ERRCODE_INVALID_HUM_RANGE)
    ∧ (validateThresholdRanges params = Except.ok result →
        thresholdAllowed result.warn ∧ thresholdAllowed result.crit) := by
  constructor
  · intro hn
    unfold validateThresholdRanges
    split
    · exact Or.inl rfl
    split
    · exact Or.inr rfl
    split
    · exact Or.inl rfl
    split
    · exact Or.inr rfl
    rename_i e1 e2 e3 e4
    simp only [Bool.not_eq_true] at e1 e2 e3 e4
    rw [tmpRangeInvalid_eq_false] at e1 e3
    rw [humRangeInvalid_eq_false] at e2 e4
    exact absurd ⟨⟨e1.1, e1.2, e2.1, e2.2⟩, ⟨e3.1, e3.2, e4.1, e4.2⟩⟩ hn
  · intro h
    obtain ⟨hw, hc, rfl, _⟩ := (validateThresholdRanges_ok_iff params result).1 h
    refine ⟨normalizeThresholdRanges_allowed params hw hc, ?_⟩
    rw [(normalizeThresholdRanges_crit params).1]
    exact hc

/-- C12 at two configurations: the usage example with a critical temperature
maximum of 95 is rejected with the error of the temperature range, and the
accepted usage example has all its bounds inside the envelope. -/
theorem validateThresholdRanges_envelope_witness :
    ¬ (thresholdAllowed usageExampleOutOfEnvelope.warn
        ∧ thresholdAllowed usageExampleOutOfEnvelope.crit)
    ∧ validateThresholdRanges usageExampleOutOfEnvelope = Except.error ERRCODE_INVALID_TMP_RANGE
    ∧ validateThresholdRanges usageExample = Except.ok usageExample
    ∧ (thresholdAllowed usageExample.warn ∧ thresholdAllowed usageExample.crit) := by
  have hbad : ¬ (thresholdAllowed usageExampleOutOfEnvelope.warn
      ∧ thresholdAllowed usageExampleOutOfEnvelope.crit) := by
    unfold thresholdAllowed boundAllowed; decide
  have hok : validateThresholdRanges usageExample = Except.ok usageExample := by decide
  refine ⟨hbad, ?_, hok, (validateThresholdRanges_envelope usageExample usageExample).2 hok⟩
  rcases (validateThresholdRanges_envelope usageExampleOutOfEnvelope usageExample).1 hbad
    with h | h
  · exact h
  · exact absurd h (by decide)

/-! ## Classification under an accepted configuration -/

/-- A `float` at or above a small integer bound is at or above every smaller one. -/
theorem CFloat.ge_ofInt_of_le (x : CFloat) (a b : Int) (ha : a.natAbs ≤ 2 ^ 24)
    (hb : b.natAbs ≤ 2 ^ 24) (hab : a ≤ b) (h : x.ge (CFloat.ofInt b) = true) :
    x.ge (CFloat.ofInt a) = true := by
  rw [CFloat.ofInt_of_small b hb] at h
  rw [CFloat.ofInt_of_small a ha]
  have hone : (0 : Int) ≤ (CFloat.one : Int) := Int.ofNat_nonneg _
  have hm : a * (CFloat.one : Int) ≤ b * (CFloat.one : Int) := Int.mul_le_mul_of_nonneg_right hab hone
  cases x with
  | nan => simp [CFloat.ge, CFloat.le] at h
  | inf n => simpa [CFloat.ge, CFloat.le] using h
  | fin k =>
    simp only [CFloat.ge, CFloat.le, decide_eq_true_eq] at h ⊢
    omega

/-- A `float` at or below a small integer bound is at or below every larger one. -/
theorem CFloat.le_ofInt_of_le (x : CFloat) (a b : Int) (ha : a.natAbs ≤ 2 ^ 24)
    (hb : b.natAbs ≤ 2 ^ 24) (hab : a ≤ b) (h : x.le (CFloat.ofInt a) = true) :
    x.le (CFloat.ofInt b) = true := by
  rw [CFloat.ofInt_of_small a ha] at h
  rw [CFloat.ofInt_of_small b hb]
  have hone : (0 : Int) ≤ (CFloat.one : Int) := Int.ofNat_nonneg _
  have hm : a * (CFloat.one : Int) ≤ b * (CFloat.one : Int) := Int.mul_le_mul_of_nonneg_right hab hone
  cases x with
  | nan => simp [CFloat.le] at h
  | inf n => simpa [CFloat.le] using h
  | fin k =>
    simp only [CFloat.le, decide_eq_true_eq] at h ⊢
    omega

/-- Under an accepted configuration a value within the warning range of an axis is
within its critical range. -/
theorem withinRange_crit_of_warn (v : CFloat) (w c : thresholdRange)
    (hw1 : w.min.natAbs ≤ 2 ^ 24) (hw2 : w.max.natAbs ≤ 2 ^ 24)
    (hc1 : c.min.natAbs ≤ 2 ^ 24) (hc2 : c.max.natAbs ≤ 2 ^ 24)
    (hmin : w.min ≥ c.min) (hmax : w.max ≤ c.max) (h : withinRange v w) : withinRange v c :=
  ⟨CFloat.ge_ofInt_of_le v c.min w.min hc1 hw1 hmin h.1,
    CFloat.le_ofInt_of_le v w.max c.max hw2 hc2 hmax h.2⟩

/-- The three classifications of the usage example, for a humidity that passes the
two C comparisons against the warning humidity bounds and the test against
`SENSOR_NA`. -/
theorem outputResults_usage_chain (params result : execParameters) (humidity : CFloat)
    (hv : validateThresholdRanges params = Except.ok result)
    (hwt : result.warn.temperature = { min := 10, max := 40 })
    (hct : result.crit.temperature = { min := 5, max := 45 })
    (hh : withinRange humidity result.warn.humidity)
    (hna : humidity.ne (CFloat.ofInt SENSOR_NA) = true) :
    (outputResults result { temperature := CFloat.ofInt 42, humidity := humidity }).result = 1
    ∧ (outputResults result { temperature := CFloat.ofInt 50, humidity := humidity }).result = 2
    ∧ (outputResults result { temperature := CFloat.ofInt 20, humidity := humidity }).result = 0 := by
  obtain ⟨hw, hc, hr, hin⟩ := (validateThresholdRanges_ok_iff params result).1 hv
  have haw : thresholdAllowed result.warn := by
    rw [hr]; exact normalizeThresholdRanges_allowed params hw hc
  have hac : thresholdAllowed result.crit := by
    rw [hr, (normalizeThresholdRanges_crit params).1]; exact hc
  obtain ⟨_, _, sw3, sw4⟩ := thresholdAllowed_small _ haw
  obtain ⟨_, _, sc3, sc4⟩ := thresholdAllowed_small _ hac
  obtain ⟨_, _, hin3, hin4⟩ := hin
  have hhc := withinRange_crit_of_warn humidity _ _ sw3 sw4 sc3 sc4 hin3 hin4 hh
  obtain ⟨hh1, hh2⟩ := hh
  obtain ⟨hc1, hc2⟩ := hhc
  have t42 : (CFloat.ofInt 42).ne (CFloat.ofInt SENSOR_NA) = true := by decide
  have t50 : (CFloat.ofInt 50).ne (CFloat.ofInt SENSOR_NA) = true := by decide
  have t20 : (CFloat.ofInt 20).ne (CFloat.ofInt SENSOR_NA) = true := by decide
  have a1 : (CFloat.ofInt 42).ge (CFloat.ofInt 10) = true := by decide
  have a2 : (CFloat.ofInt 42).le (CFloat.ofInt 40) = false := by decide
  have a3 : (CFloat.ofInt 42).ge (CFloat.ofInt 5) = true := by decide
  have a4 : (CFloat.ofInt 42).le (CFloat.ofInt 45) = true := by decide
  have b1 : (CFloat.ofInt 50).ge (CFloat.ofInt 10) = true := by decide
  have b2 : (CFloat.ofInt 50).le (CFloat.ofInt 40) = false := by decide
  have b3 : (CFloat.ofInt 50).ge (CFloat.ofInt 5) = true := by decide
  have b4 : (CFloat.ofInt 50).le (CFloat.ofInt 45) = false := by decide
  have c1 : (CFloat.ofInt 20).ge (CFloat.ofInt 10) = true := by decide
  have c2 : (CFloat.ofInt 20).le (CFloat.ofInt 40) = true := by decide
  refine ⟨?_, ?_, ?_⟩
  · simp [outputResults, outputStatus, hwt, hct, hna, t42, a1, a2, a3, a4, hh1, hh2, hc1, hc2]
  · simp [outputResults, outputStatus, hwt, hct, hna, t50, b1, b2, b3, b4, hh1, hh2, hc1, hc2]
  · simp [outputResults, outputStatus, hwt, hct, hna, t20, c1, c2, hh1, hh2, hc1, hc2]

/-! ## Retries -/

/-- C15, the failing input. In `deadSensorWorld` the sync wait succeeds, then the
wait of the first bit of the first byte times out (as does the first wait of
each later byte), and the attempt is over after 15210 microseconds; yet
`querySensor` reports success with four zero data bytes, and `parseSensorOutput`
returns them as the reading 0.0 °C, 0.0 % after a single attempt. -/
theorem querySensor_succeeds_after_bit_timeout :
    observe 7 deadSensorWorld
      = some (some { then_ := { tv_sec := 5, tv_usec := 0 }, b0 := 0, b1 := 0, b2 := 0, b3 := 0,
                     b4 := 0, now := { tv_sec := 5, tv_usec := 15210 } }, deadSensorAfterAttempt)
    ∧ sensorLowHighWait 7 deadSensorAfterSync = some (false, deadSensorAfterTimeout)
    ∧ retrieveByte 7 deadSensorAfterSync = some (0, deadSensorAfterTimeout)
    ∧ querySensor 7 [0, 0, 0, 0] deadSensorWorld
        = some ((true, [0, 0, 0, 0]), deadSensorAfterAttempt)
    ∧ parseSensorOutput 7 deadSensorWorld
        = some (Except.ok { temperature := CFloat.fin 0, humidity := CFloat.fin 0 },
            { deadSensorAfterAttempt with log := [Call.piHiPri 55] ++ syncFailureCalls 7 }) := by
  refine ⟨?_, ?_, ?_, ?_, ?_⟩ <;> decide!

/-! ## Assembly of the bytes -/

/-- One turn of the loop of `retrieveByte` whose wait succeeds shifts the sampled
level into the result. -/
theorem retrieveBits_succ_of_sampleBit ( GPIO : Int) (bits result : Nat) (v v1 : World) (s : Bool)
    (hr : result < 128) (h : sampleBit GPIO v = some (some s, v1)) :
    retrieveBits GPIO (bits + 1) result v = retrieveBits GPIO bits (2 * result + levelBit s) v1 := by
  unfold sampleBit at h
  simp only [Prog.andThen_eq_some] at h
  obtain ⟨ok, u1, h1, h⟩ := h
  cases ok with
  | false => simp [Prog.ret] at h
  | true =>
    simp only [Bool.not_true, Bool.false_eq_true, if_false, Prog.andThen_eq_some] at h
    obtain ⟨_, u2, h2, l, u3, h3, h⟩ := h
    simp only [Prog.ret, Option.some.injEq, Prod.mk.injEq] at h
    obtain ⟨hl, hv⟩ := h
    subst hl hv
    have hshift : ∀ r < 128, ((r <<< 1) % 2 ^ 32 ||| 1 = 2 * r + 1)
        ∧ ((r <<< 1) % 2 ^ 32 = 2 * r) := by decide
    obtain ⟨e1, e2⟩ := hshift result hr
    conv => lhs; unfold retrieveBits
    simp only [Prog.andThen, h1, h2, h3, Bool.not_true, Bool.false_eq_true, if_false]
    unfold levelBit
    split
    · rw [e1]
    · rw [e2]; rfl

/-- The interaction of `querySensor` with the world, put together from its steps. -/
theorem observe_of_steps ( GPIO : Int) (w u v0 v1 v2 v3 v4 v5 w1 : World) (then_ now : timeval)
    (b0 b1 b2 b3 b4 : Nat)
    (hwake : wakeSensor GPIO w = some (then_, u))
    (hsync : sensorLowHighWait GPIO u = some (true, v0))
    (h0 : retrieveByte GPIO v0 = some (b0, v1))
    (h1 : retrieveByte GPIO v1 = some (b1, v2))
    (h2 : retrieveByte GPIO v2 = some (b2, v3))
    (h3 : retrieveByte GPIO v3 = some (b3, v4))
    (h4 : retrieveByte GPIO v4 = some (b4, v5))
    (hnow : gettimeofday v5 = some (now, w1)) :
    observe GPIO w
      = some (some { then_ := then_, b0 := b0, b1 := b1, b2 := b2, b3 := b3, b4 := b4, now := now },
          w1) := by
  unfold wakeSensor at hwake
  simp only [Prog.andThen_eq_some] at hwake
  obtain ⟨_, x1, g1, t, x2, g2, _, x3, g3, _, x4, g4, _, x5, g5, _, x6, g6, _, x7, g7,
    _, x8, g8, hret⟩ := hwake
  simp only [Prog.ret, Option.some.injEq, Prod.mk.injEq] at hret
  obtain ⟨ht, hu⟩ := hret
  subst ht hu
  unfold observe
  simp only [Prog.andThen, g1, g2, g3, g4, g5, g6, g7, g8, hsync, h0, h1, h2, h3, h4, hnow,
    Bool.not_true, Bool.false_eq_true, if_false, Prog.ret]

/-- C16. When the eight transition waits of a call of `retrieveByte` succeed and the
line is sampled at the levels `s0 .. s7` (1 for HIGH, 0 for LOW), the call
returns `s0*128 + s1*64 + ... + s7`, a value in 0 .. 255. And when the sync wait
of `querySensor` succeeds, the five bytes `b0 .. b4` returned by its five
successive calls of `retrieveByte` are used in arrival order: `b0 .. b3` become
`results[0..3]`, and `b4` is the checksum their sum modulo 256 is compared
with. -/
theorem retrieveByte_msb_first ( GPIO : Int) :
    (∀ (v0 v1 v2 v3 v4 v5 v6 v7 v8 : World) (s0 s1 s2 s3 s4 s5 s6 s7 : Bool),
        sampleBit GPIO v0 = some (some s0, v1) → sampleBit GPIO v1 = some (some s1, v2) →
        sampleBit GPIO v2 = some (some s2, v3) → sampleBit GPIO v3 = some (some s3, v4) →
        sampleBit GPIO v4 = some (some s4, v5) → sampleBit GPIO v5 = some (some s5, v6) →
        sampleBit GPIO v6 = some (some s6, v7) → sampleBit GPIO v7 = some (some s7, v8) →
        retrieveByte GPIO v0
          = some (levelBit s0 * 128 + levelBit s1 * 64 + levelBit s2 * 32 + levelBit s3 * 16
                  + levelBit s4 * 8 + levelBit s5 * 4 + levelBit s6 * 2 + levelBit s7, v8)
        ∧ levelBit s0 * 128 + levelBit s1 * 64 + levelBit s2 * 32 + levelBit s3 * 16
            + levelBit s4 * 8 + levelBit s5 * 4 + levelBit s6 * 2 + levelBit s7 < 256)
    ∧ (∀ (results : List Nat) (w u v0 v1 v2 v3 v4 v5 w1 : World) (then_ now : timeval)
        (b0 b1 b2 b3 b4 : Nat),
        results.length = 4 →
        wakeSensor GPIO w = some (then_, u) →
        sensorLowHighWait GPIO u = some (true, v0) →
        retrieveByte GPIO v0 = some (b0, v1) → retrieveByte GPIO v1 = some (b1, v2) →
        retrieveByte GPIO v2 = some (b2, v3) → retrieveByte GPIO v3 = some (b3, v4) →
        retrieveByte GPIO v4 = some (b4, v5) →
        gettimeofday v5 = some (now, w1) →
        querySensor GPIO results w
          = some ((if (timersub now then_).tv_sec ≠ 0 ∨ (timersub now then_).tv_usec > 16000
                    then false else decide ((b0 + b1 + b2 + b3) % 256 = b4),
                   [b0, b1, b2, b3]), w1)) := by
  constructor
  · intro v0 v1 v2 v3 v4 v5 v6 v7 v8 s0 s1 s2 s3 s4 s5 s6 s7 h0 h1 h2 h3 h4 h5 h6 h7
    have b : ∀ s : Bool, levelBit s ≤ 1 := by intro s; cases s <;> decide
    have l0 := b s0
    have l1 := b s1
    have l2 := b s2
    have l3 := b s3
    have l4 := b s4
    have l5 := b s5
    have l6 := b s6
    have l7 := b s7
    refine ⟨?_, by omega⟩
    unfold retrieveByte
    rw [retrieveBits_succ_of_sampleBit GPIO 7 _ v0 v1 s0 (by omega) h0,
      retrieveBits_succ_of_sampleBit GPIO 6 _ v1 v2 s1 (by omega) h1,
      retrieveBits_succ_of_sampleBit GPIO 5 _ v2 v3 s2 (by omega) h2,
      retrieveBits_succ_of_sampleBit GPIO 4 _ v3 v4 s3 (by omega) h3,
      retrieveBits_succ_of_sampleBit GPIO 3 _ v4 v5 s4 (by omega) h4,
      retrieveBits_succ_of_sampleBit GPIO 2 _ v5 v6 s5 (by omega) h5,
      retrieveBits_succ_of_sampleBit GPIO 1 _ v6 v7 s6 (by omega) h6,
      retrieveBits_succ_of_sampleBit GPIO 0 _ v7 v8 s7 (by omega) h7]
    simp only [retrieveBits, Prog.ret, Option.some.injEq, Prod.mk.injEq, and_true]
    omega
  · intro results w u v0 v1 v2 v3 v4 v5 w1 then_ now b0 b1 b2 b3 b4 hlen hwake hsync h0 h1 h2 h3
      h4 hnow
    have ho := observe_of_steps GPIO w u v0 v1 v2 v3 v4 v5 w1 then_ now b0 b1 b2 b3 b4 hwake hsync
      h0 h1 h2 h3 h4 hnow
    rw [querySensor_of_observe GPIO results w w1 _ ho]
    simp only [queryChecksum_eq]
    match results, hlen with
    | [a, b, c, d], _ => rfl

/-- C16 in the world that sends the sample frame: the first byte is sampled at the
levels 0, 0, 0, 0, 0, 0, 1, 0 and retrieved as 2, and the five bytes are
assembled into the results `02 8C 01 5F` and the checksum `EE`. -/
theorem retrieveByte_msb_first_witness :
    (retrieveByte 7 (frameStage sampleFrame 2 3 0)
        = some (levelBit LOW * 128 + levelBit LOW * 64 + levelBit LOW * 32 + levelBit LOW * 16
                + levelBit LOW * 8 + levelBit LOW * 4 + levelBit HIGH * 2 + levelBit LOW,
            frameStage sampleFrame 26 19 8)
      ∧ levelBit LOW * 128 + levelBit LOW * 64 + levelBit LOW * 32 + levelBit LOW * 16
          + levelBit LOW * 8 + levelBit LOW * 4 + levelBit HIGH * 2 + levelBit LOW < 256)
    ∧ levelBit LOW * 128 + levelBit LOW * 64 + levelBit LOW * 32 + levelBit LOW * 16
          + levelBit LOW * 8 + levelBit LOW * 4 + levelBit HIGH * 2 + levelBit LOW = 0x02
    ∧ querySensor 7 [0, 0, 0, 0] (worldOf sampleFrame)
        = some ((if (timersub sampleFrame.now sampleFrame.then_).tv_sec ≠ 0
                    ∨ (timersub sampleFrame.now sampleFrame.then_).tv_usec > 16000
                  then false else decide ((0x02 + 0x8C + 0x01 + 0x5F) % 256 = 0xEE),
                 [0x02, 0x8C, 0x01, 0x5F]), frameStage sampleFrame 122 84 40)
    ∧ frameStage sampleFrame 122 84 40 = worldAfterAttempt :=
  ⟨(retrieveByte_msb_first 7).1
      (frameStage sampleFrame 2 3 0) (frameStage sampleFrame 5 5 1)
      (frameStage sampleFrame 8 7 2) (frameStage sampleFrame 11 9 3)
      (frameStage sampleFrame 14 11 4) (frameStage sampleFrame 17 13 5)
      (frameStage sampleFrame 20 15 6) (frameStage sampleFrame 23 17 7)
      (frameStage sampleFrame 26 19 8) LOW LOW LOW LOW LOW LOW HIGH LOW
      (by decide!) (by decide!) (by decide!) (by decide!) (by decide!) (by decide!) (by decide!)
      (by decide!),
    by decide,
    (retrieveByte_msb_first 7).2 [0, 0, 0, 0] (worldOf sampleFrame)
      (frameStage sampleFrame 0 1 0) (frameStage sampleFrame 2 3 0)
      (frameStage sampleFrame 26 19 8) (frameStage sampleFrame 50 35 16)
      (frameStage sampleFrame 74 51 24) (frameStage sampleFrame 98 67 32)
      (frameStage sampleFrame 122 83 40) (frameStage sampleFrame 122 84 40)
      sampleFrame.then_ sampleFrame.now 0x02 0x8C 0x01 0x5F 0xEE rfl
      (by decide!) (by decide!) (by decide!) (by decide!) (by decide!) (by decide!) (by decide!)
      (by decide!),
    by decide!⟩

/-! ## The command line -/

/-- C11, the failing input. For `-p 7 -w :10 -c 20:30` each of the four ranges
handed to `validateThresholdRanges` has `min <= max`; the configuration is
accepted, and the warning temperature range it returns is `[20, 10]`: the
disabled minimum took the critical minimum 20, above the warning maximum 10.
The other three ranges returned still have `min <= max`. -/
theorem validateThresholdRanges_returns_inverted_range :
    parseOptions warnBelowCritOptions defaultParameters = Except.ok warnBelowCrit
    ∧ (warnBelowCrit.warn.temperature.min ≤ warnBelowCrit.warn.temperature.max
        ∧ warnBelowCrit.warn.humidity.min ≤ warnBelowCrit.warn.humidity.max
        ∧ warnBelowCrit.crit.temperature.min ≤ warnBelowCrit.crit.temperature.max
        ∧ warnBelowCrit.crit.humidity.min ≤ warnBelowCrit.crit.humidity.max)
    ∧ validateThresholdRanges warnBelowCrit
        = Except.ok { warnBelowCrit with
            warn := { warnBelowCrit.warn with temperature := { min := 20, max := 10 } } }
    ∧ parseParameters warnBelowCritOptions
        = Except.ok { warnBelowCrit with
            warn := { warnBelowCrit.warn with temperature := { min := 20, max := 10 } } }
    ∧ ¬ ((20 : Int) ≤ 10) := by
  refine ⟨?_, ?_, ?_, ?_, ?_⟩ <;> decide!

/-- C14. Whenever `parseParameters` reports an error, among them the four
configuration errors, `main` ends with `EXIT_FAILURE` in the world it started
in: no level of the line and no time has been read, and no call has been added
to the log, so `parseSensorOutput` has not been called. -/
theorem main_fails_before_sensor_access (options : List (Char × List Char)) (e : Nat) (w : World)
    (h : parseParameters options = Except.error e) :
    main options w = some (Except.error EXIT_FAILURE, w) := by
  unfold main
  rw [h]
  rfl

/-- C14 for `-p 7 -w 10:40 -c 50:60`, a nesting violation, and `-p 7 -c 5:95`, a
bound outside the envelope, in the world that holds the sample frame: the world
is left untouched. -/
theorem main_fails_before_sensor_access_witness :
    parseParameters nestingViolationOptions = Except.error ERRCODE_INVALID_TMP_RANGES
    ∧ main nestingViolationOptions (worldOf sampleFrame)
        = some (Except.error EXIT_FAILURE, worldOf sampleFrame)
    ∧ parseParameters outOfEnvelopeOptions = Except.error ERRCODE_INVALID_TMP_RANGE
    ∧ main outOfEnvelopeOptions (worldOf sampleFrame)
        = some (Except.error EXIT_FAILURE, worldOf sampleFrame) :=
  ⟨by decide!,
    main_fails_before_sensor_access nestingViolationOptions ERRCODE_INVALID_TMP_RANGES
      (worldOf sampleFrame) (by decide!),
    by decide!,
    main_fails_before_sensor_access outOfEnvelopeOptions ERRCODE_INVALID_TMP_RANGE
      (worldOf sampleFrame) (by decide!)⟩

/-- C18, the failing inputs. `parseThresholdRange` accepts strings in which a
number has no digit: `:` and the empty string and `-` give `[-110, 0]`, and
`-:-` gives `[0, 0]`. On strings of the four documented formats it gives the
ranges the formats stand for, inverted bounds swapped, and it rejects strings
with a second colon, a letter, a plus sign or a blank. -/
theorem parseThresholdRange_accepts_missing_digits :
    (parseThresholdRange (cstr ":") = Except.ok { min := -110, max := 0 }
      ∧ parseThresholdRange (cstr "") = Except.ok { min := -110, max := 0 }
      ∧ parseThresholdRange (cstr "-") = Except.ok { min := -110, max := 0 }
      ∧ parseThresholdRange (cstr "-:-") = Except.ok { min := 0, max := 0 })
    ∧ (parseThresholdRange (cstr "40") = Except.ok { min := -110, max := 40 }
      ∧ parseThresholdRange (cstr ":40") = Except.ok { min := -110, max := 40 }
      ∧ parseThresholdRange (cstr "10:") = Except.ok { min := 10, max := 110 }
      ∧ parseThresholdRange (cstr "10:40") = Except.ok { min := 10, max := 40 }
      ∧ parseThresholdRange (cstr "40:10") = Except.ok { min := 10, max := 40 }
      ∧ parseThresholdRange (cstr "-5:5") = Except.ok { min := -5, max := 5 })
    ∧ (parseThresholdRange (cstr "1:2:3") = Except.error ERRCODE_INVALID_THRESHOLD
      ∧ parseThresholdRange (cstr "5a") = Except.error ERRCODE_INVALID_THRESHOLD
      ∧ parseThresholdRange (cstr "+5") = Except.error ERRCODE_INVALID_THRESHOLD
      ∧ parseThresholdRange (cstr " 5") = Except.error ERRCODE_INVALID_THRESHOLD) := by
  refine ⟨⟨?_, ?_, ?_, ?_⟩, ⟨?_, ?_, ?_, ?_, ?_, ?_⟩, ⟨?_, ?_, ?_, ?_⟩⟩ <;> decide!

/-- C19, the failing input. `parseGPIO` accepts the empty string and returns 0 for
it. On the strings `0`, `31` and `007` it returns the pin they denote; it
rejects `32`, `-1`, `+1` and `7a`, and every string with a character that is
not a digit, with the error of the invalid pin, which is the only error it
gives. -/
theorem parseGPIO_accepts_empty_string :
    parseGPIO (cstr "") = Except.ok 0
    ∧ ( parseGPIO (cstr "0") = Except.ok 0 ∧ parseGPIO (cstr "31") = Except.ok 31
      ∧ parseGPIO (cstr "007") = Except.ok 7)
    ∧ ( parseGPIO (cstr "32") = Except.error ERRCODE_INVALID_GPIO
      ∧ parseGPIO (cstr "-1") = Except.error ERRCODE_INVALID_GPIO
      ∧ parseGPIO (cstr "+1") = Except.error ERRCODE_INVALID_GPIO
      ∧ parseGPIO (cstr "7a") = Except.error ERRCODE_INVALID_GPIO)
    ∧ (∀ s : List Char, s.all isdigit = false →
        parseGPIO s = Except.error ERRCODE_INVALID_GPIO)
    ∧ (∀ s : List Char, (∃ n, parseGPIO s = Except.ok n)
        ∨ parseGPIO s = Except.error ERRCODE_INVALID_GPIO) := by
  refine ⟨by decide!, ⟨by decide!, by decide!, by decide!⟩,
    ⟨by decide!, by decide!, by decide!, by decide!⟩, ?_, ?_⟩
  · intro s hs
    unfold parseGPIO
    simp only
    rw [if_pos (by simp [hs])]
    rfl
  · intro s
    unfold parseGPIO
    simp only
    split
    · exact Or.inr rfl
    · split
      · exact Or.inr rfl
      · exact Or.inl ⟨_, rfl⟩

/-! ## Rounding -/

theorem CFloat.log2Aux_lt_pow (fuel n : Nat) (h : n < 2 ^ fuel) :
    n < 2 ^ (CFloat.log2Aux fuel n + 1) := by
  induction fuel generalizing n with
  | zero => simp at h; subst h; simp [CFloat.log2Aux]
  | succ fuel ih =>
    unfold CFloat.log2Aux
    split
    · simpa using (by assumption : n < 2)
    · have h2 : n / 2 < 2 ^ fuel := by
        rw [pow_succ] at h
        omega
      have := ih (n / 2) h2
      rw [pow_succ]
      omega

/-- Rounding `num / den` is unchanged when both are scaled by the same factor. -/
theorem CFloat.roundMag_mul_right (m d c : Nat) (hc : 0 < c) :
    CFloat.roundMag (m * c) (d * c) = CFloat.roundMag m d := by
  unfold CFloat.roundMag
  simp only [Nat.mul_div_mul_right _ _ hc]
  have hq : d * c * 2 ^ (CFloat.log2 (m / d) - 23) = d * 2 ^ (CFloat.log2 (m / d) - 23) * c := by
    ring
  rw [hq, Nat.mul_div_mul_right _ _ hc, Nat.mul_mod_mul_right]
  have h1 : (d * 2 ^ (CFloat.log2 (m / d) - 23) * c
        < 2 * (m % (d * 2 ^ (CFloat.log2 (m / d) - 23)) * c))
      ↔ (d * 2 ^ (CFloat.log2 (m / d) - 23) < 2 * (m % (d * 2 ^ (CFloat.log2 (m / d) - 23)))) := by
    rw [← Nat.mul_assoc]
    exact Nat.mul_lt_mul_right hc
  have h2 : (2 * (m % (d * 2 ^ (CFloat.log2 (m / d) - 23)) * c)
        = d * 2 ^ (CFloat.log2 (m / d) - 23) * c)
      ↔ (2 * (m % (d * 2 ^ (CFloat.log2 (m / d) - 23))) = d * 2 ^ (CFloat.log2 (m / d) - 23)) := by
    rw [← Nat.mul_assoc]
    exact Nat.mul_left_inj (by omega)
  simp only [h1, h2]

/-- The rounded magnitude is less than one spacing below the exact one. -/
theorem CFloat.roundMag_lower (num den : Nat) (hden : 0 < den) :
    num < CFloat.roundMag num den * den + den * 2 ^ (CFloat.log2 (num / den) - 23) := by
  unfold CFloat.roundMag
  simp only
  have hq : 0 < 2 ^ (CFloat.log2 (num / den) - 23) := Nat.pos_pow_of_pos _ (by decide)
  generalize 2 ^ (CFloat.log2 (num / den) - 23) = q at hq ⊢
  have hD : 0 < den * q := Nat.mul_pos hden hq
  have hdm := Nat.div_add_mod num (den * q)
  have hr := Nat.mod_lt num hD
  split
  · have e : (num / (den * q) + 1) * q * den = den * q * (num / (den * q)) + den * q := by ring
    omega
  · have e : num / (den * q) * q * den = den * q * (num / (den * q)) := by ring
    omega

/-- The rounded magnitude is at most one spacing above the exact one. -/
theorem CFloat.roundMag_upper (num den : Nat) :
    CFloat.roundMag num den ≤ num / den + 2 ^ (CFloat.log2 (num / den) - 23) := by
  unfold CFloat.roundMag
  simp only
  have hq : 0 < 2 ^ (CFloat.log2 (num / den) - 23) := Nat.pos_pow_of_pos _ (by decide)
  generalize 2 ^ (CFloat.log2 (num / den) - 23) = q at hq ⊢
  have ht : num / (den * q) * q ≤ num / den := by
    rw [← Nat.div_div_eq_div_mul]
    exact Nat.div_mul_le_self _ _
  split
  · have e : (num / (den * q) + 1) * q = num / (den * q) * q + q := by ring
    omega
  · omega

/-- A rounded magnitude is a multiple of the spacing of its own binade: it is a
binary32 magnitude, and rounding it again leaves it as it is. -/
theorem CFloat.roundMag_dvd (num den : Nat) (hfl : num / den < 2 ^ 277) :
    2 ^ (CFloat.log2 (CFloat.roundMag num den) - 23) ∣ CFloat.roundMag num den := by
  have hL : num / den < 2 ^ (CFloat.log2 (num / den) + 1) :=
    CFloat.log2Aux_lt_pow 277 (num / den) hfl
  by_cases hk0 : CFloat.roundMag num den = 0
  · rw [hk0]; exact Nat.dvd_zero _
  have hLk : 2 ^ CFloat.log2 (CFloat.roundMag num den) ≤ CFloat.roundMag num den :=
    CFloat.log2Aux_pow_le 277 _ hk0
  have hkq : 2 ^ (CFloat.log2 (num / den) - 23) ∣ CFloat.roundMag num den := by
    unfold CFloat.roundMag
    simp only
    exact Dvd.intro_left _ rfl
  -- the rounded magnitude does not pass the top of the binade
  have hle : CFloat.roundMag num den
      ≤ 2 ^ (CFloat.log2 (num / den) - 23) * 2 ^ 24 ∨ CFloat.log2 (num / den) < 23 := by
    by_cases hL23 : CFloat.log2 (num / den) < 23
    · exact Or.inr hL23
    · left
      unfold CFloat.roundMag
      simp only
      have hq : 0 < 2 ^ (CFloat.log2 (num / den) - 23) := Nat.pos_pow_of_pos _ (by decide)
      have hsplit : 2 ^ (CFloat.log2 (num / den) + 1)
          = 2 ^ (CFloat.log2 (num / den) - 23) * 2 ^ 24 := by
        rw [← pow_add]
        congr 1
        omega
      rw [hsplit] at hL
      have ht : num / (den * 2 ^ (CFloat.log2 (num / den) - 23)) < 2 ^ 24 := by
        rw [← Nat.div_div_eq_div_mul]
        exact Nat.div_lt_of_lt_mul hL
      generalize 2 ^ (CFloat.log2 (num / den) - 23) = q at hq ht ⊢
      split
      · calc (num / (den * q) + 1) * q ≤ 2 ^ 24 * q := Nat.mul_le_mul_right _ (by omega)
          _ = q * 2 ^ 24 := Nat.mul_comm _ _
      · calc num / (den * q) * q ≤ 2 ^ 24 * q := Nat.mul_le_mul_right _ (by omega)
          _ = q * 2 ^ 24 := Nat.mul_comm _ _
  have hpowL : 2 ^ (CFloat.log2 (num / den) + 1)
      = 2 * 2 ^ CFloat.log2 (num / den) := by rw [pow_succ]; ring
  rcases hle with hle | hL23
  · -- the binade of the exact value, or the power of two on top of it
    have hL23 : ¬ CFloat.log2 (num / den) < 23 ∨ CFloat.log2 (num / den) < 23 := by omega
    rcases hL23 with hge | hlt
    · have htop : 2 ^ (CFloat.log2 (num / den) - 23) * 2 ^ 24
          = 2 ^ (CFloat.log2 (num / den) + 1) := by
        rw [← pow_add]; congr 1; omega
      rw [htop] at hle
      have hLk2 : 2 ^ CFloat.log2 (CFloat.roundMag num den) ≤ 2 ^ (CFloat.log2 (num / den) + 1) :=
        le_trans hLk hle
      have hLk3 : CFloat.log2 (CFloat.roundMag num den) ≤ CFloat.log2 (num / den) + 1 :=
        (Nat.pow_le_pow_iff_right (by decide)).1 hLk2
      by_cases htopeq : CFloat.roundMag num den = 2 ^ (CFloat.log2 (num / den) + 1)
      · rw [htopeq] at hLk ⊢
        have : CFloat.log2 (2 ^ (CFloat.log2 (num / den) + 1)) ≤ CFloat.log2 (num / den) + 1 :=
          (Nat.pow_le_pow_iff_right (by decide)).1 hLk
        exact Nat.pow_dvd_pow 2 (by omega)
      · have hlt : CFloat.roundMag num den < 2 ^ (CFloat.log2 (num / den) + 1) := by omega
        have hLk4 : CFloat.log2 (CFloat.roundMag num den) < CFloat.log2 (num / den) + 1 :=
          (Nat.pow_lt_pow_iff_right (by decide)).1 (lt_of_le_of_lt hLk hlt)
        exact Dvd.dvd.trans (Nat.pow_dvd_pow 2 (by omega)) hkq
    · have hq1 : 2 ^ (CFloat.log2 (num / den) - 23) = 1 := by
        rw [show CFloat.log2 (num / den) - 23 = 0 by omega]; rfl
      rw [hq1] at hle
      have hLk2 : 2 ^ CFloat.log2 (CFloat.roundMag num den) ≤ 2 ^ 24 := by
        simpa using le_trans hLk hle
      have hLk3 : CFloat.log2 (CFloat.roundMag num den) ≤ 24 :=
        (Nat.pow_le_pow_iff_right (by decide)).1 hLk2
      by_cases h24 : CFloat.log2 (CFloat.roundMag num den) = 24
      · have hk : CFloat.roundMag num den = 2 ^ 24 := by
          rw [h24] at hLk
          simp only [one_mul] at hle
          omega
        rw [h24, hk]
        exact Nat.pow_dvd_pow 2 (by decide)
      · rw [show CFloat.log2 (CFloat.roundMag num den) - 23 = 0 by omega]
        exact one_dvd _
  · have hup := CFloat.roundMag_upper num den
    have hq1 : 2 ^ (CFloat.log2 (num / den) - 23) = 1 := by
      rw [show CFloat.log2 (num / den) - 23 = 0 by omega]; rfl
    rw [hq1] at hup
    have hfl23 : num / den < 2 ^ 23 := by
      have : 2 ^ (CFloat.log2 (num / den) + 1) ≤ 2 ^ 23 :=
        Nat.pow_le_pow_right (by decide) (by omega)
      omega
    have hLk2 : 2 ^ CFloat.log2 (CFloat.roundMag num den) ≤ 2 ^ 23 := by
      have : CFloat.roundMag num den ≤ 2 ^ 23 := by omega
      exact le_trans hLk this
    have hLk3 : CFloat.log2 (CFloat.roundMag num den) ≤ 23 :=
      (Nat.pow_le_pow_iff_right (by decide)).1 hLk2
    rw [show CFloat.log2 (CFloat.roundMag num den) - 23 = 0 by omega]
    exact one_dvd _

/-- Rounding the exact value `num / den` is unchanged when both are scaled by the
same factor. -/
theorem CFloat.round_mul_right (m : Int) (d c : Nat) (hc : 0 < c) :
    CFloat.round (m * (c : Int)) (d * c) = CFloat.round m d := by
  have hcz : (0 : Int) < (c : Int) := by exact_mod_cast hc
  have habs : (m * (c : Int)).natAbs = m.natAbs * c := by
    rw [Int.natAbs_mul]; rfl
  have hsign : (m * (c : Int) < 0) ↔ (m < 0) := by
    constructor
    · intro h
      by_contra hm
      have : 0 ≤ m * (c : Int) := Int.mul_nonneg (by omega) (le_of_lt hcz)
      omega
    · intro h
      exact Int.mul_neg_of_neg_of_pos h hcz
  unfold CFloat.round
  simp only [habs, CFloat.roundMag_mul_right _ _ _ hc, hsign]

/-- The product of two small integers converted to `float` is the conversion of
their product. -/
theorem CFloat.ofInt_mul (a b : Int) (ha : a.natAbs ≤ 2 ^ 24) (hb : b.natAbs ≤ 2 ^ 24) :
    (CFloat.ofInt a).mul (CFloat.ofInt b) = CFloat.ofInt (a * b) := by
  rw [CFloat.ofInt_of_small a ha, CFloat.ofInt_of_small b hb]
  have hpos : 0 < CFloat.one := Nat.pos_pow_of_pos _ (by decide)
  have e : a * (CFloat.one : Int) * (b * (CFloat.one : Int))
      = a * b * (CFloat.one : Int) * (CFloat.one : Int) := by ring
  have := CFloat.round_mul_right (a * b * (CFloat.one : Int)) 1 CFloat.one hpos
  rw [Nat.one_mul] at this
  simp only [CFloat.mul, e, this, CFloat.ofInt]

/-- The sum of two small integers converted to `float` is the conversion of their
sum. -/
theorem CFloat.ofInt_add (a b : Int) (ha : a.natAbs ≤ 2 ^ 24) (hb : b.natAbs ≤ 2 ^ 24) :
    (CFloat.ofInt a).add (CFloat.ofInt b) = CFloat.ofInt (a + b) := by
  rw [CFloat.ofInt_of_small a ha, CFloat.ofInt_of_small b hb]
  have e : a * (CFloat.one : Int) + b * (CFloat.one : Int) = (a + b) * (CFloat.one : Int) := by
    ring
  simp only [CFloat.add, e, CFloat.ofInt]

/-- The quotient of a small integer by a small positive one, both converted to
`float`, is the rounding of the exact quotient. -/
theorem CFloat.ofInt_div (a : Int) (b : Nat) (ha : a.natAbs ≤ 2 ^ 24) (hb : b ≤ 2 ^ 24)
    (hb0 : 0 < b) :
    (CFloat.ofInt a).div (CFloat.ofInt (b : Int)) = CFloat.round (a * (CFloat.one : Int)) b := by
  rw [CFloat.ofInt_of_small a ha, CFloat.ofInt_of_small (b : Int) (by simpa using hb)]
  have hpos : 0 < CFloat.one := Nat.pos_pow_of_pos _ (by decide)
  have hposz : (0 : Int) < (CFloat.one : Int) := by exact_mod_cast hpos
  have hbz : (0 : Int) < (b : Int) := by exact_mod_cast hb0
  have hprod : (0 : Int) < (b : Int) * (CFloat.one : Int) := Int.mul_pos hbz hposz
  have hne : (b : Int) * (CFloat.one : Int) ≠ 0 := by omega
  have hnl : ¬ ((b : Int) * (CFloat.one : Int) < 0) := by omega
  have habs : ((b : Int) * (CFloat.one : Int)).natAbs = b * CFloat.one := by
    rw [Int.natAbs_mul]; rfl
  simp only [CFloat.div, if_neg hne, if_neg hnl, habs]
  exact CFloat.round_mul_right _ _ _ hpos

/-- Multiplying a nonnegative binary32 value by `(float)(-1)` negates it exactly. -/
theorem CFloat.mul_neg_one (k : Nat) (hrep : 2 ^ (CFloat.log2 k - 23) ∣ k)
    (hno : k < CFloat.overflow) :
    (CFloat.fin (k : Int)).mul (CFloat.ofInt (-1)) = CFloat.fin (-(k : Int)) := by
  rw [CFloat.ofInt_of_small (-1) (by decide)]
  have hpos : 0 < CFloat.one := Nat.pos_pow_of_pos _ (by decide)
  have e : (k : Int) * (-1 * (CFloat.one : Int)) = (-(k : Int)) * (CFloat.one : Int) := by ring
  have hc := CFloat.round_mul_right (-(k : Int)) 1 CFloat.one hpos
  rw [Nat.one_mul] at hc
  simp only [CFloat.mul, e, hc]
  unfold CFloat.round
  simp only [Int.natAbs_neg, Int.natAbs_ofNat, CFloat.roundMag_of_dvd k hrep]
  rw [if_neg (by omega)]
  congr 1
  split
  · rfl
  · omega

/-! ## The sign flag -/

theorem CFloat.one_eq : CFloat.one = 713623846352979940529142984724747568191373312 := by
  decide

/-- The spacing of the binary32 values around a tenth of a 16-bit number is at most
`2^138` units, that is `2^-11`. -/
theorem CFloat.spacing_tenth_le (n : Nat) (hn : n < 65536) :
    2 ^ (CFloat.log2 (n * CFloat.one / 10) - 23) ≤ 2 ^ 138 := by
  apply Nat.pow_le_pow_right (by decide)
  by_cases h0 : n * CFloat.one / 10 = 0
  · rw [h0]
    have : CFloat.log2 0 = 0 := by decide
    omega
  · have hle : 2 ^ CFloat.log2 (n * CFloat.one / 10) ≤ n * CFloat.one / 10 :=
      CFloat.log2Aux_pow_le 277 _ h0
    have hlt : n * CFloat.one / 10 < 2 ^ 162 := by
      have e : (2 : Nat) ^ 162 = 5846006549323611672814739330865132078623730171904 := by norm_num
      rw [e, CFloat.one_eq]
      omega
    have : CFloat.log2 (n * CFloat.one / 10) < 162 :=
      (Nat.pow_lt_pow_iff_right (by decide)).1 (lt_of_le_of_lt hle hlt)
    omega

/-- A tenth of a 16-bit number rounds to a finite binary32 value, the rounded
magnitude itself. -/
theorem CFloat.round_tenth (n : Nat) (hn : n < 65536) :
    CFloat.round ((n : Int) * (CFloat.one : Int)) 10
      = CFloat.fin ((CFloat.roundMag (n * CFloat.one) 10 : Nat) : Int)
    ∧ CFloat.roundMag (n * CFloat.one) 10 < CFloat.overflow := by
  have hq := CFloat.spacing_tenth_le n hn
  have hup := CFloat.roundMag_upper (n * CFloat.one) 10
  have e138 : (2 : Nat) ^ 138 = 348449143727040986586495598010130648530944 := by norm_num
  have hov : CFloat.overflow
      = 242833611528216133864932738352939863330300854881517440156476551217363035650651062272 := by
    decide
  have hno : CFloat.roundMag (n * CFloat.one) 10 < CFloat.overflow := by
    rw [hov]
    rw [e138] at hq
    rw [CFloat.one_eq] at hup hq ⊢
    omega
  refine ⟨?_, hno⟩
  have habs : ((n : Int) * (CFloat.one : Int)).natAbs = n * CFloat.one := by
    rw [Int.natAbs_mul]; rfl
  have hnn : ¬ ((n : Int) * (CFloat.one : Int) < 0) := by
    have : (0 : Int) ≤ (n : Int) * (CFloat.one : Int) :=
      Int.mul_nonneg (Int.ofNat_nonneg _) (Int.ofNat_nonneg _)
    omega
  unfold CFloat.round
  simp only [habs, if_neg (not_le.2 hno), if_neg hnn]

/-- A tenth of a 16-bit number with its top bit set rounds to at least 3276.8. -/
theorem CFloat.roundMag_tenth_ge (n : Nat) (h1 : 32768 ≤ n) (h2 : n < 65536) :
    32768 * CFloat.one ≤ 10 * CFloat.roundMag (n * CFloat.one) 10 := by
  by_cases he : n = 32768
  · subst he; decide!
  · have hq := CFloat.spacing_tenth_le n h2
    have hlow := CFloat.roundMag_lower (n * CFloat.one) 10 (by decide)
    have e138 : (2 : Nat) ^ 138 = 348449143727040986586495598010130648530944 := by norm_num
    rw [e138] at hq
    rw [CFloat.one_eq] at hlow hq ⊢
    omega

theorem sign_flag_iff : ∀ b < 256, (b &&& 0x80 ≠ 0 ↔ 128 ≤ b) := by decide

/-- The temperature `parseSensorOutput` computes from a frame: the rounding of
`(b2*256 + b3) / 10`, multiplied by `(float)(-1)` when bit 7 of `b2` is set. -/
theorem parseData_temperature (b0 b1 b2 b3 : Nat) (h2 : b2 < 256) (h3 : b3 < 256) :
    (parseData [b0, b1, b2, b3]).temperature
      = (if b2 &&& 0x80 ≠ 0 then
          (CFloat.round (((b2 * 256 + b3 : Nat) : Int) * (CFloat.one : Int)) 10).mul
            (CFloat.ofInt (-1))
         else CFloat.round (((b2 * 256 + b3 : Nat) : Int) * (CFloat.one : Int)) 10) := by
  have e24 : (2 : Nat) ^ 24 = 16777216 := by norm_num
  have hm := CFloat.ofInt_mul (b2 : Int) 256 (by omega) (by decide)
  have ha := CFloat.ofInt_add ((b2 : Int) * 256) (b3 : Int) (by omega) (by omega)
  have hd := CFloat.ofInt_div ((b2 : Int) * 256 + (b3 : Int)) 10 (by omega) (by decide) (by decide)
  have hcast : (((b2 * 256 + b3 : Nat) : Int)) = (b2 : Int) * 256 + (b3 : Int) := by push_cast; rfl
  have hmag : (((CFloat.ofInt (b2 : Int)).mul (CFloat.ofInt 256)).add (CFloat.ofInt (b3 : Int))).div
      (CFloat.ofInt 10)
      = CFloat.round (((b2 * 256 + b3 : Nat) : Int) * (CFloat.one : Int)) 10 := by
    rw [hm, ha, hcast]
    exact hd
  simp only [parseData, List.getD_cons_succ, List.getD_cons_zero, hmag]

/-- A measurement that `querySensor` validated is made of four bytes. -/
theorem querySensor_true_bytes ( GPIO : Int) (w w1 : World) (d : List Nat)
    (h : querySensor GPIO [0, 0, 0, 0] w = some ((true, d), w1)) :
    ∃ b0 b1 b2 b3, d = [b0, b1, b2, b3] ∧ b0 < 256 ∧ b1 < 256 ∧ b2 < 256 ∧ b3 < 256 := by
  obtain ⟨o, ho⟩ := querySensor_eq_some_iff GPIO _ w _ h
  simp only at ho
  cases o with
  | none =>
    rw [querySensor_of_observe_none GPIO _ w w1 ho] at h
    simp at h
  | some o =>
    rw [querySensor_of_observe GPIO _ w w1 o ho] at h
    simp only [Option.some.injEq, Prod.mk.injEq] at h
    obtain ⟨l0, l1, l2, l3, _⟩ := observe_bytes_lt GPIO w w1 o ho
    exact ⟨o.b0, o.b1, o.b2, o.b3, h.1.2.symm, l0, l1, l2, l3⟩

/-- Whatever the retry loop returns is the not-available value or the decoding of
four bytes that passed the envelope test. -/
theorem queryLoop_result_bytes ( GPIO : Int) (queryRetries : Nat) (w w1 : World) (r : sensorOutput)
    (h : queryLoop GPIO queryRetries w = some (r, w1)) :
    r = notAvailable
    ∨ ∃ b0 b1 b2 b3, r = parseData [b0, b1, b2, b3] ∧ b0 < 256 ∧ b1 < 256 ∧ b2 < 256 ∧ b3 < 256
        ∧ withinCapabilities (parseData [b0, b1, b2, b3]) = true := by
  induction queryRetries generalizing w with
  | zero =>
    simp only [queryLoop, Prog.ret, Option.some.injEq, Prod.mk.injEq] at h
    exact Or.inl h.1.symm
  | succ n ih =>
    unfold queryLoop at h
    simp only [Prog.andThen_eq_some] at h
    obtain ⟨⟨ok, d⟩, v, hq, h⟩ := h
    simp only at h
    split at h
    · rename_i hok
      split at h
      · rename_i hwc
        simp only [Prog.ret, Option.some.injEq, Prod.mk.injEq] at h
        subst hok
        obtain ⟨b0, b1, b2, b3, hd, l0, l1, l2, l3⟩ := querySensor_true_bytes GPIO w v d hq
        subst hd
        exact Or.inr ⟨b0, b1, b2, b3, h.1.symm, l0, l1, l2, l3, hwc⟩
      · exact ih _ h
    · exact ih _ h

/-- C20. For every frame of four data bytes whose byte 2 has bit 7 set, the
temperature `parseSensorOutput` computes is a finite value of at most -3276.8,
and the reading fails the envelope test, so the attempt is discarded; and the
temperature of every measurement `parseSensorOutput` returns is a finite value
that is not below 0. -/
theorem parseSensorOutput_never_negative :
    (∀ b0 b1 b2 b3 : Nat, b0 < 256 → b1 < 256 → b2 < 256 → b3 < 256 → b2 &&& 0x80 ≠ 0 →
        (∃ k : Int, (parseData [b0, b1, b2, b3]).temperature = CFloat.fin k
            ∧ 10 * k ≤ -32768 * (CFloat.one : Int))
        ∧ withinCapabilities (parseData [b0, b1, b2, b3]) = false)
    ∧ (∀ ( GPIO : Int) (w w1 : World) (r : sensorOutput),
        parseSensorOutput GPIO w = some (Except.ok r, w1) →
        ∃ k : Int, r.temperature = CFloat.fin k ∧ 0 ≤ k) := by
  have hflag : ∀ b0 b1 b2 b3 : Nat, b0 < 256 → b1 < 256 → b2 < 256 → b3 < 256 →
      b2 &&& 0x80 ≠ 0 →
      (∃ k : Int, (parseData [b0, b1, b2, b3]).temperature = CFloat.fin k
          ∧ 10 * k ≤ -32768 * (CFloat.one : Int))
      ∧ withinCapabilities (parseData [b0, b1, b2, b3]) = false := by
    intro b0 b1 b2 b3 _ _ h2 h3 hbit
    have h128 := (sign_flag_iff b2 h2).1 hbit
    have hn : b2 * 256 + b3 < 65536 := by omega
    obtain ⟨hr, hno⟩ := CFloat.round_tenth (b2 * 256 + b3) hn
    have hge := CFloat.roundMag_tenth_ge (b2 * 256 + b3) (by omega) hn
    have hrep := CFloat.roundMag_dvd ((b2 * 256 + b3) * CFloat.one) 10
      (lt_of_le_of_lt (Nat.div_le_self _ _) (by rw [CFloat.one_eq]; norm_num; omega))
    have ht : (parseData [b0, b1, b2, b3]).temperature
        = CFloat.fin (-((CFloat.roundMag ((b2 * 256 + b3) * CFloat.one) 10 : Nat) : Int)) := by
      rw [parseData_temperature b0 b1 b2 b3 h2 h3, if_pos hbit, hr]
      exact CFloat.mul_neg_one _ hrep hno
    have hk : 10 * (-((CFloat.roundMag ((b2 * 256 + b3) * CFloat.one) 10 : Nat) : Int))
        ≤ -32768 * (CFloat.one : Int) := by
      have : ((32768 * CFloat.one : Nat) : Int)
          ≤ ((10 * CFloat.roundMag ((b2 * 256 + b3) * CFloat.one) 10 : Nat) : Int) := by
        exact_mod_cast hge
      push_cast at this
      omega
    refine ⟨⟨_, ht, hk⟩, ?_⟩
    have h40 : CFloat.ofInt SENSOR_TMP_MIN = CFloat.fin (-40 * (CFloat.one : Int)) :=
      CFloat.ofInt_of_small (-40) (by decide)
    have hone : (0 : Int) < (CFloat.one : Int) := by
      have : 0 < CFloat.one := Nat.pos_pow_of_pos _ (by decide)
      exact_mod_cast this
    have hfalse : (parseData [b0, b1, b2, b3]).temperature.ge (CFloat.ofInt SENSOR_TMP_MIN)
        = false := by
      rw [ht, h40]
      simp only [CFloat.ge, CFloat.le, decide_eq_false_iff_not]
      omega
    simp [withinCapabilities, hfalse]
  refine ⟨hflag, ?_⟩
  intro GPIO w w1 r h
  have hloop : ∃ v, queryLoop GPIO QUERYRETRIES v = some (r, w1) := by
    unfold parseSensorOutput at h
    split at h
    · simp at h
    · simp only [Prog.andThen_eq_some] at h
      obtain ⟨_, v1, _, r1, v2, hq, h⟩ := h
      simp only [Prog.ret, Option.some.injEq, Prod.mk.injEq, Except.ok.injEq] at h
      obtain ⟨hr, hw⟩ := h
      subst hr hw
      exact ⟨v1, hq⟩
  obtain ⟨v, hq⟩ := hloop
  rcases queryLoop_result_bytes GPIO _ v w1 r hq with hna | ⟨b0, b1, b2, b3, hr, l0, l1, l2, l3, hwc⟩
  · rw [hna]
    exact ⟨110 * (CFloat.one : Int), CFloat.ofInt_of_small 110 (by decide), by
      have : (0 : Int) ≤ (CFloat.one : Int) := Int.ofNat_nonneg _
      omega⟩
  · by_cases hbit : b2 &&& 0x80 ≠ 0
    · have := (hflag b0 b1 b2 b3 l0 l1 l2 l3 hbit).2
      rw [this] at hwc
      exact absurd hwc (by decide)
    · have hn : b2 * 256 + b3 < 65536 := by omega
      obtain ⟨hrt, _⟩ := CFloat.round_tenth (b2 * 256 + b3) hn
      rw [hr, parseData_temperature b0 b1 b2 b3 l2 l3, if_neg hbit, hrt]
      exact ⟨_, rfl, Int.ofNat_nonneg _⟩

/-- C20 at the frame `02 8C 80 64`, whose sign flag is set, and in the world that
sends the sample frame, whose measurement is returned. -/
theorem parseSensorOutput_never_negative_witness :
    ((∃ k : Int, (parseData [0x02, 0x8C, 0x80, 0x64]).temperature = CFloat.fin k
          ∧ 10 * k ≤ -32768 * (CFloat.one : Int))
      ∧ withinCapabilities (parseData [0x02, 0x8C, 0x80, 0x64]) = false)
    ∧ parseSensorOutput 7 (worldOf sampleFrame)
        = some (Except.ok (parseData [0x02, 0x8C, 0x01, 0x5F]), worldAfterParse)
    ∧ ∃ k : Int, (parseData [0x02, 0x8C, 0x01, 0x5F]).temperature = CFloat.fin k ∧ 0 ≤ k :=
  ⟨parseSensorOutput_never_negative.1 0x02 0x8C 0x80 0x64 (by decide) (by decide) (by decide)
      (by decide) (by decide),
    by decide!,
    parseSensorOutput_never_negative.2 7 (worldOf sampleFrame) worldAfterParse
      (parseData [0x02, 0x8C, 0x01, 0x5F]) (by decide!)⟩

/-! ## The sentinel of the temperature minimum -/

/-- C23. The first test of `normalizeThresholdRanges` compares the critical
temperature minimum with `THRNG_DISABLE_MAX`. For every configuration whose
bounds pass the envelope check of `validateThresholdRanges` the critical
temperature minimum is not 110 and the result equals that of the variant that
compares it with `THRNG_DISABLE_MIN`; for every configuration with
`warn.temperature.min = -110` and `crit.temperature.min = 110` the source leaves
the warning minimum at -110, the variant sets it to 110, and the two results
differ. -/
theorem normalizeThresholdRanges_eq_ownSentinel (params : execParameters) :
    (thresholdAllowed params.warn → thresholdAllowed params.crit →
      params.crit.temperature.min ≠ 110
      ∧ normalizeThresholdRanges params = normalizeThresholdRangesOwnSentinel params)
    ∧ (params.warn.temperature.min = -110 → params.crit.temperature.min = 110 →
        (normalizeThresholdRanges params).warn.temperature.min = -110
        ∧ (normalizeThresholdRangesOwnSentinel params).warn.temperature.min = 110
        ∧ normalizeThresholdRanges params ≠ normalizeThresholdRangesOwnSentinel params) := by
  obtain ⟨pin, ⟨⟨wtmin, wtmax⟩, ⟨whmin, whmax⟩⟩, ⟨⟨ctmin, ctmax⟩, ⟨chmin, chmax⟩⟩⟩ := params
  constructor
  · intro _ hc
    obtain ⟨hc1, _, _, _⟩ := hc
    have hne : ctmin ≠ 110 := by
      simp only [boundAllowed, SENSOR_TMP_MIN, SENSOR_TMP_MAX, THRNG_DISABLE_MIN] at hc1
      omega
    refine ⟨hne, ?_⟩
    have hfirst :
        (if wtmin = THRNG_DISABLE_MIN ∧ ctmin ≠ THRNG_DISABLE_MAX then
            ({ GPIO := pin
               warn := { temperature := { min := ctmin, max := wtmax }
                         humidity := { min := whmin, max := whmax } }
               crit := { temperature := { min := ctmin, max := ctmax }
                         humidity := { min := chmin, max := chmax } } } : execParameters)
          else
            { GPIO := pin
              warn := { temperature := { min := wtmin, max := wtmax }
                        humidity := { min := whmin, max := whmax } }
              crit := { temperature := { min := ctmin, max := ctmax }
                        humidity := { min := chmin, max := chmax } } })
        = (if wtmin = THRNG_DISABLE_MIN ∧ ctmin ≠ THRNG_DISABLE_MIN then
            ({ GPIO := pin
               warn := { temperature := { min := ctmin, max := wtmax }
                         humidity := { min := whmin, max := whmax } }
               crit := { temperature := { min := ctmin, max := ctmax }
                         humidity := { min := chmin, max := chmax } } } : execParameters)
          else
            { GPIO := pin
              warn := { temperature := { min := wtmin, max := wtmax }
                        humidity := { min := whmin, max := whmax } }
              crit := { temperature := { min := ctmin, max := ctmax }
                        humidity := { min := chmin, max := chmax } } }) := by
      by_cases hw : wtmin = THRNG_DISABLE_MIN
      · by_cases hcm : ctmin = THRNG_DISABLE_MIN
        · rw [if_pos ⟨hw, by simpa [THRNG_DISABLE_MAX] using hne⟩, if_neg (by simp [hcm])]
          rw [hw, hcm]
        · rw [if_pos ⟨hw, by simpa [THRNG_DISABLE_MAX] using hne⟩, if_pos ⟨hw, hcm⟩]
      · rw [if_neg (by simp [hw]), if_neg (by simp [hw])]
    simp only [normalizeThresholdRanges, normalizeThresholdRangesOwnSentinel]
    rw [hfirst]
  · intro hw hc
    simp only at hw hc
    subst hw hc
    have h1 : (normalizeThresholdRanges
        { GPIO := pin
          warn := { temperature := { min := -110, max := wtmax }
                    humidity := { min := whmin, max := whmax } }
          crit := { temperature := { min := 110, max := ctmax }
                    humidity := { min := chmin, max := chmax } } }).warn.temperature.min
        = -110 := by
      simp only [normalizeThresholdRanges, THRNG_DISABLE_MIN, THRNG_DISABLE_MAX]
      (repeat' split) <;> simp_all
    have h2 : (normalizeThresholdRangesOwnSentinel
        { GPIO := pin
          warn := { temperature := { min := -110, max := wtmax }
                    humidity := { min := whmin, max := whmax } }
          crit := { temperature := { min := 110, max := ctmax }
                    humidity := { min := chmin, max := chmax } } }).warn.temperature.min
        = 110 := by
      simp only [normalizeThresholdRangesOwnSentinel, THRNG_DISABLE_MIN, THRNG_DISABLE_MAX]
      (repeat' split) <;> simp_all
    refine ⟨h1, h2, ?_⟩
    intro h
    rw [h, h2] at h1
    exact absurd h1 (by decide)

/-- C23 at the usage example, whose bounds pass the envelope check, and at the
configuration with a disabled warning temperature minimum and a critical
temperature minimum of 110. -/
theorem normalizeThresholdRanges_eq_ownSentinel_witness :
    thresholdAllowed usageExample.warn ∧ thresholdAllowed usageExample.crit
    ∧ (usageExample.crit.temperature.min ≠ 110
      ∧ normalizeThresholdRanges usageExample = normalizeThresholdRangesOwnSentinel usageExample)
    ∧ critMinAtMaxSentinel.warn.temperature.min = -110
    ∧ critMinAtMaxSentinel.crit.temperature.min = 110
    ∧ ((normalizeThresholdRanges critMinAtMaxSentinel).warn.temperature.min = -110
      ∧ (normalizeThresholdRangesOwnSentinel critMinAtMaxSentinel).warn.temperature.min = 110
      ∧ normalizeThresholdRanges critMinAtMaxSentinel
          ≠ normalizeThresholdRangesOwnSentinel critMinAtMaxSentinel) :=
  ⟨by unfold thresholdAllowed boundAllowed; decide,
    by unfold thresholdAllowed boundAllowed; decide,
    (normalizeThresholdRanges_eq_ownSentinel usageExample).1
      (by unfold thresholdAllowed boundAllowed; decide)
      (by unfold thresholdAllowed boundAllowed; decide),
    rfl, rfl,
    (normalizeThresholdRanges_eq_ownSentinel critMinAtMaxSentinel).2 rfl rfl⟩

/-! ## Classification without a warning threshold, and the range of the status -/

/-- A `float` between two integers passes the C comparisons against every small
bound below the lower and above the upper one. -/
theorem CFloat.ge_le_of_between (x : CFloat) (lo hi a b : Int) (h : x.between lo hi)
    (ha : a ≤ lo) (hb : hi ≤ b) (sa : a.natAbs ≤ 2 ^ 24) (sb : b.natAbs ≤ 2 ^ 24) :
    x.ge (CFloat.ofInt a) = true ∧ x.le (CFloat.ofInt b) = true := by
  obtain ⟨k, rfl, h1, h2⟩ := h
  have hone : (0 : Int) ≤ (CFloat.one : Int) := Int.ofNat_nonneg _
  have m1 : a * (CFloat.one : Int) ≤ lo * (CFloat.one : Int) :=
    Int.mul_le_mul_of_nonneg_right ha hone
  have m2 : hi * (CFloat.one : Int) ≤ b * (CFloat.one : Int) :=
    Int.mul_le_mul_of_nonneg_right hb hone
  rw [CFloat.ofInt_of_small a sa, CFloat.ofInt_of_small b sb]
  simp only [CFloat.ge, CFloat.le, decide_eq_true_eq]
  omega

/-- A `float` between two integers differs from every small integer above them. -/
theorem CFloat.ne_of_between (x : CFloat) (lo hi c : Int) (h : x.between lo hi) (hc : hi < c)
    (sc : c.natAbs ≤ 2 ^ 24) : x.ne (CFloat.ofInt c) = true := by
  obtain ⟨k, rfl, _, h2⟩ := h
  have hone : (0 : Int) < (CFloat.one : Int) := by
    have : 0 < CFloat.one := Nat.pos_pow_of_pos _ (by decide)
    exact_mod_cast this
  have m : hi * (CFloat.one : Int) < c * (CFloat.one : Int) := Int.mul_lt_mul_of_pos_right hc hone
  rw [CFloat.ofInt_of_small c sc]
  simp only [CFloat.ne, CFloat.eq, Bool.not_eq_true', decide_eq_false_iff_not]
  omega

/-- The status `outputResults` returns is the one `outputStatus` computes, the name
it prints is the entry of that index, and the index is in the table. -/
theorem outputResults_result (params : execParameters) (output : sensorOutput) :
    (outputResults params output).result = outputStatus params output
    ∧ (outputResults params output).state = states.get? (outputStatus params output)
    ∧ outputStatus params output ≤ 3 := by
  refine ⟨rfl, rfl, ?_⟩
  unfold outputStatus
  (repeat' split) <;> decide

/-- What `parseSensorOutput` returns comes out of its retry loop. -/
theorem parseSensorOutput_queryLoop ( GPIO : Int) (w w1 : World) (r : sensorOutput)
    (h : parseSensorOutput GPIO w = some (Except.ok r, w1)) :
    ∃ v, queryLoop GPIO QUERYRETRIES v = some (r, w1) := by
  unfold parseSensorOutput at h
  split at h
  · simp at h
  · simp only [Prog.andThen_eq_some] at h
    obtain ⟨_, v1, _, r1, v2, hq, h⟩ := h
    simp only [Prog.ret, Option.some.injEq, Prod.mk.injEq, Except.ok.injEq] at h
    obtain ⟨hr, hw⟩ := h
    subst hr hw
    exact ⟨v1, hq⟩

/-- With equal warning and critical thresholds the status is never 1. -/
theorem outputStatus_of_warn_eq_crit (params : execParameters) (output : sensorOutput)
    (h : params.warn = params.crit) :
    outputStatus params output ≠ 1
    ∧ (output.temperature.ne (CFloat.ofInt SENSOR_NA) = true →
        output.humidity.ne (CFloat.ofInt SENSOR_NA) = true →
        outputStatus params output = 0 ∨ outputStatus params output = 2) := by
  unfold outputStatus
  rw [h]
  constructor
  · split_ifs <;> decide
  · intro ht hh
    rw [if_pos (by simp [ht, hh])]
    split_ifs
    · exact Or.inl rfl
    · exact Or.inr rfl

/-- With the warning threshold left at its defaults and allowed critical bounds,
normalization makes the warning threshold equal to the critical one. -/
theorem normalizeThresholdRanges_default_warn (params : execParameters)
    (hw : params.warn = defaultParameters.warn) (hc : thresholdAllowed params.crit) :
    (normalizeThresholdRanges params).warn = params.crit := by
  obtain ⟨pin, warn, ⟨⟨ctmin, ctmax⟩, ⟨chmin, chmax⟩⟩⟩ := params
  simp only at hw
  subst hw
  obtain ⟨hc1, _, _, _⟩ := hc
  have hne : ctmin ≠ 110 := by
    simp only [boundAllowed, SENSOR_TMP_MIN, SENSOR_TMP_MAX, THRNG_DISABLE_MIN] at hc1
    omega
  simp only [normalizeThresholdRanges, defaultParameters, THRNG_DISABLE_MIN, THRNG_DISABLE_MAX]
  by_cases h2 : ctmax = 110 <;> by_cases h3 : chmin = -110 <;> by_cases h4 : chmax = 110 <;>
    simp [hne, h2, h3, h4]

/-- C22. When the warning threshold is left at its defaults, every configuration
`validateThresholdRanges` returns has `warn = crit`; with it `outputResults`
never returns 1, and returns 0 or 2 for every measurement whose two values
differ from `SENSOR_NA`. When the critical threshold is left at its defaults
too, the configuration is accepted as it is and `outputResults` returns 0 for
every measurement inside the envelope. -/
theorem outputResults_without_warning_option (params : execParameters)
    (hw : params.warn = defaultParameters.warn) :
    (∀ result, validateThresholdRanges params = Except.ok result →
        result.warn = result.crit
        ∧ (∀ output, (outputResults result output).result ≠ 1)
        ∧ (∀ output : sensorOutput, output.temperature.ne (CFloat.ofInt SENSOR_NA) = true →
            output.humidity.ne (CFloat.ofInt SENSOR_NA) = true →
            (outputResults result output).result = 0 ∨ (outputResults result output).result = 2))
    ∧ (params.crit = defaultParameters.crit →
        validateThresholdRanges params = Except.ok params
        ∧ ∀ output : sensorOutput, output.temperature.between (-40) 80 →
            output.humidity.between 0 100 → (outputResults params output).result = 0) := by
  constructor
  · intro result hv
    obtain ⟨_, hc, hr, _⟩ := (validateThresholdRanges_ok_iff params result).1 hv
    have heq : result.warn = result.crit := by
      rw [hr, normalizeThresholdRanges_default_warn params hw hc,
        (normalizeThresholdRanges_crit params).1]
    refine ⟨heq, ?_, ?_⟩
    · intro output
      rw [(outputResults_result result output).1]
      exact (outputStatus_of_warn_eq_crit result output heq).1
    · intro output ht hh
      rw [(outputResults_result result output).1]
      exact (outputStatus_of_warn_eq_crit result output heq).2 ht hh
  · intro hcd
    obtain ⟨pin, warn, crit⟩ := params
    simp only at hw hcd
    subst hw hcd
    have hok : validateThresholdRanges
        { GPIO := pin, warn := defaultParameters.warn, crit := defaultParameters.crit }
        = Except.ok { GPIO := pin, warn := defaultParameters.warn, crit := defaultParameters.crit } := by
      have haw : thresholdAllowed defaultParameters.warn := by
        unfold thresholdAllowed boundAllowed; decide
      have hac : thresholdAllowed defaultParameters.crit := by
        unfold thresholdAllowed boundAllowed; decide
      rw [validateThresholdRanges_ok_iff]
      refine ⟨haw, hac, ?_, ?_⟩
      · simp [normalizeThresholdRanges, defaultParameters, THRNG_DISABLE_MIN, THRNG_DISABLE_MAX]
      · simp only [warnInsideCrit]; decide
    refine ⟨hok, ?_⟩
    intro output ht hh
    have t1 := CFloat.ne_of_between _ (-40) 80 110 ht (by decide) (by decide)
    have h1 := CFloat.ne_of_between _ 0 100 110 hh (by decide) (by decide)
    obtain ⟨t2, t3⟩ := CFloat.ge_le_of_between _ (-40) 80 (-110) 110 ht (by decide) (by decide)
      (by decide) (by decide)
    obtain ⟨h2, h3⟩ := CFloat.ge_le_of_between _ 0 100 (-110) 110 hh (by decide) (by decide)
      (by decide) (by decide)
    rw [(outputResults_result _ output).1]
    simp only [outputStatus, defaultParameters, SENSOR_NA, THRNG_DISABLE_MIN, THRNG_DISABLE_MAX,
      t1, h1, t2, t3, h2, h3, Bool.and_self, if_true]

/-- C22 for `-p 7 -c 5:45,25:75` and for `-p 7` alone: the first is returned with
`warn = crit` and classifies the in-range reading 35.1 °C, 65.2 % as 0 and never
returns 1; the second classifies the same reading as 0. -/
theorem outputResults_without_warning_option_witness :
    critOnlyExample.warn = defaultParameters.warn
    ∧ validateThresholdRanges critOnlyExample
        = Except.ok { critOnlyExample with warn := critOnlyExample.crit }
    ∧ (({ critOnlyExample with warn := critOnlyExample.crit } : execParameters).warn
          = ({ critOnlyExample with warn := critOnlyExample.crit } : execParameters).crit
      ∧ (∀ output, (outputResults { critOnlyExample with warn := critOnlyExample.crit }
            output).result ≠ 1)
      ∧ (∀ output : sensorOutput, output.temperature.ne (CFloat.ofInt SENSOR_NA) = true →
          output.humidity.ne (CFloat.ofInt SENSOR_NA) = true →
          (outputResults { critOnlyExample with warn := critOnlyExample.crit } output).result = 0
          ∨ (outputResults { critOnlyExample with warn := critOnlyExample.crit }
              output).result = 2))
    ∧ (outputResults { critOnlyExample with warn := critOnlyExample.crit }
        (parseData [0x02, 0x8C, 0x01, 0x5F])).result = 0
    ∧ noThresholdExample.warn = defaultParameters.warn
    ∧ noThresholdExample.crit = defaultParameters.crit
    ∧ (validateThresholdRanges noThresholdExample = Except.ok noThresholdExample
      ∧ ∀ output : sensorOutput, output.temperature.between (-40) 80 →
          output.humidity.between 0 100 → (outputResults noThresholdExample output).result = 0) :=
  ⟨rfl, by decide,
    (outputResults_without_warning_option critOnlyExample rfl).1 _ (by decide),
    by decide!, rfl, rfl,
    (outputResults_without_warning_option noThresholdExample rfl).2 rfl⟩

/-- The status of a measurement inside the envelope is 0, 1 or 2. -/
theorem outputStatus_of_between (params : execParameters) (output : sensorOutput)
    (ht : output.temperature.between (-40) 80) (hh : output.humidity.between 0 100) :
    outputStatus params output = 0 ∨ outputStatus params output = 1
      ∨ outputStatus params output = 2 := by
  have t1 := CFloat.ne_of_between _ (-40) 80 110 ht (by decide) (by decide)
  have h1 := CFloat.ne_of_between _ 0 100 110 hh (by decide) (by decide)
  unfold outputStatus
  rw [if_pos (by simp [SENSOR_NA, t1, h1])]
  split_ifs
  · exact Or.inl rfl
  · exact Or.inr (Or.inl rfl)
  · exact Or.inr (Or.inr rfl)

/-- C21. For every measurement inside the envelope (temperature between -40 and
80, humidity between 0 and 100), and so for every value `parseSensorOutput`
returns other than the not-available one, `outputResults` returns 0, 1 or 2 and
not 3; and for every input the status it returns is at most 3 and the table
`states` has an entry at that index, which is the name printed. -/
theorem outputResults_status_in_bounds (params : execParameters) (output : sensorOutput) :
    (output.temperature.between (-40) 80 → output.humidity.between 0 100 →
      (outputResults params output).result ≠ 3
      ∧ ((outputResults params output).result = 0 ∨ (outputResults params output).result = 1
          ∨ (outputResults params output).result = 2))
    ∧ (∀ ( GPIO : Int) (w w1 : World),
        parseSensorOutput GPIO w = some (Except.ok output, w1) → output ≠ notAvailable →
        (outputResults params output).result ≠ 3
        ∧ ((outputResults params output).result = 0 ∨ (outputResults params output).result = 1
            ∨ (outputResults params output).result = 2))
    ∧ (outputResults params output).result ≤ 3
    ∧ (outputResults params output).result < states.length
    ∧ ∃ name, states.get? (outputResults params output).result = some name
        ∧ (outputResults params output).state = some name := by
  have henv : output.temperature.between (-40) 80 → output.humidity.between 0 100 →
      (outputResults params output).result ≠ 3
      ∧ ((outputResults params output).result = 0 ∨ (outputResults params output).result = 1
          ∨ (outputResults params output).result = 2) := by
    intro ht hh
    rw [(outputResults_result params output).1]
    have h := outputStatus_of_between params output ht hh
    refine ⟨?_, h⟩
    omega
  have hle := (outputResults_result params output).2.2
  have hentry : ∀ n ≤ 3, ∃ name, states.get? n = some name := by
    intro n hn
    have h4 : n = 0 ∨ n = 1 ∨ n = 2 ∨ n = 3 := by omega
    rcases h4 with rfl | rfl | rfl | rfl
    · exact ⟨"OK", rfl⟩
    · exact ⟨"WARNING", rfl⟩
    · exact ⟨"CRITICAL", rfl⟩
    · exact ⟨"UNKNOWN", rfl⟩
  refine ⟨henv, ?_, ?_, ?_, ?_⟩
  · intro GPIO w w1 h hna
    obtain ⟨v, hq⟩ := parseSensorOutput_queryLoop GPIO w w1 output h
    rcases queryLoop_result GPIO _ v w1 output hq with hn | hwc
    · exact absurd hn hna
    · obtain ⟨ht, hh⟩ := withinCapabilities_between output hwc
      exact henv ht hh
  · rw [(outputResults_result params output).1]; exact hle
  · rw [(outputResults_result params output).1]
    have : states.length = 4 := rfl
    omega
  · rw [(outputResults_result params output).1, (outputResults_result params output).2.1]
    obtain ⟨name, hname⟩ := hentry _ hle
    exact ⟨name, hname, hname⟩

/-- C21 at the usage example: the reading 35.1 °C, 65.2 % that `parseSensorOutput`
returns for the sample frame lies in the envelope and is classified 0, named
OK; the not-available value is classified 3, named UNKNOWN, the last entry of the
table. -/
theorem outputResults_status_in_bounds_witness :
    (parseData [0x02, 0x8C, 0x01, 0x5F]).temperature.between (-40) 80
    ∧ (parseData [0x02, 0x8C, 0x01, 0x5F]).humidity.between 0 100
    ∧ parseSensorOutput 7 (worldOf sampleFrame)
        = some (Except.ok (parseData [0x02, 0x8C, 0x01, 0x5F]), worldAfterParse)
    ∧ (outputResults usageExample (parseData [0x02, 0x8C, 0x01, 0x5F])).result = 0
    ∧ (outputResults usageExample (parseData [0x02, 0x8C, 0x01, 0x5F])).state = some "OK"
    ∧ (outputResults usageExample notAvailable).result = 3
    ∧ (outputResults usageExample notAvailable).state = some "UNKNOWN"
    ∧ ((outputResults usageExample (parseData [0x02, 0x8C, 0x01, 0x5F])).result ≠ 3
      ∧ ((outputResults usageExample (parseData [0x02, 0x8C, 0x01, 0x5F])).result = 0
          ∨ (outputResults usageExample (parseData [0x02, 0x8C, 0x01, 0x5F])).result = 1
          ∨ (outputResults usageExample (parseData [0x02, 0x8C, 0x01, 0x5F])).result = 2)) :=
  have hwc : withinCapabilities (parseData [0x02, 0x8C, 0x01, 0x5F]) = true := by decide!
  ⟨(withinCapabilities_between _ hwc).1, (withinCapabilities_between _ hwc).2, by decide!,
    by decide!, by decide!, by decide!, by decide!,
    (outputResults_status_in_bounds usageExample (parseData [0x02, 0x8C, 0x01, 0x5F])).1
      (withinCapabilities_between _ hwc).1 (withinCapabilities_between _ hwc).2⟩

/-! ## Classification against the numeric ranges -/

/-- A `float` that is not the number 110 passes the test `!= SENSOR_NA`. -/
theorem CFloat.ne_SENSOR_NA (x : CFloat)
    (h : x ≠ CFloat.fin (SENSOR_NA * (CFloat.one : Int))) :
    x.ne (CFloat.ofInt SENSOR_NA) = true := by
  rw [CFloat.ofInt_of_small SENSOR_NA (by decide)]
  cases x with
  | nan => rfl
  | inf n => rfl
  | fin k =>
    simp only [CFloat.ne, CFloat.eq, Bool.not_eq_true', decide_eq_false_iff_not]
    intro hk
    exact h (by rw [hk])

/-- For bounds a `float` holds without rounding, the C test of `outputResults` on one
axis holds exactly when the value lies between the bounds as numbers. -/
theorem withinRange_iff_insideRange (v : CFloat) (r : thresholdRange)
    (h1 : r.min.natAbs ≤ 2 ^ 24) (h2 : r.max.natAbs ≤ 2 ^ 24) :
    withinRange v r ↔ insideRange v r :=
  ⟨fun h => CFloat.between_of_ge_le v r.min r.max h1 h2 h.1 h.2,
    fun h => CFloat.ge_le_of_between v r.min r.max r.min r.max h (le_refl _) (le_refl _) h1 h2⟩

/-- For a threshold with exact bounds the C tests on both axes hold exactly when
the measurement lies inside the threshold as numbers. -/
theorem withinThreshold_iff_insideThreshold (output : sensorOutput) (t : threshold)
    (h : thresholdExact t) : withinThreshold output t ↔ insideThreshold output t := by
  obtain ⟨h1, h2, h3, h4⟩ := h
  unfold withinThreshold insideThreshold
  rw [withinRange_iff_insideRange _ _ h1 h2, withinRange_iff_insideRange _ _ h3 h4]

/-- Both thresholds of a configuration `validateThresholdRanges` returns have exact
bounds. -/
theorem validateThresholdRanges_exact (params result : execParameters)
    (hv : validateThresholdRanges params = Except.ok result) :
    thresholdExact result.warn ∧ thresholdExact result.crit := by
  obtain ⟨hw, hc, hr, _⟩ := (validateThresholdRanges_ok_iff params result).1 hv
  have haw : thresholdAllowed result.warn := by
    rw [hr]; exact normalizeThresholdRanges_allowed params hw hc
  have hac : thresholdAllowed result.crit := by
    rw [hr, (normalizeThresholdRanges_crit params).1]; exact hc
  exact ⟨thresholdAllowed_small _ haw, thresholdAllowed_small _ hac⟩

/-- Beyond `2^24` the conversion of a bound to `float` rounds, and the C test is no
longer the numeric one. The `int` 2147483647, which `validateThresholdRanges`
rejects as a bound, converts to the `float` 2147483648: against a warning
temperature range of 0 .. 2147483647 and a warning humidity range of 0 .. 100,
the measurement of temperature 2147483648 and humidity 50 is classified OK (0),
although its temperature is above the maximum. -/
theorem outputResults_at_int_maximum :
    CFloat.ofInt 2147483647 = CFloat.fin (2147483648 * (CFloat.one : Int))
    ∧ aboveIntMax.temperature ≠ CFloat.fin (SENSOR_NA * (CFloat.one : Int))
    ∧ aboveIntMax.humidity ≠ CFloat.fin (SENSOR_NA * (CFloat.one : Int))
    ∧ (outputResults maxAtIntMax aboveIntMax).result = 0
    ∧ maxAtIntMax.warn.temperature.max * (CFloat.one : Int) < 2147483648 * (CFloat.one : Int)
    ∧ ¬ insideRange aboveIntMax.temperature maxAtIntMax.warn.temperature
    ∧ ¬ insideThreshold aboveIntMax maxAtIntMax.warn := by
  have hlt : maxAtIntMax.warn.temperature.max * (CFloat.one : Int)
      < 2147483648 * (CFloat.one : Int) := by decide!
  have hin : ¬ insideRange aboveIntMax.temperature maxAtIntMax.warn.temperature := by
    rintro ⟨k, hk, _, h2⟩
    have hk2 : 2147483648 * (CFloat.one : Int) = k := CFloat.fin.inj hk
    rw [← hk2] at h2
    exact absurd hlt (not_lt.2 h2)
  exact ⟨by decide!, by decide!, by decide!, by decide!, hlt, hin, fun h => hin h.1⟩

/-- C1. For every measurement whose temperature and humidity both differ from 110
(a NaN or an infinity included), and every pair of thresholds `warn` and `crit`
that `validateThresholdRanges` returns, the only ones `main` classifies against
— and, more widely, every pair whose bounds have a magnitude of at most
`2^24 = 16777216` — `outputResults` returns 0 exactly when
`warn.temperature.min ≤ temperature ≤ warn.temperature.max` and
`warn.humidity.min ≤ humidity ≤ warn.humidity.max` as numbers; when that fails,
it returns 1 exactly when the same two tests hold for `crit`; and when both
fail it returns 2. -/
theorem outputResults_classifies_numeric (params : execParameters) (output : sensorOutput)
    (ht : output.temperature ≠ CFloat.fin (SENSOR_NA * (CFloat.one : Int)))
    (hh : output.humidity ≠ CFloat.fin (SENSOR_NA * (CFloat.one : Int)))
    (hb : (thresholdExact params.warn ∧ thresholdExact params.crit)
      ∨ ∃ given, validateThresholdRanges given = Except.ok params) :
    ((outputResults params output).result = 0 ↔ insideThreshold output params.warn)
    ∧ (¬ insideThreshold output params.warn →
        ((outputResults params output).result = 1 ↔ insideThreshold output params.crit))
    ∧ (¬ insideThreshold output params.warn → ¬ insideThreshold output params.crit →
        (outputResults params output).result = 2) := by
  have hex : thresholdExact params.warn ∧ thresholdExact params.crit := by
    rcases hb with h | ⟨given, hv⟩
    · exact h
    · exact validateThresholdRanges_exact given params hv
  obtain ⟨hw, hc⟩ := hex
  have h := outputResults_chain params output (CFloat.ne_SENSOR_NA _ ht) (CFloat.ne_SENSOR_NA _ hh)
  rw [withinThreshold_iff_insideThreshold output _ hw,
    withinThreshold_iff_insideThreshold output _ hc] at h
  exact h

/-- C1 at the usage example with a reading of 42 °C and 50 %: the reading is
outside the warning threshold and inside the critical one, and the result is
1. -/
theorem outputResults_classifies_numeric_witness :
    warmReading.temperature ≠ CFloat.fin (SENSOR_NA * (CFloat.one : Int))
    ∧ warmReading.humidity ≠ CFloat.fin (SENSOR_NA * (CFloat.one : Int))
    ∧ (thresholdExact usageExample.warn ∧ thresholdExact usageExample.crit)
    ∧ ¬ insideThreshold warmReading usageExample.warn
    ∧ insideThreshold warmReading usageExample.crit
    ∧ (outputResults usageExample warmReading).result = 1
    ∧ (((outputResults usageExample warmReading).result = 0
          ↔ insideThreshold warmReading usageExample.warn)
      ∧ (¬ insideThreshold warmReading usageExample.warn →
          ((outputResults usageExample warmReading).result = 1
            ↔ insideThreshold warmReading usageExample.crit))
      ∧ (¬ insideThreshold warmReading usageExample.warn →
          ¬ insideThreshold warmReading usageExample.crit →
          (outputResults usageExample warmReading).result = 2)) :=
  have ht : warmReading.temperature ≠ CFloat.fin (SENSOR_NA * (CFloat.one : Int)) := by decide!
  have hh : warmReading.humidity ≠ CFloat.fin (SENSOR_NA * (CFloat.one : Int)) := by decide!
  have hexact : thresholdExact usageExample.warn ∧ thresholdExact usageExample.crit := by
    unfold thresholdExact; decide
  have hr : (outputResults usageExample warmReading).result = 1 := by decide!
  have h := outputResults_classifies_numeric usageExample warmReading ht hh (Or.inl hexact)
  have hnw : ¬ insideThreshold warmReading usageExample.warn := fun hw => by
    have h0 := h.1.2 hw
    rw [hr] at h0
    exact absurd h0 (by decide)
  ⟨ht, hh, hexact, hnw, (h.2.1 hnw).1 hr, hr, h⟩

/-! ## Normalization of a configuration that passed the envelope test -/

/-- A critical temperature range that passes the envelope test of
`validateThresholdRanges` does not have its minimum at `THRNG_DISABLE_MAX`. -/
theorem tmpRangeInvalid_false_min_ne (r : thresholdRange) (h : tmpRangeInvalid r = false) :
    r.min ≠ THRNG_DISABLE_MAX := by
  intro hmin
  have : tmpRangeInvalid r = true := by
    unfold tmpRangeInvalid
    rw [hmin]
    simp [THRNG_DISABLE_MAX, THRNG_DISABLE_MIN, SENSOR_TMP_MIN, SENSOR_TMP_MAX]
  rw [h] at this
  exact absurd this (by decide)

/-- C10. For every configuration whose critical temperature minimum is not 110
(such is every configuration that reaches `normalizeThresholdRanges`: its only
call follows the envelope test of `validateThresholdRanges`, which 110 fails as
a minimum), `normalizeThresholdRanges` returns a configuration in which each
warning bound that was at its sentinel (-110 for a minimum, 110 for a maximum)
equals the critical bound of its side, each warning bound that was not at its
sentinel is unchanged, and `crit` and `GPIO` are unchanged; with
`crit = (temperature 5 .. 45, humidity 25 .. 75)` and `warn` left at the
defaults, whatever the pin, the result has `warn = crit`. -/
theorem normalizeThresholdRanges_inherits_crit (params : execParameters)
    (h : params.crit.temperature.min ≠ THRNG_DISABLE_MAX) :
    (params.warn.temperature.min = THRNG_DISABLE_MIN →
      (normalizeThresholdRanges params).warn.temperature.min = params.crit.temperature.min)
    ∧ (params.warn.temperature.max = THRNG_DISABLE_MAX →
      (normalizeThresholdRanges params).warn.temperature.max = params.crit.temperature.max)
    ∧ (params.warn.humidity.min = THRNG_DISABLE_MIN →
      (normalizeThresholdRanges params).warn.humidity.min = params.crit.humidity.min)
    ∧ (params.warn.humidity.max = THRNG_DISABLE_MAX →
      (normalizeThresholdRanges params).warn.humidity.max = params.crit.humidity.max)
    ∧ (params.warn.temperature.min ≠ THRNG_DISABLE_MIN →
      (normalizeThresholdRanges params).warn.temperature.min = params.warn.temperature.min)
    ∧ (params.warn.temperature.max ≠ THRNG_DISABLE_MAX →
      (normalizeThresholdRanges params).warn.temperature.max = params.warn.temperature.max)
    ∧ (params.warn.humidity.min ≠ THRNG_DISABLE_MIN →
      (normalizeThresholdRanges params).warn.humidity.min = params.warn.humidity.min)
    ∧ (params.warn.humidity.max ≠ THRNG_DISABLE_MAX →
      (normalizeThresholdRanges params).warn.humidity.max = params.warn.humidity.max)
    ∧ (normalizeThresholdRanges params).crit = params.crit
    ∧ execParameters.GPIO (normalizeThresholdRanges params) = execParameters.GPIO params
    ∧ ∀ pin : Int,
        (normalizeThresholdRanges
          { GPIO := pin
            warn := defaultParameters.warn
            crit := { temperature := { min := 5, max := 45 },
                      humidity := { min := 25, max := 75 } } }).warn
        = { temperature := { min := 5, max := 45 }, humidity := { min := 25, max := 75 } } := by
  refine ⟨?_, ?_, ?_, ?_, ?_, ?_, ?_, ?_, (normalizeThresholdRanges_crit params).1,
    (normalizeThresholdRanges_crit params).2, fun pin => rfl⟩
  all_goals
    intro hs
    unfold normalizeThresholdRanges
    simp only
    (repeat' split) <;> simp_all

/-- C10 at the configuration `-p 7 -c 5:45,25:75`, whose critical temperature minimum
is 5: the four warning bounds, all at their sentinels, take the critical
bounds. -/
theorem normalizeThresholdRanges_inherits_crit_witness :
    critOnlyExample.crit.temperature.min ≠ THRNG_DISABLE_MAX
    ∧ critOnlyExample.warn.temperature.min = THRNG_DISABLE_MIN
    ∧ (normalizeThresholdRanges critOnlyExample).warn.temperature.min = 5
    ∧ (normalizeThresholdRanges critOnlyExample).warn = critOnlyExample.crit
    ∧ (normalizeThresholdRanges critOnlyExample).crit = critOnlyExample.crit
    ∧ execParameters.GPIO (normalizeThresholdRanges critOnlyExample) = 7 :=
  have h := normalizeThresholdRanges_inherits_crit critOnlyExample (by decide)
  ⟨by decide, rfl, h.1 rfl, by decide, h.2.2.2.2.2.2.2.2.1, h.2.2.2.2.2.2.2.2.2.1⟩

/-! ## The usage example on the humidities the sensor reports -/

/-- C13. For every configuration `validateThresholdRanges` returns with
`warn.temperature = [10, 40]` and `crit.temperature = [5, 45]`, and every
humidity the sensor reports (between 0 and 100, as every value
`parseSensorOutput` returns with a reading) that lies inside the warning humidity
range, `outputResults` returns 1 (WARNING) for the temperature 42, 2 (CRITICAL)
for the temperature 50 and 0 (OK) for the temperature 20. -/
theorem outputResults_usage_temperatures (params result : execParameters) (humidity : CFloat)
    (hv : validateThresholdRanges params = Except.ok result)
    (hwt : result.warn.temperature = { min := 10, max := 40 })
    (hct : result.crit.temperature = { min := 5, max := 45 })
    (hs : humidity.between SENSOR_HUM_MIN SENSOR_HUM_MAX)
    (hh : insideRange humidity result.warn.humidity) :
    (outputResults result { temperature := CFloat.ofInt 42, humidity := humidity }).result = 1
    ∧ (outputResults result { temperature := CFloat.ofInt 50, humidity := humidity }).result = 2
    ∧ (outputResults result { temperature := CFloat.ofInt 20, humidity := humidity }).result = 0 := by
  obtain ⟨⟨_, _, sw3, sw4⟩, _⟩ := validateThresholdRanges_exact params result hv
  exact outputResults_usage_chain params result humidity hv hwt hct
    ((withinRange_iff_insideRange humidity _ sw3 sw4).2 hh)
    (CFloat.ne_of_between humidity SENSOR_HUM_MIN SENSOR_HUM_MAX SENSOR_NA hs (by decide)
      (by decide))

/-- C13 at the usage example with a humidity of 50 %, inside the warning humidity
range 30 .. 70. -/
theorem outputResults_usage_temperatures_witness :
    validateThresholdRanges usageExample = Except.ok usageExample
    ∧ (CFloat.ofInt 50).between SENSOR_HUM_MIN SENSOR_HUM_MAX
    ∧ insideRange (CFloat.ofInt 50) usageExample.warn.humidity
    ∧ (outputResults usageExample
        { temperature := CFloat.ofInt 42, humidity := CFloat.ofInt 50 }).result = 1
    ∧ (outputResults usageExample
        { temperature := CFloat.ofInt 50, humidity := CFloat.ofInt 50 }).result = 2
    ∧ (outputResults usageExample
        { temperature := CFloat.ofInt 20, humidity := CFloat.ofInt 50 }).result = 0 :=
  have hv : validateThresholdRanges usageExample = Except.ok usageExample := by decide!
  have hs : (CFloat.ofInt 50).between SENSOR_HUM_MIN SENSOR_HUM_MAX :=
    ⟨50 * (CFloat.one : Int), by decide!, by decide!, by decide!⟩
  have hh : insideRange (CFloat.ofInt 50) usageExample.warn.humidity :=
    ⟨50 * (CFloat.one : Int), by decide!, by decide!, by decide!⟩
  ⟨hv, hs, hh, outputResults_usage_temperatures usageExample usageExample (CFloat.ofInt 50) hv
    rfl rfl hs hh⟩

end DHT22
